import Mathlib

/-!
# SPS (Smart Peripheral Switch) driver core: a shallow embedding of `sps.c`

The definitions follow `drivers/platform/msm/sps/sps.c`.  C pointers are natural
numbers (`0` is `NULL`), the objects they point to live in memories indexed by
address, and every call to a collaborator (allocator, resource manager, pipe
engine, locks) is recorded in an ordered trace.  Constants that come from
headers which are not part of the sources are collected in `Consts` and are
parameters of every definition.
-/

namespace Sps

/-! ## Header constants -/

/-- Constants of the headers `msm-sps.h`, `sps_bam.h`, `spsi.h` and `sps_core.h`
used by `sps.c`.  The headers are not among the sources, so the values are
parameters. -/
structure Consts where
  SPS_ERROR : Int
  SPS_IOVEC_FLAG_EOT : Nat
  SPS_IOVEC_FLAG_NWD : Nat
  SPS_IOVEC_FLAG_CMD : Nat
  SPS_IOVEC_FLAG_LOCK : Nat
  SPS_IOVEC_FLAG_UNLOCK : Nat
  SPS_IOVEC_FLAG_IMME : Nat
  SPS_IOVEC_MAX_SIZE : Nat
  SPS_DEV_HANDLE_MEM : Nat
  SPS_DEV_HANDLE_INVALID : Nat
  SPS_BAM_MGR_ACCESS_MASK : Nat
  SPS_BAM_MGR_NONE : Nat
  SPS_BAM_MGR_DEVICE_REMOTE : Nat
  SPS_BAM_OPT_BAMDMA : Nat
  SPS_BAM_HOLD_MEM : Nat
  SPS_IPC_DEFAULT_LOGLEVEL : Nat
  SPS_MODE_SRC : Nat
  SPSRM_CLEAR : Nat
  BAM_MAX_P_LOCK_GROUP_NUM : Nat
  BAM_MAX_PIPES : Nat
  SPS_CONFIG_SATELLITE : Nat
  SPS_IPC_MAX_LOGLEVEL : Nat

/-- One concrete choice of the constants, following the kernel headers on a
64-bit kernel; it is used to evaluate the definitions on examples. -/
def msm_sps_h : Consts where
  SPS_ERROR := -1
  SPS_IOVEC_FLAG_EOT := 0x4000
  SPS_IOVEC_FLAG_NWD := 0x1000
  SPS_IOVEC_FLAG_CMD := 0x0800
  SPS_IOVEC_FLAG_LOCK := 0x0400
  SPS_IOVEC_FLAG_UNLOCK := 0x0200
  SPS_IOVEC_FLAG_IMME := 0x0100
  SPS_IOVEC_MAX_SIZE := 32 * 1024 - 1
  SPS_DEV_HANDLE_MEM := 0x7fffffffffffffff
  SPS_DEV_HANDLE_INVALID := 0
  SPS_BAM_MGR_ACCESS_MASK := 0x1d
  SPS_BAM_MGR_NONE := 0x1d
  SPS_BAM_MGR_DEVICE_REMOTE := 0x1
  SPS_BAM_OPT_BAMDMA := 0x4
  SPS_BAM_HOLD_MEM := 0x100
  SPS_IPC_DEFAULT_LOGLEVEL := 3
  SPS_MODE_SRC := 0
  SPSRM_CLEAR := 0xcccccccc
  BAM_MAX_P_LOCK_GROUP_NUM := 31
  BAM_MAX_PIPES := 31
  SPS_CONFIG_SATELLITE := 0x11
  SPS_IPC_MAX_LOGLEVEL := 4

/-- The six iovec flag masks used by the admission rules are non-zero and
pairwise disjoint (each is its own bit of the flag word). -/
def Consts.flags_distinct (K : Consts) : Prop :=
  K.SPS_IOVEC_FLAG_NWD ≠ 0 ∧ K.SPS_IOVEC_FLAG_EOT ≠ 0 ∧ K.SPS_IOVEC_FLAG_CMD ≠ 0 ∧
  K.SPS_IOVEC_FLAG_LOCK ≠ 0 ∧ K.SPS_IOVEC_FLAG_UNLOCK ≠ 0 ∧ K.SPS_IOVEC_FLAG_IMME ≠ 0 ∧
  K.SPS_IOVEC_FLAG_NWD &&& K.SPS_IOVEC_FLAG_EOT = 0 ∧
  K.SPS_IOVEC_FLAG_NWD &&& K.SPS_IOVEC_FLAG_CMD = 0 ∧
  K.SPS_IOVEC_FLAG_NWD &&& K.SPS_IOVEC_FLAG_LOCK = 0 ∧
  K.SPS_IOVEC_FLAG_NWD &&& K.SPS_IOVEC_FLAG_UNLOCK = 0 ∧
  K.SPS_IOVEC_FLAG_NWD &&& K.SPS_IOVEC_FLAG_IMME = 0 ∧
  K.SPS_IOVEC_FLAG_EOT &&& K.SPS_IOVEC_FLAG_CMD = 0 ∧
  K.SPS_IOVEC_FLAG_EOT &&& K.SPS_IOVEC_FLAG_LOCK = 0 ∧
  K.SPS_IOVEC_FLAG_EOT &&& K.SPS_IOVEC_FLAG_UNLOCK = 0 ∧
  K.SPS_IOVEC_FLAG_EOT &&& K.SPS_IOVEC_FLAG_IMME = 0 ∧
  K.SPS_IOVEC_FLAG_CMD &&& K.SPS_IOVEC_FLAG_LOCK = 0 ∧
  K.SPS_IOVEC_FLAG_CMD &&& K.SPS_IOVEC_FLAG_UNLOCK = 0 ∧
  K.SPS_IOVEC_FLAG_CMD &&& K.SPS_IOVEC_FLAG_IMME = 0 ∧
  K.SPS_IOVEC_FLAG_LOCK &&& K.SPS_IOVEC_FLAG_UNLOCK = 0 ∧
  K.SPS_IOVEC_FLAG_LOCK &&& K.SPS_IOVEC_FLAG_IMME = 0 ∧
  K.SPS_IOVEC_FLAG_UNLOCK &&& K.SPS_IOVEC_FLAG_IMME = 0

instance (K : Consts) : Decidable K.flags_distinct := by
  unfold Consts.flags_distinct; infer_instance

/-- Errno values of `errno-base.h` and `errno.h`. -/
def EAGAIN : Int := 11

/-- Errno `EEXIST`. -/
def EEXIST : Int := 17

/-- Errno `ENODEV`. -/
def ENODEV : Int := 19

/-- Errno `EPROBE_DEFER`. -/
def EPROBE_DEFER : Int := 517

/-- Errno `EINVAL`. -/
def EINVAL : Int := 22

/-- Errno `EFAULT`. -/
def EFAULT : Int := 14

/-! ## Transfer admission control -/

/-- The function `sps_check_iovec_flags` (sps.c, 1548-1589): the chain of six
tests on the flag word; `0` when none fires. -/
def sps_check_iovec_flags (K : Consts) (flags : Nat) : Int :=
  if flags &&& K.SPS_IOVEC_FLAG_NWD ≠ 0 ∧
      ¬ (flags &&& (K.SPS_IOVEC_FLAG_EOT ||| K.SPS_IOVEC_FLAG_CMD) ≠ 0) then
    K.SPS_ERROR
  else if flags &&& K.SPS_IOVEC_FLAG_EOT ≠ 0 ∧ flags &&& K.SPS_IOVEC_FLAG_CMD ≠ 0 then
    K.SPS_ERROR
  else if ¬ (flags &&& K.SPS_IOVEC_FLAG_CMD ≠ 0) ∧
      flags &&& (K.SPS_IOVEC_FLAG_LOCK ||| K.SPS_IOVEC_FLAG_UNLOCK) ≠ 0 then
    K.SPS_ERROR
  else if flags &&& K.SPS_IOVEC_FLAG_LOCK ≠ 0 ∧ flags &&& K.SPS_IOVEC_FLAG_UNLOCK ≠ 0 then
    K.SPS_ERROR
  else if flags &&& K.SPS_IOVEC_FLAG_IMME ≠ 0 ∧ flags &&& K.SPS_IOVEC_FLAG_CMD ≠ 0 then
    K.SPS_ERROR
  else if flags &&& K.SPS_IOVEC_FLAG_IMME ≠ 0 ∧ flags &&& K.SPS_IOVEC_FLAG_NWD ≠ 0 then
    K.SPS_ERROR
  else
    0

/-- A flag is set in a flag word when the word shares a bit with its mask. -/
def flag_set (f mask : Nat) : Prop := f &&& mask ≠ 0

instance (f mask : Nat) : Decidable (flag_set f mask) := by
  unfold flag_set; infer_instance

/-- The six rejection rules of the specification, in its own words: (1) NWD
without EOT or CMD, (2) EOT and CMD, (3) LOCK or UNLOCK without CMD, (4) LOCK and
UNLOCK, (5) IMME and CMD, (6) IMME and NWD. -/
def spec_flag_rules (K : Consts) (f : Nat) : Prop :=
  (flag_set f K.SPS_IOVEC_FLAG_NWD ∧
      ¬ (flag_set f K.SPS_IOVEC_FLAG_EOT ∨ flag_set f K.SPS_IOVEC_FLAG_CMD)) ∨
  (flag_set f K.SPS_IOVEC_FLAG_EOT ∧ flag_set f K.SPS_IOVEC_FLAG_CMD) ∨
  ((flag_set f K.SPS_IOVEC_FLAG_LOCK ∨ flag_set f K.SPS_IOVEC_FLAG_UNLOCK) ∧
      ¬ flag_set f K.SPS_IOVEC_FLAG_CMD) ∨
  (flag_set f K.SPS_IOVEC_FLAG_LOCK ∧ flag_set f K.SPS_IOVEC_FLAG_UNLOCK) ∨
  (flag_set f K.SPS_IOVEC_FLAG_IMME ∧ flag_set f K.SPS_IOVEC_FLAG_CMD) ∨
  (flag_set f K.SPS_IOVEC_FLAG_IMME ∧ flag_set f K.SPS_IOVEC_FLAG_NWD)

instance (K : Consts) (f : Nat) : Decidable (spec_flag_rules K f) := by
  unfold spec_flag_rules; infer_instance


/-! ## Data model -/

/-- A C pointer: an address, `0` being `NULL`. -/
abbrev Ptr := Nat

/-- The fields of `struct sps_bam_props` read or written by `sps.c`. -/
structure sps_bam_props where
  phys_addr : Nat
  virt_addr : Ptr
  virt_size : Nat
  manage : Nat
  options : Nat
  summing_threshold : Nat
  num_pipes : Nat
  ipc_loglevel : Nat
deriving DecidableEq

/-- The fields of `struct sps_bam` read or written by `sps.c`: the copied
properties, the pipe table `pipes[]`, the spinlock `connection_lock` (`true`
when held), the five log channels and the descriptor-cache table. -/
structure sps_bam where
  props : sps_bam_props
  pipes : Nat → Ptr
  connection_lock : Bool
  ipc_log0 : Ptr
  ipc_log1 : Ptr
  ipc_log2 : Ptr
  ipc_log3 : Ptr
  ipc_log4 : Ptr
  ipc_loglevel : Nat
  desc_cache_pointers : Nat → Ptr

/-- The record produced by `kzalloc` followed by `memset(bam, 0, sizeof(*bam))`. -/
def sps_bam.zero : sps_bam where
  props := ⟨0, 0, 0, 0, 0, 0, 0, 0⟩
  pipes := fun _ => 0
  connection_lock := false
  ipc_log0 := 0
  ipc_log1 := 0
  ipc_log2 := 0
  ipc_log3 := 0
  ipc_log4 := 0
  ipc_loglevel := 0
  desc_cache_pointers := fun _ => 0

/-- The connection states of an endpoint (`client_state`): the three states of
the connection state machine. -/
inductive sps_state where
  | SPS_STATE_DISCONNECT
  | SPS_STATE_ALLOCATE
  | SPS_STATE_CONNECT
deriving DecidableEq

/-- The fields of `struct sps_connect` (the connection descriptor) used by
`sps.c`; the name `sps_connect` is kept for the function. -/
structure struct_sps_connect where
  source : Nat
  src_pipe_index : Nat
  destination : Nat
  dest_pipe_index : Nat
  mode : Nat
  options : Nat
  lock_group : Nat
deriving DecidableEq

/-- The fields of `struct sps_connection` (the connection map record) read by
`sps_disconnect` and `sps_set_owner`: the endpoints registered for the two
roles, and the device address and pipe index of the two ends (`src.bam_phys`,
`src.pipe_index`, `dest.bam_phys`, `dest.pipe_index`). -/
structure sps_connection where
  client_src : Ptr
  client_dest : Ptr
  src_bam_phys : Nat
  src_pipe_index : Nat
  dest_bam_phys : Nat
  dest_pipe_index : Nat
deriving DecidableEq

/-- The fields of `struct sps_pipe` (the client context of an endpoint). -/
structure sps_pipe where
  connect : struct_sps_connect
  client_state : sps_state
  bam : Ptr
  pipe_index : Nat
  map : Ptr
deriving DecidableEq

/-- One descriptor, `struct sps_iovec`. -/
structure sps_iovec where
  addr : Nat
  size : Nat
  flags : Nat
deriving DecidableEq

/-- The fields of `struct sps_transfer`: the descriptor array (`none` is a null
`iovec` pointer, otherwise the array read by index) and `iovec_count`; the name `sps_transfer` is kept for the function. -/
structure struct_sps_transfer where
  iovec : Option (Nat → sps_iovec)
  iovec_count : Nat

/-- The fields of `struct sps_drv` used here: the readiness flag and the list
`bams_q` of registered devices, in list order. -/
structure sps_drv where
  is_ready : Bool
  bams_q : List Ptr
deriving DecidableEq

/-- The two kinds of mutex: the global `sps->lock` and the per-device
`bam->lock`. -/
inductive LockId where
  | sps
  | bam (b : Ptr)
deriving DecidableEq

/-- The values of `enum sps_owner`. -/
inductive sps_owner where
  | SPS_OWNER_LOCAL
  | SPS_OWNER_REMOTE
deriving DecidableEq

/-- The fields of `struct sps_satellite`, filled in by `sps_set_owner`. -/
structure sps_satellite where
  dev : Nat
  pipe_index : Nat
  config : Nat
  options : Nat
deriving DecidableEq

/-- The operations of the pipe engine (`sps_bam.c`) called from the hot path,
with the arguments `sps.c` passes besides the device and the pipe index. -/
inductive PipeOp where
  | sps_bam_pipe_reg_event (reg : Ptr)
  | sps_bam_pipe_transfer_one (addr : Nat) (size : Nat) (user : Ptr) (flags : Nat)
  | sps_bam_pipe_get_event (notify : Ptr)
  | sps_bam_pipe_is_empty (empty : Ptr)
  | sps_bam_get_free_count (count : Ptr)
  | sps_bam_pipe_set_params (options : Nat)
  | sps_bam_set_satellite
  | sps_bam_pipe_get_unused_desc_num (desc_num : Ptr)
  | sps_bam_pipe_get_iovec (iovec : Ptr)
  | sps_bam_pipe_timer_ctrl (timer_ctrl : Ptr) (timer_result : Ptr)
deriving DecidableEq

/-- The dump actions of the diagnostic selector, on the device record `bam`
(whose `base` and `props.ee` the printing routines receive): full BAM-level
registers, full registers of a pipe, selected BAM-level registers, selected
registers of a pipe, the descriptor FIFO of a pipe with its `option` argument,
the test-bus registers with the selector. -/
inductive DumpAction where
  | print_bam_reg (bam : Ptr)
  | print_bam_pipe_reg (bam : Ptr) (pipe : Nat)
  | print_bam_selected_reg (bam : Ptr)
  | print_bam_pipe_selected_reg (bam : Ptr) (pipe : Nat)
  | print_bam_pipe_desc_fifo (bam : Ptr) (pipe : Nat) (option : Nat)
  | print_bam_test_bus_reg (bam : Ptr) (tb_sel : Nat)
deriving DecidableEq

/-- The two `pr_info` messages of `sps_get_bam_debug_info`: the test-bus
selector is zero, no option is chosen; and the two of the switch of
`sps_set_bam_addr`: the test-bus registers are output for all selectors, no
dump option is chosen. -/
inductive Message where
  | test_bus_sel_zero
  | no_option_chosen
  | test_bus_all_sel
  | no_dump_option_chosen
deriving DecidableEq

/-- The fields of `struct sps_mem_buffer` written by `sps_setup_bam2bam_fifo`. -/
structure sps_mem_buffer where
  base : Ptr
  phys_base : Nat
  size : Nat
deriving DecidableEq

/-- The global variables of the debugfs interface read by `sps_set_bam_addr`
(sps.c, 56-64). -/
structure debugfs_vars where
  reg_dump_option : Nat
  testbus_sel : Nat
  bam_pipe_sel : Nat
  desc_option : Nat
  log_level_sel : Nat
deriving DecidableEq

/-- The calls to collaborators, in the order they are made.  The constructor
`sps_disconnect` marks an entry into `sps_disconnect`. -/
inductive Event where
  | mutex_lock (l : LockId)
  | mutex_unlock (l : LockId)
  | spin_lock_irqsave (bam : Ptr)
  | spin_unlock_irqrestore (bam : Ptr)
  | ioremap (phys_addr : Nat) (size : Nat) (ret : Ptr)
  | iounmap (virt_addr : Ptr)
  | kzalloc (ret : Ptr)
  | kfree (p : Ptr)
  | ipc_log_context_create (n : Nat) (ret : Ptr)
  | ipc_log_context_destroy (ctx : Ptr)
  | sps_bam_device_init (bam : Ptr) (ret : Int)
  | sps_bam_device_de_init (bam : Ptr)
  | sps_dma_device_init (bam : Ptr) (ret : Int)
  | sps_dma_device_de_init (bam : Ptr)
  | sps_rm_state_change (pipe : Ptr) (state : sps_state) (ret : Int)
  | sps_rm_config_init (pipe : Ptr)
  | sps_disconnect (h : Ptr)
  | bam_pipe_halt (bam : Ptr) (pipe_index : Nat) (halt : Bool)
  | sps_bam_pipe_transfer (bam : Ptr) (pipe_index : Nat) (ret : Int)
  | pipe_engine (op : PipeOp) (bam : Ptr) (pipe_index : Nat) (ret : Int)
  | dump (a : DumpAction)
  | pr_info (m : Message)
  | bam_pipe_reset (bam : Ptr) (pipe : Nat)
  | bam_disable_pipe (bam : Ptr) (pipe : Nat)
  | sps_bam_pipe_pending_desc (bam : Ptr) (pipe : Nat) (ret : Bool)
  | sps_bam_pipe_inject_zlt (bam : Ptr) (pipe : Nat) (ret : Int)
  | memset (p : Ptr) (n : Nat)
deriving DecidableEq

/-- The state of the program: the global pointer `sps` (`none` when `NULL`), the
memories holding the device records, endpoints and map records, and the trace
of collaborator calls made so far.  The fields `pipemem_phys_base` and
`pipemem_size` are those of the driver state `*sps`, read only where `sps` is
not `NULL`. -/
structure World where
  sps : Option sps_drv
  bam_mem : Ptr → sps_bam
  pipe_mem : Ptr → sps_pipe
  map_mem : Ptr → sps_connection
  trace : List Event
  pipemem_phys_base : Nat := 0
  pipemem_size : Nat := 0

/-- Append one call to the trace. -/
def World.log (w : World) (e : Event) : World :=
  { w with trace := w.trace ++ [e] }

/-- The collaborators of `sps.c`, which are not among the sources: each gives
the value its call returns in the current state.  `sps_rm_config_init` is the
default descriptor that the Resource Manager writes; `pipe_engine` gives the
result of a pipe-engine operation on a device and pipe index;
`SPS_GET_LOWER_ADDR` and `DESC_FLAG_WORD` are the header macros used by
`sps_transfer_one`; `phys_addr_bits` is the width of the type `phys_addr_t`. -/
structure Env where
  K : Consts
  CONFIG_SPS_SUPPORT_BAMDMA : Bool
  ioremap : World → Nat → Nat → Ptr
  kzalloc : World → Ptr
  ipc_log_context_create : World → Nat → Ptr
  sps_bam_device_init : World → Ptr → Int × sps_bam
  sps_dma_device_init : World → Ptr → Int
  rm_result : World → Ptr → sps_state → Int
  rm_pipe_index : World → Ptr → Nat
  rm_map : World → Ptr → Ptr
  sps_rm_config_init : struct_sps_connect
  sps_bam_pipe_transfer : World → Ptr → Nat → struct_sps_transfer → Int
  pipe_engine : World → PipeOp → Ptr → Nat → Int
  SPS_GET_LOWER_ADDR : Nat → Nat
  DESC_FLAG_WORD : Nat → Nat → Nat
  sps_bam_pipe_pending_desc : World → Ptr → Nat → Bool
  sps_bam_pipe_inject_zlt : World → Ptr → Nat → Int
  spsi_get_mem_ptr : Nat → Ptr
  phys_addr_bits : Nat

/-- The events appended to the trace between state `w` and a later state `w2`. -/
def new_events (w w2 : World) : List Event :=
  w2.trace.drop w.trace.length

/-! ## Registry lookups -/

/-- The function `phy2bam` (sps.c, 1083-1095): the first record of `bams_q` whose
physical address matches, or `NULL`. -/
def phy2bam (w : World) (drv : sps_drv) (phys_addr : Nat) : Ptr :=
  match drv.bams_q.find? (fun bam => (w.bam_mem bam).props.phys_addr = phys_addr) with
  | some bam => bam
  | none => 0

/-- The function `sps_h2bam` (sps.c, 1212-1229): `NULL` for the two reserved
handles, otherwise the record of `bams_q` whose address is the handle, or
`NULL`.  With `sps == NULL` the list walk dereferences a null pointer; the model
gives the walk no element. -/
def sps_h2bam (K : Consts) (w : World) (h : Nat) : Ptr :=
  if h = K.SPS_DEV_HANDLE_MEM ∨ h = K.SPS_DEV_HANDLE_INVALID then 0
  else
    match w.sps with
    | none => 0
    | some drv =>
      match drv.bams_q.find? (fun bam => bam = h) with
      | some bam => bam
      | none => 0

/-! ## Fast lock and ownership check -/

/-- The call `spin_lock_irqsave(&bam->connection_lock, ...)`. -/
def spin_lock_irqsave (w : World) (bam : Ptr) : World :=
  { w with
    bam_mem := Function.update w.bam_mem bam { w.bam_mem bam with connection_lock := true }
    trace := w.trace ++ [Event.spin_lock_irqsave bam] }

/-- The call `spin_unlock_irqrestore(&bam->connection_lock, ...)`. -/
def spin_unlock_irqrestore (w : World) (bam : Ptr) : World :=
  { w with
    bam_mem := Function.update w.bam_mem bam { w.bam_mem bam with connection_lock := false }
    trace := w.trace ++ [Event.spin_unlock_irqrestore bam] }

/-- The function `sps_bam_lock` (sps.c, 1241-1269): the returned pointer (`0` on
failure) and the state after the call. -/
def sps_bam_lock (w : World) (pipe : Ptr) : Ptr × World :=
  let bam := (w.pipe_mem pipe).bam
  if bam = 0 then (0, w)
  else
    let w1 := spin_lock_irqsave w bam
    let pipe_index := (w1.pipe_mem pipe).pipe_index
    if pipe_index ≥ (w1.bam_mem bam).props.num_pipes ∨
        pipe ≠ (w1.bam_mem bam).pipes pipe_index then
      (0, spin_unlock_irqrestore w1 bam)
    else (bam, w1)

/-- The function `sps_bam_unlock` (sps.c, 1279-1282). -/
def sps_bam_unlock (w : World) (bam : Ptr) : World :=
  spin_unlock_irqrestore w bam

/-- The function `sps_flow_on` (sps.c, 1486-1509). -/
def sps_flow_on (E : Env) (w : World) (h : Ptr) : Int × World :=
  if h = 0 then (E.K.SPS_ERROR, w)
  else
    let r := sps_bam_lock w h
    if r.1 = 0 then (E.K.SPS_ERROR, r.2)
    else
      let w2 := r.2.log (Event.bam_pipe_halt r.1 (r.2.pipe_mem h).pipe_index false)
      (0, sps_bam_unlock w2 r.1)

/-! ## Transfer submission -/

/-- The verification loop of `sps_transfer` (sps.c, 1617-1632) over `n`
descriptors starting at position `i` of the array: `SPS_ERROR` at the first
descriptor that is too large or whose flags are rejected, `0` when the loop
runs to its end. -/
def verify_iovecs (K : Consts) (iovec : Nat → sps_iovec) (i : Nat) : Nat → Int
  | 0 => 0
  | n + 1 =>
    if (iovec i).size > K.SPS_IOVEC_MAX_SIZE then K.SPS_ERROR
    else if sps_check_iovec_flags K (iovec i).flags ≠ 0 then K.SPS_ERROR
    else verify_iovecs K iovec (i + 1) n

/-- The function `sps_transfer` (sps.c, 1595-1645); `transfer = none` is a null
`transfer` pointer. -/
def sps_transfer (E : Env) (w : World) (h : Ptr) (transfer : Option struct_sps_transfer) :
    Int × World :=
  if h = 0 then (E.K.SPS_ERROR, w)
  else
    match transfer with
    | none => (E.K.SPS_ERROR, w)
    | some t =>
      match t.iovec with
      | none => (E.K.SPS_ERROR, w)
      | some iovec =>
        if t.iovec_count = 0 then (E.K.SPS_ERROR, w)
        else if verify_iovecs E.K iovec 0 t.iovec_count ≠ 0 then (E.K.SPS_ERROR, w)
        else
          let r := sps_bam_lock w h
          if r.1 = 0 then (E.K.SPS_ERROR, r.2)
          else
            let result := E.sps_bam_pipe_transfer r.2 r.1 (r.2.pipe_mem h).pipe_index t
            let w2 := r.2.log
              (Event.sps_bam_pipe_transfer r.1 (r.2.pipe_mem h).pipe_index result)
            (result, sps_bam_unlock w2 r.1)

/-! ## State updates -/

/-- Store a device record at address `p`. -/
def World.set_bam (w : World) (p : Ptr) (b : sps_bam) : World :=
  { w with bam_mem := Function.update w.bam_mem p b }

/-- Store an endpoint at address `p`. -/
def World.set_pipe (w : World) (p : Ptr) (e : sps_pipe) : World :=
  { w with pipe_mem := Function.update w.pipe_mem p e }

/-- Store a connection map record at address `p`. -/
def World.set_map (w : World) (p : Ptr) (m : sps_connection) : World :=
  { w with map_mem := Function.update w.map_mem p m }

/-- Replace the list `sps->bams_q`. -/
def World.set_bams_q (w : World) (q : List Ptr) : World :=
  { w with sps := w.sps.map (fun drv => { drv with bams_q := q }) }

/-- The C update `x &= ~mask`: the bits of `mask` are cleared in `x`. -/
def clear_bits (x mask : Nat) : Nat := x ^^^ (x &&& mask)

/-! ## Device registry -/

/-- The loop of `sps_deregister_bam_device` (sps.c, 2299-2301) from index `n`
for `k` more rounds: every non-null `desc_cache_pointers[n]` is passed to
`kfree`. -/
def free_desc_cache (bam : Ptr) (n : Nat) : Nat → World → World
  | 0, w => w
  | k + 1, w =>
    free_desc_cache bam (n + 1) k
      (if (w.bam_mem bam).desc_cache_pointers n ≠ 0 then
        w.log (Event.kfree ((w.bam_mem bam).desc_cache_pointers n))
      else w)

/-- The function `sps_deregister_bam_device` (sps.c, 2277-2334). -/
def sps_deregister_bam_device (E : Env) (w : World) (dev_handle : Nat) : Int × World :=
  if dev_handle = 0 then (E.K.SPS_ERROR, w)
  else
    let bam := sps_h2bam E.K w dev_handle
    if bam = 0 then (E.K.SPS_ERROR, w)
    else
      let w1 :=
        if (w.bam_mem bam).props.options &&& E.K.SPS_BAM_HOLD_MEM ≠ 0 then
          free_desc_cache bam 0 E.K.BAM_MAX_PIPES w
        else w
      let w2 :=
        if E.CONFIG_SPS_SUPPORT_BAMDMA = true ∧
            (w1.bam_mem bam).props.options &&& E.K.SPS_BAM_OPT_BAMDMA ≠ 0 then
          let a := (w1.log (Event.mutex_lock (LockId.bam bam))).log
            (Event.sps_dma_device_de_init bam)
          let b := a.set_bam bam
            { a.bam_mem bam with
              props := { (a.bam_mem bam).props with
                options := clear_bits (a.bam_mem bam).props.options E.K.SPS_BAM_OPT_BAMDMA } }
          b.log (Event.mutex_unlock (LockId.bam bam))
        else w1
      let w3 := w2.log (Event.mutex_lock LockId.sps)
      let w4 := w3.set_bams_q
        (match w3.sps with
          | some drv => drv.bams_q.erase bam
          | none => [])
      let w5 := w4.log (Event.mutex_unlock LockId.sps)
      let w6 := ((w5.log (Event.mutex_lock (LockId.bam bam))).log
        (Event.sps_bam_device_de_init bam)).log (Event.mutex_unlock (LockId.bam bam))
      let w7 := (((((w6.log (Event.ipc_log_context_destroy (w6.bam_mem bam).ipc_log0)).log
        (Event.ipc_log_context_destroy (w6.bam_mem bam).ipc_log1)).log
        (Event.ipc_log_context_destroy (w6.bam_mem bam).ipc_log2)).log
        (Event.ipc_log_context_destroy (w6.bam_mem bam).ipc_log3)).log
        (Event.ipc_log_context_destroy (w6.bam_mem bam).ipc_log4))
      let w8 :=
        if (w7.bam_mem bam).props.virt_size ≠ 0 then
          w7.log (Event.iounmap (w7.bam_mem bam).props.virt_addr)
        else w7
      (0, w8.log (Event.kfree bam))

/-- The label `exit_err` of `sps_register_bam_device` on a failing path (sps.c,
2241-2252): the global mutex is released and, when a record was allocated, the
mapping made by this call (if any) is unmapped and the record is freed. -/
def register_exit_err (w : World) (bam : Ptr) (virt_addr : Ptr) : World :=
  let w1 := w.log (Event.mutex_unlock LockId.sps)
  if bam ≠ 0 then
    let w2 :=
      if virt_addr ≠ 0 then w1.log (Event.iounmap (w1.bam_mem bam).props.virt_addr)
      else w1
    w2.log (Event.kfree bam)
  else w1

/-- The initialisation of a freshly allocated record in
`sps_register_bam_device` (sps.c, 2173-2226): zeroing, the copy of the
properties, the override of `virt_addr` by a mapping made by this call, the five
log channels and the log level. -/
def register_fill (E : Env) (w : World) (bam : Ptr) (props : sps_bam_props)
    (virt_addr : Ptr) : World :=
  let w1 := (w.set_bam bam sps_bam.zero).log (Event.mutex_lock (LockId.bam bam))
  let p1 := if virt_addr ≠ 0 then { props with virt_addr := virt_addr } else props
  let w2 := w1.set_bam bam { w1.bam_mem bam with props := p1 }
  let l0 := E.ipc_log_context_create w2 0
  let w3 := (w2.set_bam bam { w2.bam_mem bam with ipc_log0 := l0 }).log
    (Event.ipc_log_context_create 0 l0)
  let l1 := E.ipc_log_context_create w3 1
  let w4 := (w3.set_bam bam { w3.bam_mem bam with ipc_log1 := l1 }).log
    (Event.ipc_log_context_create 1 l1)
  let l2 := E.ipc_log_context_create w4 2
  let w5 := (w4.set_bam bam { w4.bam_mem bam with ipc_log2 := l2 }).log
    (Event.ipc_log_context_create 2 l2)
  let l3 := E.ipc_log_context_create w5 3
  let w6 := (w5.set_bam bam { w5.bam_mem bam with ipc_log3 := l3 }).log
    (Event.ipc_log_context_create 3 l3)
  let l4 := E.ipc_log_context_create w6 4
  let w7 := (w6.set_bam bam { w6.bam_mem bam with ipc_log4 := l4 }).log
    (Event.ipc_log_context_create 4 l4)
  w7.set_bam bam
    { w7.bam_mem bam with
      ipc_loglevel :=
        if props.ipc_loglevel ≠ 0 then props.ipc_loglevel else E.K.SPS_IPC_DEFAULT_LOGLEVEL }

/-- The tail of `sps_register_bam_device` after a successful registration (sps.c,
2254-2269): with `CONFIG_SPS_SUPPORT_BAMDMA`, a device carrying the BAM-DMA option
is handed to `sps_dma_device_init`, and deregistered again when that fails. -/
def register_bamdma (E : Env) (w : World) (bam : Ptr) : Int × World :=
  if E.CONFIG_SPS_SUPPORT_BAMDMA = true ∧
      (w.bam_mem bam).props.options &&& E.K.SPS_BAM_OPT_BAMDMA ≠ 0 then
    let r := E.sps_dma_device_init w bam
    let w1 := w.log (Event.sps_dma_device_init bam r)
    if r ≠ 0 then
      let w2 := w1.set_bam bam
        { w1.bam_mem bam with
          props := { (w1.bam_mem bam).props with
            options := clear_bits (w1.bam_mem bam).props.options E.K.SPS_BAM_OPT_BAMDMA } }
      (E.K.SPS_ERROR, (sps_deregister_bam_device E w2 bam).2)
    else (0, w1)
  else (0, w)

/-- The part of `sps_register_bam_device` that follows a successful `kzalloc`
(sps.c, 2173-2269): the record at `bam` is filled in and initialised; when
`sps_bam_device_init` fails the call leaves through `exit_err`, otherwise the
record is appended to `bams_q` and the handle variable receives its address. -/
def register_record (E : Env) (w3 : World) (drv : sps_drv) (props : sps_bam_props)
    (bam virt_addr : Ptr) : Int × Option Nat × World :=
  let w4 := register_fill E w3 bam props virt_addr
  let ok := E.sps_bam_device_init w4 bam
  let w5 := ((w4.set_bam bam ok.2).log (Event.sps_bam_device_init bam ok.1)).log
    (Event.mutex_unlock (LockId.bam bam))
  if ok.1 ≠ 0 then
    (E.K.SPS_ERROR, some E.K.SPS_DEV_HANDLE_INVALID, register_exit_err w5 bam virt_addr)
  else
    let w6 := (w5.set_bams_q (drv.bams_q ++ [bam])).log (Event.mutex_unlock LockId.sps)
    let r := register_bamdma E w6 bam
    (r.1, some bam, r.2)

/-- The allocation of the record in `sps_register_bam_device` (sps.c, 2166-2172)
and what follows it; `virt_addr` is the mapping made by this call, or `NULL`. -/
def register_alloc (E : Env) (w2 : World) (drv : sps_drv) (props : sps_bam_props)
    (virt_addr : Ptr) : Int × Option Nat × World :=
  let bam := E.kzalloc w2
  let w3 := w2.log (Event.kzalloc bam)
  if bam = 0 then
    (E.K.SPS_ERROR, some E.K.SPS_DEV_HANDLE_INVALID, register_exit_err w3 bam virt_addr)
  else register_record E w3 drv props bam virt_addr

/-- The part of `sps_register_bam_device` that follows the duplicate check (sps.c,
2153-2269): the virtual mapping, when management access is requested and the
caller gave no virtual address, then the allocation. -/
def register_new (E : Env) (w1 : World) (drv : sps_drv) (props : sps_bam_props) :
    Int × Option Nat × World :=
  if props.manage &&& E.K.SPS_BAM_MGR_ACCESS_MASK ≠ E.K.SPS_BAM_MGR_NONE ∧
      props.virt_addr = 0 then
    let virt_addr := E.ioremap w1 props.phys_addr props.virt_size
    let w2 := w1.log (Event.ioremap props.phys_addr props.virt_size virt_addr)
    if virt_addr = 0 then
      (E.K.SPS_ERROR, some E.K.SPS_DEV_HANDLE_INVALID, register_exit_err w2 0 virt_addr)
    else register_alloc E w2 drv props virt_addr
  else register_alloc E w1 drv props 0

/-- The function `sps_register_bam_device` (sps.c, 2084-2270).  `bam_props = none`
is a null pointer; `dev_handle` is the caller's handle variable (`none` for a null
pointer, otherwise its content).  The result is the return value, the final
content of the handle variable and the final state. -/
def sps_register_bam_device (E : Env) (w : World) (bam_props : Option sps_bam_props)
    (dev_handle : Option Nat) : Int × Option Nat × World :=
  match bam_props with
  | none => (E.K.SPS_ERROR, dev_handle, w)
  | some props =>
    match dev_handle with
    | none => (E.K.SPS_ERROR, none, w)
    | some hv =>
      match w.sps with
      | none => (-EPROBE_DEFER, some hv, w)
      | some drv =>
        if drv.is_ready = false ∧ ¬ (props.options &&& E.K.SPS_BAM_OPT_BAMDMA ≠ 0) then
          (-EAGAIN, some hv, w)
        else if props.manage &&& E.K.SPS_BAM_MGR_ACCESS_MASK ≠ E.K.SPS_BAM_MGR_NONE ∧
            (props.virt_addr = 0 ∧ props.virt_size = 0) then
          (E.K.SPS_ERROR, some hv, w)
        else if props.manage &&& E.K.SPS_BAM_MGR_DEVICE_REMOTE = 0 ∧
            props.summing_threshold = 0 then
          (E.K.SPS_ERROR, some hv, w)
        else
          let w1 := w.log (Event.mutex_lock LockId.sps)
          if phy2bam w1 drv props.phys_addr ≠ 0 then
            (-EEXIST, some E.K.SPS_DEV_HANDLE_INVALID,
              register_exit_err (w1.log (Event.mutex_unlock LockId.sps)) 0 0)
          else register_new E w1 drv props

/-! ## Connection state machine -/

/-- The target device of a descriptor: the source handle for a source endpoint,
the destination handle otherwise (sps.c, 1324-1327). -/
def connect_dev (K : Consts) (c : struct_sps_connect) : Nat :=
  if c.mode = K.SPS_MODE_SRC then c.source else c.destination

/-- Modelled from the spec: the effect of a successful state change of the
Connection Resource Manager (`sps_rm.c` is not among the sources).  A change to
`Allocated` resolves the target device from the stored descriptor, supplies
the pipe index and the connection map record, registers the endpoint in the
map record for its role and sets the device back-reference; a change to
`Connected` enters the endpoint in the device's pipe table; a change to
`Disconnected` empties the pipe-table entry of a connected endpoint, withdraws
the endpoint from the map record and clears the back-reference, the map
reference and the state tag. -/
def rm_apply (E : Env) (w : World) (pipe : Ptr) : sps_state → World
  | sps_state.SPS_STATE_ALLOCATE =>
    let p := w.pipe_mem pipe
    let dev := connect_dev E.K p.connect
    let map := E.rm_map w pipe
    let w2 := w.set_map map
      (if p.connect.mode = E.K.SPS_MODE_SRC then { w.map_mem map with client_src := pipe }
        else { w.map_mem map with client_dest := pipe })
    w2.set_pipe pipe
      { p with
        client_state := sps_state.SPS_STATE_ALLOCATE
        bam := sps_h2bam E.K w dev
        pipe_index := E.rm_pipe_index w pipe
        map := map }
  | sps_state.SPS_STATE_CONNECT =>
    let p := w.pipe_mem pipe
    let w2 := w.set_bam p.bam
      { w.bam_mem p.bam with
        pipes := Function.update (w.bam_mem p.bam).pipes p.pipe_index pipe }
    w2.set_pipe pipe { p with client_state := sps_state.SPS_STATE_CONNECT }
  | sps_state.SPS_STATE_DISCONNECT =>
    let p := w.pipe_mem pipe
    let w2 :=
      if p.client_state = sps_state.SPS_STATE_CONNECT then
        w.set_bam p.bam
          { w.bam_mem p.bam with
            pipes := Function.update (w.bam_mem p.bam).pipes p.pipe_index 0 }
      else w
    let w3 := w2.set_map p.map
      (if p.connect.mode = E.K.SPS_MODE_SRC then { w2.map_mem p.map with client_src := 0 }
        else { w2.map_mem p.map with client_dest := 0 })
    w3.set_pipe pipe
      { p with client_state := sps_state.SPS_STATE_DISCONNECT, bam := 0, map := 0 }

/-- Modelled from the spec: the Connection Resource Manager's operation
`state_change(endpoint, target_state) -> Result` (`sps_rm.c` is not among the
sources).  The result code is the collaborator's; a failing change leaves the
endpoint, the device and the map record as they are, a successful one has the
effect `rm_apply`. -/
def sps_rm_state_change (E : Env) (w : World) (pipe : Ptr) (state : sps_state) :
    Int × World :=
  let r := E.rm_result w pipe state
  let w1 := w.log (Event.sps_rm_state_change pipe state r)
  if r ≠ 0 then (r, w1)
  else (0, rm_apply E w1 pipe state)

/-- The cross-check of `sps_disconnect` (sps.c, 1412-1421) succeeds for the
endpoint `h`: the map record names `h` for the role given by the stored mode. -/
def map_check (K : Consts) (w : World) (h : Ptr) : Prop :=
  (if (w.pipe_mem h).connect.mode = K.SPS_MODE_SRC then
      (w.map_mem (w.pipe_mem h).map).client_src
    else (w.map_mem (w.pipe_mem h).map).client_dest) = h

instance (K : Consts) (w : World) (h : Ptr) : Decidable (map_check K w h) := by
  unfold map_check; infer_instance

/-- The part of `sps_disconnect` that runs after the device mutex is taken
(sps.c, 1425-1435): the Resource Manager disconnects; on success the descriptor
is reset by `sps_rm_config_init`. -/
def disconnect_locked (E : Env) (w1 : World) (h : Ptr) (bam : Ptr) : Int × World :=
  let r := sps_rm_state_change E w1 h sps_state.SPS_STATE_DISCONNECT
  let w3 := r.2.log (Event.mutex_unlock (LockId.bam bam))
  if r.1 ≠ 0 then (r.1, w3)
  else
    (0, (w3.set_pipe h { w3.pipe_mem h with connect := E.sps_rm_config_init }).log
      (Event.sps_rm_config_init h))

/-- The function `sps_disconnect` (sps.c, 1385-1436).  The first event marks the
entry into the function. -/
def sps_disconnect (E : Env) (w : World) (h : Ptr) : Int × World :=
  let w0 := w.log (Event.sps_disconnect h)
  if h = 0 then (E.K.SPS_ERROR, w0)
  else
    let bam := (w0.pipe_mem h).bam
    if bam = 0 then (E.K.SPS_ERROR, w0)
    else if ¬ map_check E.K w0 h then (E.K.SPS_ERROR, w0)
    else disconnect_locked E (w0.log (Event.mutex_lock (LockId.bam bam))) h bam

/-- The part of `sps_connect` that runs under the device mutex and what follows
it (sps.c, 1344-1363): the descriptor is stored, the Resource Manager allocates
and then configures; a failing configuration is followed by a call of
`sps_disconnect` whose result is dropped. -/
def connect_locked (E : Env) (w2 : World) (h : Ptr) (c : struct_sps_connect) (bam : Ptr) :
    Int × World :=
  let w3 := w2.set_pipe h { w2.pipe_mem h with connect := c }
  let a := sps_rm_state_change E w3 h sps_state.SPS_STATE_ALLOCATE
  if a.1 ≠ 0 then
    (a.1, (a.2.log (Event.mutex_unlock (LockId.bam bam))).log (Event.mutex_unlock LockId.sps))
  else
    let b := sps_rm_state_change E a.2 h sps_state.SPS_STATE_CONNECT
    let w6 := b.2.log (Event.mutex_unlock (LockId.bam bam))
    if b.1 ≠ 0 then
      (b.1, (sps_disconnect E w6 h).2.log (Event.mutex_unlock LockId.sps))
    else (b.1, w6.log (Event.mutex_unlock LockId.sps))

/-- The function `sps_connect` (sps.c, 1288-1364); `connect = none` is a null
descriptor pointer. -/
def sps_connect (E : Env) (w : World) (h : Ptr) (connect : Option struct_sps_connect) :
    Int × World :=
  if h = 0 then (E.K.SPS_ERROR, w)
  else
    match connect with
    | none => (E.K.SPS_ERROR, w)
    | some c =>
      match w.sps with
      | none => (-ENODEV, w)
      | some drv =>
        if drv.is_ready = false then (-EAGAIN, w)
        else if c.lock_group ≠ E.K.SPSRM_CLEAR ∧
            c.lock_group > E.K.BAM_MAX_P_LOCK_GROUP_NUM then
          (E.K.SPS_ERROR, w)
        else
          let w1 := w.log (Event.mutex_lock LockId.sps)
          let dev := connect_dev E.K c
          let bam := sps_h2bam E.K w1 dev
          if bam = 0 then (E.K.SPS_ERROR, w1.log (Event.mutex_unlock LockId.sps))
          else connect_locked E (w1.log (Event.mutex_lock (LockId.bam bam))) h c bam

/-! ## Endpoint contexts -/

/-- The all-zero descriptor left by `memset(&client->connect, 0, ...)`. -/
def struct_sps_connect.zero : struct_sps_connect where
  source := 0
  src_pipe_index := 0
  destination := 0
  dest_pipe_index := 0
  mode := 0
  options := 0
  lock_group := 0

/-- The function `sps_client_init` (sps.c, 1025-1043): the context is zeroed, the
descriptor is set by `sps_rm_config_init`, the state tag is `Disconnected` and
the device reference is null. -/
def sps_client_init (E : Env) (w : World) (client : Ptr) : Int × World :=
  if client = 0 then (-EINVAL, w)
  else
    (0, (w.set_pipe client
      { connect := E.sps_rm_config_init
        client_state := sps_state.SPS_STATE_DISCONNECT
        bam := 0
        pipe_index := 0
        map := 0 }).log (Event.sps_rm_config_init client))

/-- The function `sps_client_de_init` (sps.c, 1055-1070). -/
def sps_client_de_init (K : Consts) (w : World) (client : Ptr) : Int × World :=
  if (w.pipe_mem client).client_state ≠ sps_state.SPS_STATE_DISCONNECT then (K.SPS_ERROR, w)
  else
    (0, w.set_pipe client
      { w.pipe_mem client with bam := 0, map := 0, connect := struct_sps_connect.zero })

/-- The function `sps_alloc_endpoint` (sps.c, 2610-2626): the returned pointer
(`0` when the allocation fails) and the state after the call. -/
def sps_alloc_endpoint (E : Env) (w : World) : Ptr × World :=
  let ctx := E.kzalloc w
  let w1 := w.log (Event.kzalloc ctx)
  if ctx = 0 then (0, w1)
  else (ctx, (sps_client_init E w1 ctx).2)

/-- The function `sps_free_endpoint` (sps.c, 2633-2650). -/
def sps_free_endpoint (E : Env) (w : World) (ctx : Ptr) : Int × World :=
  if ctx = 0 then (E.K.SPS_ERROR, w)
  else
    let r := sps_client_de_init E.K w ctx
    if r.1 = 0 then (r.1, r.2.log (Event.kfree ctx))
    else r

/-- The function `sps_get_config` (sps.c, 1828-1852): the return value and the
final content of the caller's `config` (`none` for a null pointer). -/
def sps_get_config (K : Consts) (w : World) (h : Ptr) (config : Option struct_sps_connect) :
    Int × Option struct_sps_connect :=
  if h = 0 then (K.SPS_ERROR, config)
  else
    match config with
    | none => (K.SPS_ERROR, none)
    | some _ => (0, some (w.pipe_mem h).connect)

/-! ## Hot path operations -/

/-- The sequence shared by the hot-path functions once their arguments are
checked: `sps_bam_lock`, `SPS_ERROR` when it gives `NULL`, otherwise the call of
the pipe engine on the locked device and the endpoint's pipe index,
`sps_bam_unlock`, and the engine's result. -/
def locked_call (E : Env) (w : World) (h : Ptr) (op : PipeOp) : Int × World :=
  let r := sps_bam_lock w h
  if r.1 = 0 then (E.K.SPS_ERROR, r.2)
  else
    let result := E.pipe_engine r.2 op r.1 (r.2.pipe_mem h).pipe_index
    let w2 := r.2.log (Event.pipe_engine op r.1 (r.2.pipe_mem h).pipe_index result)
    (result, sps_bam_unlock w2 r.1)

/-- The function `sps_register_event` (sps.c, 1443-1479). -/
def sps_register_event (E : Env) (w : World) (h : Ptr) (reg : Ptr) : Int × World :=
  if h = 0 then (E.K.SPS_ERROR, w)
  else if reg = 0 then (E.K.SPS_ERROR, w)
  else
    match w.sps with
    | none => (-ENODEV, w)
    | some drv =>
      if drv.is_ready = false then (-EAGAIN, w)
      else locked_call E w h (PipeOp.sps_bam_pipe_reg_event reg)

/-- The function `sps_flow_off` (sps.c, 1515-1537); the `mode` argument is not
used by the function. -/
def sps_flow_off (E : Env) (w : World) (h : Ptr) : Int × World :=
  if h = 0 then (E.K.SPS_ERROR, w)
  else
    let r := sps_bam_lock w h
    if r.1 = 0 then (E.K.SPS_ERROR, r.2)
    else
      let w2 := r.2.log (Event.bam_pipe_halt r.1 (r.2.pipe_mem h).pipe_index true)
      (0, sps_bam_unlock w2 r.1)

/-- The function `sps_transfer_one` (sps.c, 1652-1680). -/
def sps_transfer_one (E : Env) (w : World) (h : Ptr) (addr size : Nat) (user : Ptr)
    (flags : Nat) : Int × World :=
  if h = 0 then (E.K.SPS_ERROR, w)
  else if sps_check_iovec_flags E.K flags ≠ 0 then (E.K.SPS_ERROR, w)
  else
    locked_call E w h
      (PipeOp.sps_bam_pipe_transfer_one (E.SPS_GET_LOWER_ADDR addr) size user
        (E.DESC_FLAG_WORD flags addr))

/-- The function `sps_get_event` (sps.c, 1686-1709). -/
def sps_get_event (E : Env) (w : World) (h : Ptr) (notify : Ptr) : Int × World :=
  if h = 0 then (E.K.SPS_ERROR, w)
  else if notify = 0 then (E.K.SPS_ERROR, w)
  else locked_call E w h (PipeOp.sps_bam_pipe_get_event notify)

/-- The function `sps_is_pipe_empty` (sps.c, 1715-1738). -/
def sps_is_pipe_empty (E : Env) (w : World) (h : Ptr) (empty : Ptr) : Int × World :=
  if h = 0 then (E.K.SPS_ERROR, w)
  else if empty = 0 then (E.K.SPS_ERROR, w)
  else locked_call E w h (PipeOp.sps_bam_pipe_is_empty empty)

/-- The function `sps_get_free_count` (sps.c, 1744-1767). -/
def sps_get_free_count (E : Env) (w : World) (h : Ptr) (count : Ptr) : Int × World :=
  if h = 0 then (E.K.SPS_ERROR, w)
  else if count = 0 then (E.K.SPS_ERROR, w)
  else locked_call E w h (PipeOp.sps_bam_get_free_count count)

/-- The function `sps_get_unused_desc_num` (sps.c, 2020-2047). -/
def sps_get_unused_desc_num (E : Env) (w : World) (h : Ptr) (desc_num : Ptr) : Int × World :=
  if h = 0 then (E.K.SPS_ERROR, w)
  else if desc_num = 0 then (E.K.SPS_ERROR, w)
  else locked_call E w h (PipeOp.sps_bam_pipe_get_unused_desc_num desc_num)

/-- The function `sps_get_iovec` (sps.c, 2341-2369). -/
def sps_get_iovec (E : Env) (w : World) (h : Ptr) (iovec : Ptr) : Int × World :=
  if h = 0 then (E.K.SPS_ERROR, w)
  else if iovec = 0 then (E.K.SPS_ERROR, w)
  else locked_call E w h (PipeOp.sps_bam_pipe_get_iovec iovec)

/-- The function `sps_timer_ctrl` (sps.c, 2376-2410); a null `timer_result` is
only logged. -/
def sps_timer_ctrl (E : Env) (w : World) (h : Ptr) (timer_ctrl timer_result : Ptr) :
    Int × World :=
  if h = 0 then (E.K.SPS_ERROR, w)
  else if timer_ctrl = 0 then (E.K.SPS_ERROR, w)
  else locked_call E w h (PipeOp.sps_bam_pipe_timer_ctrl timer_ctrl timer_result)

/-- The function `sps_set_config` (sps.c, 1859-1889); `config = none` is a null
pointer.  The options are stored on the endpoint when the engine accepts
them. -/
def sps_set_config (E : Env) (w : World) (h : Ptr) (config : Option struct_sps_connect) :
    Int × World :=
  if h = 0 then (E.K.SPS_ERROR, w)
  else
    match config with
    | none => (E.K.SPS_ERROR, w)
    | some c =>
      let r := sps_bam_lock w h
      if r.1 = 0 then (E.K.SPS_ERROR, r.2)
      else
        let op := PipeOp.sps_bam_pipe_set_params c.options
        let result := E.pipe_engine r.2 op r.1 (r.2.pipe_mem h).pipe_index
        let w2 := r.2.log (Event.pipe_engine op r.1 (r.2.pipe_mem h).pipe_index result)
        let w3 :=
          if result = 0 then
            w2.set_pipe h
              { w2.pipe_mem h with
                connect := { (w2.pipe_mem h).connect with options := c.options } }
          else w2
        (result, sps_bam_unlock w3 r.1)

/-- The function `sps_set_owner` (sps.c, 1896-1945): the return value, the final
content of the caller's `connect` (`none` for a null pointer) and the final
state.  The second test of `connect == NULL`, after the engine call, cannot
fire and has no branch here. -/
def sps_set_owner (E : Env) (w : World) (h : Ptr) (owner : sps_owner)
    (connect : Option sps_satellite) : Int × Option sps_satellite × World :=
  if h = 0 then (E.K.SPS_ERROR, connect, w)
  else
    match connect with
    | none => (E.K.SPS_ERROR, none, w)
    | some s =>
      if owner ≠ sps_owner.SPS_OWNER_REMOTE then (E.K.SPS_ERROR, some s, w)
      else
        let r := sps_bam_lock w h
        if r.1 = 0 then (E.K.SPS_ERROR, some s, r.2)
        else
          let op := PipeOp.sps_bam_set_satellite
          let result := E.pipe_engine r.2 op r.1 (r.2.pipe_mem h).pipe_index
          let w2 := r.2.log (Event.pipe_engine op r.1 (r.2.pipe_mem h).pipe_index result)
          if result ≠ 0 then (result, some s, sps_bam_unlock w2 r.1)
          else
            let p := w2.pipe_mem h
            let m := w2.map_mem p.map
            let s2 : sps_satellite :=
              if p.connect.mode = E.K.SPS_MODE_SRC then
                { dev := m.src_bam_phys, pipe_index := m.src_pipe_index,
                  config := E.K.SPS_CONFIG_SATELLITE, options := 0 }
              else
                { dev := m.dest_bam_phys, pipe_index := m.dest_pipe_index,
                  config := E.K.SPS_CONFIG_SATELLITE, options := 0 }
            (result, some s2, sps_bam_unlock w2 r.1)

/-- The function `sps_phy2h` (sps.c, 1110-1137): the return value and the final
content of the caller's `handle` (`none` for a null pointer). -/
def sps_phy2h (K : Consts) (w : World) (phys_addr : Nat) (handle : Option Nat) :
    Int × Option Nat :=
  match w.sps with
  | none => (-EPROBE_DEFER, handle)
  | some drv =>
    if drv.is_ready = false then (-EPROBE_DEFER, handle)
    else
      match handle with
      | none => (K.SPS_ERROR, none)
      | some old =>
        match drv.bams_q.find? (fun bam => (w.bam_mem bam).props.phys_addr = phys_addr) with
        | some bam => (0, some bam)
        | none => (-ENODEV, some old)

/-! ## Diagnostic selector -/

/-- The loop `for (i = 0; i < num_pipes; i++)` of `sps_get_bam_debug_info`, from
index `i` for `n` more rounds: the actions of the body at each index, in
order. -/
def pipe_loop (body : Nat → List DumpAction) (i : Nat) : Nat → List DumpAction
  | 0 => []
  | n + 1 => body i ++ pipe_loop body (i + 1) n

/-- The guard `if (para & (1UL << i))` around a loop body. -/
def selected (para : Nat) (body : Nat → List DumpAction) (i : Nat) : List DumpAction :=
  if para &&& (1 <<< i) ≠ 0 then body i else []

/-- The dump actions of a list as trace events. -/
def emit (l : List DumpAction) : List Event := l.map Event.dump

/-- Append a list of events to the trace. -/
def World.log_all (w : World) (l : List Event) : World :=
  { w with trace := w.trace ++ l }

open DumpAction in
/-- The `switch (option)` of `sps_get_bam_debug_info` (sps.c, 692-876) on the
device record `bam` with `num_pipes` pipes: the calls made, in order.  The
routines that the source passes `bam->base`, `&bam->base` or `bam->props.ee` are
recorded with the device record they are taken from. -/
def debug_info_switch (bam : Ptr) (num_pipes option para tb_sel desc_sel : Nat) :
    List Event :=
  if option = 1 then
    emit (print_bam_reg bam :: pipe_loop (fun i => [print_bam_pipe_reg bam i]) 0 num_pipes)
  else if option = 2 then emit [print_bam_reg bam]
  else if option = 3 then emit [print_bam_selected_reg bam]
  else if option = 4 then
    emit (pipe_loop (fun i => [print_bam_pipe_selected_reg bam i]) 0 num_pipes)
  else if option = 5 then
    emit (pipe_loop (selected para (fun i => [print_bam_pipe_selected_reg bam i])) 0 num_pipes)
  else if option = 6 then
    emit [print_bam_pipe_selected_reg bam 4, print_bam_pipe_selected_reg bam 5]
  else if option = 7 then
    emit (pipe_loop (fun i => [print_bam_pipe_desc_fifo bam i 0]) 0 num_pipes)
  else if option = 8 then
    emit (pipe_loop (selected para (fun i => [print_bam_pipe_desc_fifo bam i 0])) 0 num_pipes)
  else if option = 9 then
    emit [print_bam_pipe_desc_fifo bam 4 0, print_bam_pipe_desc_fifo bam 5 0]
  else if option = 10 then
    emit (pipe_loop
      (fun i => [print_bam_pipe_selected_reg bam i, print_bam_pipe_desc_fifo bam i 0])
      0 num_pipes)
  else if option = 11 then
    emit (pipe_loop
      (selected para
        (fun i => [print_bam_pipe_selected_reg bam i, print_bam_pipe_desc_fifo bam i 0]))
      0 num_pipes)
  else if option = 12 then
    emit [print_bam_pipe_selected_reg bam 4, print_bam_pipe_desc_fifo bam 4 0,
      print_bam_pipe_selected_reg bam 5, print_bam_pipe_desc_fifo bam 5 0]
  else if option = 13 then
    if tb_sel ≠ 0 then emit [print_bam_test_bus_reg bam tb_sel]
    else [Event.pr_info Message.test_bus_sel_zero]
  else if option = 14 then
    let desc_sel := if desc_sel = 0 then 1 else desc_sel
    emit (pipe_loop
      (selected para (fun i => [print_bam_pipe_desc_fifo bam i desc_sel])) 0 num_pipes)
  else if option = 15 then
    emit (pipe_loop (selected para (fun i => [print_bam_pipe_desc_fifo bam i 100])) 0 num_pipes)
  else if option = 16 then
    emit (pipe_loop (selected para (fun i => [print_bam_pipe_reg bam i])) 0 num_pipes)
  else if option = 91 then
    emit ([print_bam_test_bus_reg bam tb_sel, print_bam_selected_reg bam] ++
      pipe_loop (fun i => [print_bam_pipe_selected_reg bam i]) 0 num_pipes)
  else if option = 92 then
    emit ([print_bam_test_bus_reg bam tb_sel, print_bam_selected_reg bam] ++
      pipe_loop (selected para (fun i => [print_bam_pipe_selected_reg bam i])) 0 num_pipes)
  else if option = 93 then
    let desc_sel := if desc_sel = 0 then 1 else desc_sel
    emit ([print_bam_test_bus_reg bam tb_sel, print_bam_selected_reg bam] ++
      pipe_loop (selected para (fun i => [print_bam_pipe_selected_reg bam i])) 0 num_pipes ++
      pipe_loop (selected para (fun i => [print_bam_pipe_desc_fifo bam i desc_sel]))
        0 num_pipes)
  else if option = 94 then
    let desc_sel := if desc_sel = 0 then 1 else desc_sel
    emit ([print_bam_test_bus_reg bam tb_sel, print_bam_selected_reg bam] ++
      pipe_loop
        (selected para
          (fun i => [print_bam_pipe_selected_reg bam i,
            print_bam_pipe_desc_fifo bam i desc_sel]))
        0 num_pipes)
  else if option = 95 then
    emit ([print_bam_test_bus_reg bam tb_sel, print_bam_selected_reg bam] ++
      pipe_loop (selected para (fun i => [print_bam_pipe_selected_reg bam i])) 0 num_pipes ++
      pipe_loop (selected para (fun i => [print_bam_pipe_desc_fifo bam i 0])) 0 num_pipes)
  else if option = 96 then
    emit ([print_bam_test_bus_reg bam tb_sel, print_bam_selected_reg bam] ++
      pipe_loop
        (selected para
          (fun i => [print_bam_pipe_selected_reg bam i, print_bam_pipe_desc_fifo bam i 0]))
        0 num_pipes)
  else if option = 97 then
    emit ([print_bam_test_bus_reg bam tb_sel, print_bam_selected_reg bam] ++
      pipe_loop (selected para (fun i => [print_bam_pipe_selected_reg bam i])) 0 num_pipes ++
      pipe_loop (selected para (fun i => [print_bam_pipe_desc_fifo bam i 0])) 0 num_pipes ++
      pipe_loop (selected para (fun i => [print_bam_pipe_desc_fifo bam i 100])) 0 num_pipes)
  else if option = 98 then
    emit ([print_bam_test_bus_reg bam tb_sel, print_bam_selected_reg bam] ++
      pipe_loop
        (selected para
          (fun i => [print_bam_pipe_selected_reg bam i, print_bam_pipe_desc_fifo bam i 0,
            print_bam_pipe_desc_fifo bam i 100]))
        0 num_pipes)
  else if option = 99 then
    emit ([print_bam_test_bus_reg bam tb_sel, print_bam_reg bam] ++
      pipe_loop (fun i => [print_bam_pipe_reg bam i]) 0 num_pipes ++
      [print_bam_selected_reg bam] ++
      pipe_loop (fun i => [print_bam_pipe_selected_reg bam i]) 0 num_pipes ++
      pipe_loop (fun i => [print_bam_pipe_desc_fifo bam i 0]) 0 num_pipes ++
      pipe_loop (fun i => [print_bam_pipe_desc_fifo bam i 100]) 0 num_pipes)
  else [Event.pr_info Message.no_option_chosen]

/-- The function `sps_get_bam_debug_info` (sps.c, 656-879). -/
def sps_get_bam_debug_info (E : Env) (w : World) (dev : Nat)
    (option para tb_sel desc_sel : Nat) : Int × World :=
  if dev = 0 then (E.K.SPS_ERROR, w)
  else
    match w.sps with
    | none => (-EPROBE_DEFER, w)
    | some drv =>
      if drv.is_ready = false then (-EPROBE_DEFER, w)
      else
        let w1 := w.log (Event.mutex_lock LockId.sps)
        let bam := sps_h2bam E.K w1 dev
        if bam = 0 then (E.K.SPS_ERROR, w1.log (Event.mutex_unlock LockId.sps))
        else
          let w2 := w1.log (Event.mutex_unlock LockId.sps)
          (0, w2.log_all
            (debug_info_switch bam (w2.bam_mem bam).props.num_pipes option para tb_sel
              desc_sel))

/-- The dump actions among a list of events, in order. -/
def dump_actions : List Event → List DumpAction
  | [] => []
  | Event.dump a :: l => a :: dump_actions l
  | _ :: l => dump_actions l

/-! ## Raw pipe operations -/

/-- The function `sps_pipe_reset` (sps.c, 2415-2442). -/
def sps_pipe_reset (E : Env) (w : World) (dev : Nat) (pipe : Nat) : Int × World :=
  if dev = 0 then (E.K.SPS_ERROR, w)
  else if pipe ≥ E.K.BAM_MAX_PIPES then (E.K.SPS_ERROR, w)
  else
    let bam := sps_h2bam E.K w dev
    if bam = 0 then (E.K.SPS_ERROR, w)
    else (0, w.log (Event.bam_pipe_reset bam pipe))

/-- The function `sps_pipe_disable` (sps.c, 2447-2474). -/
def sps_pipe_disable (E : Env) (w : World) (dev : Nat) (pipe : Nat) : Int × World :=
  if dev = 0 then (E.K.SPS_ERROR, w)
  else if pipe ≥ E.K.BAM_MAX_PIPES then (E.K.SPS_ERROR, w)
  else
    let bam := sps_h2bam E.K w dev
    if bam = 0 then (E.K.SPS_ERROR, w)
    else (0, w.log (Event.bam_disable_pipe bam pipe))

/-- The function `sps_pipe_pending_desc` (sps.c, 2480-2513): the return value,
the final content of the caller's `pending` (`none` for a null pointer) and the
final state. -/
def sps_pipe_pending_desc (E : Env) (w : World) (dev : Nat) (pipe : Nat)
    (pending : Option Bool) : Int × Option Bool × World :=
  if dev = 0 then (E.K.SPS_ERROR, pending, w)
  else if pipe ≥ E.K.BAM_MAX_PIPES then (E.K.SPS_ERROR, pending, w)
  else
    match pending with
    | none => (E.K.SPS_ERROR, none, w)
    | some old =>
      let bam := sps_h2bam E.K w dev
      if bam = 0 then (E.K.SPS_ERROR, some old, w)
      else
        let r := E.sps_bam_pipe_pending_desc w bam pipe
        (0, some r, w.log (Event.sps_bam_pipe_pending_desc bam pipe r))

/-- The function `sps_pipe_inject_zlt` (sps.c, 2574-2604). -/
def sps_pipe_inject_zlt (E : Env) (w : World) (dev : Nat) (pipe_index : Nat) : Int × World :=
  if dev = 0 then (E.K.SPS_ERROR, w)
  else if pipe_index ≥ E.K.BAM_MAX_PIPES then (E.K.SPS_ERROR, w)
  else
    let bam := sps_h2bam E.K w dev
    if bam = 0 then (E.K.SPS_ERROR, w)
    else
      let rc := E.sps_bam_pipe_inject_zlt w bam pipe_index
      (rc, w.log (Event.sps_bam_pipe_inject_zlt bam pipe_index rc))

/-! ## Pipe memory -/

/-- The function `sps_setup_bam2bam_fifo` (sps.c, 1154-1198) on `u32` arguments
`addr` and `size`: the return value, the final content of the caller's
`mem_buffer` (`none` for a null pointer) and the final state.  The sum
`addr + size` is a `u32` sum; the sums with `pipemem_phys_base` are sums in
`phys_addr_t`. -/
def sps_setup_bam2bam_fifo (E : Env) (w : World) (mem_buffer : Option sps_mem_buffer)
    (addr size : Nat) (use_offset : Int) : Int × Option sps_mem_buffer × World :=
  match mem_buffer with
  | none => (E.K.SPS_ERROR, none, w)
  | some mb =>
    if size = 0 then (E.K.SPS_ERROR, some mb, w)
    else
      match w.sps with
      | none => (-EPROBE_DEFER, some mb, w)
      | some drv =>
        if drv.is_ready = false then (-EPROBE_DEFER, some mb, w)
        else if use_offset ≠ 0 then
          if (addr + size) % 2 ^ 32 ≤ w.pipemem_size then
            let phys_base := (w.pipemem_phys_base + addr) % 2 ^ E.phys_addr_bits
            let base := E.spsi_get_mem_ptr phys_base
            (0, some { base := base, phys_base := phys_base, size := size },
              w.log (Event.memset base size))
          else (E.K.SPS_ERROR, some mb, w)
        else
          if addr ≥ w.pipemem_phys_base ∧
              (addr + size) % 2 ^ 32 ≤
                (w.pipemem_phys_base + w.pipemem_size) % 2 ^ E.phys_addr_bits then
            let base := E.spsi_get_mem_ptr addr
            (0, some { base := base, phys_base := addr, size := size },
              w.log (Event.memset base size))
          else (E.K.SPS_ERROR, some mb, w)

/-! ## Debugfs selector -/

/-- The loop of `sps_set_bam_addr` that reads the decimal number at the start
of the copied text (sps.c, 291-292) into the `u32` accumulator `acc`; the list
holds the bytes of the buffer `str`. -/
def parse_decimal (acc : Nat) : List Nat → Nat
  | [] => acc
  | c :: rest =>
    if 48 ≤ c ∧ c ≤ 57 then parse_decimal ((acc * 10 + (c - 48)) % 2 ^ 32) rest
    else acc

open DumpAction in
/-- The `switch (reg_dump_option)` of `sps_set_bam_addr` (sps.c, 310-496) on the
device record `bam` with `num_pipes` pipes: the calls made, in order, with the
globals `bam_pipe_sel`, `testbus_sel` and `desc_option` as arguments. -/
def debugfs_switch (bam : Ptr) (num_pipes reg_dump_option bam_pipe_sel testbus_sel
    desc_option : Nat) : List Event :=
  if reg_dump_option = 1 then
    emit (print_bam_reg bam :: pipe_loop (fun i => [print_bam_pipe_reg bam i]) 0 num_pipes)
  else if reg_dump_option = 2 then emit [print_bam_reg bam]
  else if reg_dump_option = 3 then emit [print_bam_selected_reg bam]
  else if reg_dump_option = 4 then
    emit (pipe_loop (fun i => [print_bam_pipe_selected_reg bam i]) 0 num_pipes)
  else if reg_dump_option = 5 then
    emit (pipe_loop (selected bam_pipe_sel (fun i => [print_bam_pipe_selected_reg bam i]))
      0 num_pipes)
  else if reg_dump_option = 6 then
    emit [print_bam_pipe_selected_reg bam 4, print_bam_pipe_selected_reg bam 5]
  else if reg_dump_option = 7 then
    emit (pipe_loop (fun i => [print_bam_pipe_desc_fifo bam i 0]) 0 num_pipes)
  else if reg_dump_option = 8 then
    emit (pipe_loop (selected bam_pipe_sel (fun i => [print_bam_pipe_desc_fifo bam i 0]))
      0 num_pipes)
  else if reg_dump_option = 9 then
    emit [print_bam_pipe_desc_fifo bam 4 0, print_bam_pipe_desc_fifo bam 5 0]
  else if reg_dump_option = 10 then
    emit (pipe_loop
      (fun i => [print_bam_pipe_selected_reg bam i, print_bam_pipe_desc_fifo bam i 0])
      0 num_pipes)
  else if reg_dump_option = 11 then
    emit (pipe_loop
      (selected bam_pipe_sel
        (fun i => [print_bam_pipe_selected_reg bam i, print_bam_pipe_desc_fifo bam i 0]))
      0 num_pipes)
  else if reg_dump_option = 12 then
    emit [print_bam_pipe_selected_reg bam 4, print_bam_pipe_desc_fifo bam 4 0,
      print_bam_pipe_selected_reg bam 5, print_bam_pipe_desc_fifo bam 5 0]
  else if reg_dump_option = 13 then
    if testbus_sel ≠ 0 then emit [print_bam_test_bus_reg bam testbus_sel]
    else Event.pr_info Message.test_bus_all_sel :: emit [print_bam_test_bus_reg bam testbus_sel]
  else if reg_dump_option = 14 then
    let desc_option := if desc_option = 0 then 1 else desc_option
    emit (pipe_loop
      (selected bam_pipe_sel (fun i => [print_bam_pipe_desc_fifo bam i desc_option]))
      0 num_pipes)
  else if reg_dump_option = 15 then
    emit (pipe_loop (selected bam_pipe_sel (fun i => [print_bam_pipe_desc_fifo bam i 100]))
      0 num_pipes)
  else if reg_dump_option = 16 then
    emit (pipe_loop (selected bam_pipe_sel (fun i => [print_bam_pipe_reg bam i])) 0 num_pipes)
  else if reg_dump_option = 91 then
    emit ([print_bam_test_bus_reg bam testbus_sel, print_bam_selected_reg bam] ++
      pipe_loop (fun i => [print_bam_pipe_selected_reg bam i]) 0 num_pipes)
  else if reg_dump_option = 92 then
    emit ([print_bam_test_bus_reg bam testbus_sel, print_bam_selected_reg bam] ++
      pipe_loop (selected bam_pipe_sel (fun i => [print_bam_pipe_selected_reg bam i]))
        0 num_pipes)
  else if reg_dump_option = 93 then
    let desc_option := if desc_option = 0 then 1 else desc_option
    emit ([print_bam_test_bus_reg bam testbus_sel, print_bam_selected_reg bam] ++
      pipe_loop (selected bam_pipe_sel (fun i => [print_bam_pipe_selected_reg bam i]))
        0 num_pipes ++
      pipe_loop (selected bam_pipe_sel (fun i => [print_bam_pipe_desc_fifo bam i desc_option]))
        0 num_pipes)
  else if reg_dump_option = 94 then
    let desc_option := if desc_option = 0 then 1 else desc_option
    emit ([print_bam_test_bus_reg bam testbus_sel, print_bam_selected_reg bam] ++
      pipe_loop
        (selected bam_pipe_sel
          (fun i => [print_bam_pipe_selected_reg bam i,
            print_bam_pipe_desc_fifo bam i desc_option]))
        0 num_pipes)
  else if reg_dump_option = 95 then
    emit ([print_bam_test_bus_reg bam testbus_sel, print_bam_selected_reg bam] ++
      pipe_loop (selected bam_pipe_sel (fun i => [print_bam_pipe_selected_reg bam i]))
        0 num_pipes ++
      pipe_loop (selected bam_pipe_sel (fun i => [print_bam_pipe_desc_fifo bam i 0]))
        0 num_pipes)
  else if reg_dump_option = 96 then
    emit ([print_bam_test_bus_reg bam testbus_sel, print_bam_selected_reg bam] ++
      pipe_loop
        (selected bam_pipe_sel
          (fun i => [print_bam_pipe_selected_reg bam i, print_bam_pipe_desc_fifo bam i 0]))
        0 num_pipes)
  else if reg_dump_option = 97 then
    emit ([print_bam_test_bus_reg bam testbus_sel, print_bam_selected_reg bam] ++
      pipe_loop (selected bam_pipe_sel (fun i => [print_bam_pipe_selected_reg bam i]))
        0 num_pipes ++
      pipe_loop (selected bam_pipe_sel (fun i => [print_bam_pipe_desc_fifo bam i 0]))
        0 num_pipes ++
      pipe_loop (selected bam_pipe_sel (fun i => [print_bam_pipe_desc_fifo bam i 100]))
        0 num_pipes)
  else if reg_dump_option = 98 then
    emit ([print_bam_test_bus_reg bam testbus_sel, print_bam_selected_reg bam] ++
      pipe_loop
        (selected bam_pipe_sel
          (fun i => [print_bam_pipe_selected_reg bam i, print_bam_pipe_desc_fifo bam i 0,
            print_bam_pipe_desc_fifo bam i 100]))
        0 num_pipes)
  else if reg_dump_option = 99 then
    emit ([print_bam_test_bus_reg bam testbus_sel, print_bam_reg bam] ++
      pipe_loop (fun i => [print_bam_pipe_reg bam i]) 0 num_pipes ++
      [print_bam_selected_reg bam] ++
      pipe_loop (fun i => [print_bam_pipe_selected_reg bam i]) 0 num_pipes ++
      pipe_loop (fun i => [print_bam_pipe_desc_fifo bam i 0]) 0 num_pipes ++
      pipe_loop (fun i => [print_bam_pipe_desc_fifo bam i 100]) 0 num_pipes)
  else [Event.pr_info Message.no_dump_option_chosen]

/-- The function `sps_set_bam_addr` (sps.c, 276-499) once `copy_from_user` has
filled the buffer `str`: `missing` is the result of `copy_from_user`, `count`
the length written by the user, `d` the debugfs globals.  The result is the
return value, the globals afterwards (cases 14, 93 and 94 set a zero
`desc_option` to 1) and the final state.  With `sps == NULL` the lookup walks a
list through a null pointer; the model gives the walk no element. -/
def sps_set_bam_addr (K : Consts) (w : World) (d : debugfs_vars) (missing : Nat)
    (str : List Nat) (count : Nat) : Int × debugfs_vars × World :=
  if missing ≠ 0 then (-EFAULT, d, w)
  else
    let bam_addr := parse_decimal 0 str
    let bam :=
      match w.sps with
      | none => 0
      | some drv => phy2bam w drv bam_addr
    if bam = 0 then (count, d, w)
    else
      let num_pipes := (w.bam_mem bam).props.num_pipes
      let w1 :=
        if d.log_level_sel ≤ K.SPS_IPC_MAX_LOGLEVEL then
          w.set_bam bam { w.bam_mem bam with ipc_loglevel := d.log_level_sel }
        else w
      let d1 :=
        if (d.reg_dump_option = 14 ∨ d.reg_dump_option = 93 ∨ d.reg_dump_option = 94) ∧
            d.desc_option = 0 then
          { d with desc_option := 1 }
        else d
      (count, d1,
        w1.log_all
          (debugfs_switch bam num_pipes d.reg_dump_option d.bam_pipe_sel d.testbus_sel
            d.desc_option))

/-! ## Specification-side predicates and example states -/

/-- A transfer request that the specification rejects: the descriptor list is
absent, or the count is zero, or one of the first `iovec_count` descriptors is
larger than `SPS_IOVEC_MAX_SIZE` or has flags rejected by the six rules. -/
def bad_transfer (K : Consts) (t : struct_sps_transfer) : Prop :=
  match t.iovec with
  | none => True
  | some iovec =>
    t.iovec_count = 0 ∨
    ∃ i, i < t.iovec_count ∧
      ((iovec i).size > K.SPS_IOVEC_MAX_SIZE ∨ spec_flag_rules K (iovec i).flags)

/-- Endpoint `pipe` owns its pipe of device `d`: its device pointer is `d`, not
null, its pipe index is below the device's `num_pipes`, and the device's pipe
table holds exactly this endpoint at that index. -/
def owns (w : World) (pipe : Ptr) (d : Ptr) : Prop :=
  (w.pipe_mem pipe).bam = d ∧ d ≠ 0 ∧
  (w.pipe_mem pipe).pipe_index < (w.bam_mem d).props.num_pipes ∧
  (w.bam_mem d).pipes (w.pipe_mem pipe).pipe_index = pipe

instance (w : World) (pipe d : Ptr) : Decidable (owns w pipe d) := by
  unfold owns; infer_instance

/-- The state `w` with the `pipe_index` field of endpoint `e` overwritten. -/
def force_pipe_index (w : World) (e : Ptr) (idx : Nat) : World :=
  { w with pipe_mem := Function.update w.pipe_mem e { w.pipe_mem e with pipe_index := idx } }

/-- An example descriptor: a system-memory source feeding pipe 2 of the device
with handle `0x1000`. -/
def ex_connect : struct_sps_connect where
  source := 0x7fffffffffffffff
  src_pipe_index := 0
  destination := 0x1000
  dest_pipe_index := 2
  mode := 1
  options := 0
  lock_group := 0xcccccccc

/-- An example device record: eight pipes, pipe 2 owned by the endpoint at
`0x10` and pipe 3 by the endpoint at `0x20`. -/
def ex_bam : sps_bam :=
  { sps_bam.zero with
    props := ⟨0xf9000000, 0x5000, 0x1000, 0, 0, 1, 8, 0⟩
    pipes := fun i => if i = 2 then 0x10 else if i = 3 then 0x20 else 0 }

/-- An example endpoint connected to pipe `idx` of the device at `0x1000`. -/
def ex_pipe (idx : Nat) : sps_pipe where
  connect := { ex_connect with dest_pipe_index := idx }
  client_state := sps_state.SPS_STATE_CONNECT
  bam := 0x1000
  pipe_index := idx
  map := 0x100 + idx

/-- A freshly initialised endpoint of the example state. -/
def ex_pipe_idle : sps_pipe where
  connect := ⟨0xcccccccc, 0xcccccccc, 0xcccccccc, 0xcccccccc, 0xcccccccc, 0xcccccccc,
    0xcccccccc⟩
  client_state := sps_state.SPS_STATE_DISCONNECT
  bam := 0
  pipe_index := 0
  map := 0

/-- An example state: the driver is ready, one device is registered at address
`0x1000`, the endpoints at `0x10` and `0x20` are connected to its pipes 2 and 3,
every other endpoint is idle. -/
def ex_world : World where
  sps := some ⟨true, [0x1000]⟩
  bam_mem := fun p => if p = 0x1000 then ex_bam else sps_bam.zero
  pipe_mem := fun p =>
    if p = 0x10 then ex_pipe 2 else if p = 0x20 then ex_pipe 3 else ex_pipe_idle
  map_mem := fun p =>
    if p = 0x102 then ⟨0, 0x10, 0, 0, 0xf9000000, 2⟩
    else if p = 0x103 then ⟨0, 0x20, 0, 0, 0xf9000000, 3⟩ else ⟨0, 0, 0, 0, 0, 0⟩
  trace := []

/-- Example collaborators: every call succeeds; `ioremap` returns `0x5000`,
`kzalloc` returns `0x2000`, the Resource Manager picks pipe 4 and the map record
at `0x104`, and device initialisation reports eight pipes. -/
def ex_env : Env where
  K := msm_sps_h
  CONFIG_SPS_SUPPORT_BAMDMA := false
  ioremap := fun _ _ _ => 0x5000
  kzalloc := fun _ => 0x2000
  ipc_log_context_create := fun _ n => 0x3000 + n
  sps_bam_device_init := fun w b =>
    (0, { w.bam_mem b with props := { (w.bam_mem b).props with num_pipes := 8 } })
  sps_dma_device_init := fun _ _ => 0
  rm_result := fun _ _ _ => 0
  rm_pipe_index := fun _ _ => 4
  rm_map := fun _ _ => 0x104
  sps_rm_config_init := ex_pipe_idle.connect
  sps_bam_pipe_transfer := fun _ _ _ _ => 0
  pipe_engine := fun _ _ _ _ => 0
  SPS_GET_LOWER_ADDR := fun a => a % 2 ^ 32
  DESC_FLAG_WORD := fun f a => f ||| ((a / 2 ^ 32) % 16)
  sps_bam_pipe_pending_desc := fun _ _ _ => false
  sps_bam_pipe_inject_zlt := fun _ _ _ => 0
  spsi_get_mem_ptr := fun a => a
  phys_addr_bits := 64

/-- An example descriptor array: every descriptor has size 64 and the flags
`EOT | CMD`, which rule (2) rejects. -/
def ex_iovecs : Nat → sps_iovec := fun _ => ⟨0x8000, 64, 0x4800⟩

/-- The number of registered records whose physical address is `a`. -/
def count_phys (w : World) (drv : sps_drv) (a : Nat) : Nat :=
  (drv.bams_q.filter (fun b => (w.bam_mem b).props.phys_addr = a)).length

/-- The property block passes the parameter checks of `sps_register_bam_device`
(sps.c, 2116-2133). -/
def props_valid (K : Consts) (props : sps_bam_props) : Prop :=
  ¬ (props.manage &&& K.SPS_BAM_MGR_ACCESS_MASK ≠ K.SPS_BAM_MGR_NONE ∧
      (props.virt_addr = 0 ∧ props.virt_size = 0)) ∧
  ¬ (props.manage &&& K.SPS_BAM_MGR_DEVICE_REMOTE = 0 ∧ props.summing_threshold = 0)

instance (K : Consts) (props : sps_bam_props) : Decidable (props_valid K props) := by
  unfold props_valid; infer_instance

/-- Example properties of a device that is not yet registered, locally managed,
without a virtual address of its own. -/
def ex_props : sps_bam_props := ⟨0xf9100000, 0, 0x1000, 0, 0, 1, 0, 0⟩

/-- What a successful registration leaves behind: the handle `h` is the address
of the new record, which is not null and was not registered before; the list is
the old one with `h` appended; the record at `h` carries the registered physical
address; every other record is untouched. -/
def registered (w : World) (drv : sps_drv) (props : sps_bam_props)
    (r : Int × Option Nat × World) (h : Ptr) : Prop :=
  r.2.1 = some h ∧ h ≠ 0 ∧
  r.2.2.sps = some { drv with bams_q := drv.bams_q ++ [h] } ∧
  (r.2.2.bam_mem h).props.phys_addr = props.phys_addr ∧
  ∀ q, q ≠ h → r.2.2.bam_mem q = w.bam_mem q

/-- Collaborators as in `ex_env`, except that `kzalloc` fails. -/
def leak_env : Env := { ex_env with kzalloc := fun _ => 0 }

/-- Collaborators as in `ex_env`, except that the Resource Manager allocates,
then fails to configure (`-5`) and fails to disconnect (`-1`). -/
def rollback_fail_env : Env :=
  { ex_env with
    rm_result := fun _ _ s =>
      match s with
      | sps_state.SPS_STATE_ALLOCATE => 0
      | sps_state.SPS_STATE_CONNECT => -5
      | sps_state.SPS_STATE_DISCONNECT => -1 }

/-- Collaborators as in `ex_env`, except that the Resource Manager allocates and
then fails to configure (`-5`); the disconnect of the rollback succeeds. -/
def config_fail_env : Env :=
  { ex_env with
    rm_result := fun _ _ s =>
      match s with
      | sps_state.SPS_STATE_ALLOCATE => 0
      | sps_state.SPS_STATE_CONNECT => -5
      | sps_state.SPS_STATE_DISCONNECT => 0 }

/-- Collaborators as in `ex_env`, except that the Resource Manager fails to
allocate (`-12`). -/
def alloc_fail_env : Env :=
  { ex_env with
    rm_result := fun _ _ s =>
      match s with
      | sps_state.SPS_STATE_ALLOCATE => -12
      | sps_state.SPS_STATE_CONNECT => 0
      | sps_state.SPS_STATE_DISCONNECT => 0 }

/-- The state in which `sps_disconnect` calls the Resource Manager: after the
entry mark and the locking of the device mutex. -/
def disconnect_rm_state (w : World) (h : Ptr) : World :=
  (w.log (Event.sps_disconnect h)).log (Event.mutex_lock (LockId.bam (w.pipe_mem h).bam))

/-- The state in which `sps_connect` asks the Resource Manager to allocate: the
descriptor has been stored on the endpoint. -/
def connect_stored (w2 : World) (h : Ptr) (c : struct_sps_connect) : World :=
  w2.set_pipe h { w2.pipe_mem h with connect := c }

/-- The state in which `sps_connect` asks the Resource Manager to configure:
the allocation has succeeded. -/
def connect_allocated (E : Env) (w2 : World) (h : Ptr) (c : struct_sps_connect) : World :=
  rm_apply E
    ((connect_stored w2 h c).log
      (Event.sps_rm_state_change h sps_state.SPS_STATE_ALLOCATE 0))
    h sps_state.SPS_STATE_ALLOCATE

/-- The state in which the rollback of `sps_connect` calls `sps_disconnect`: the
configuration has failed with code `r` and the device mutex is released. -/
def connect_rollback_state (E : Env) (w2 : World) (h : Ptr) (c : struct_sps_connect)
    (bam : Ptr) (r : Int) : World :=
  ((connect_allocated E w2 h c).log
    (Event.sps_rm_state_change h sps_state.SPS_STATE_CONNECT r)).log
    (Event.mutex_unlock (LockId.bam bam))

/-- The state in which `sps_connect` enters its locked part: the global mutex
and the mutex of the resolved target device are taken. -/
def connect_entry (K : Consts) (w : World) (c : struct_sps_connect) : World :=
  (w.log (Event.mutex_lock LockId.sps)).log
    (Event.mutex_lock (LockId.bam (sps_h2bam K w (connect_dev K c))))

/-- The fast lock (`connection_lock`) of the device record at `b` is free in
state `w`. -/
def fast_lock_free (w : World) (b : Ptr) : Prop :=
  (w.bam_mem b).connection_lock = false

instance (w : World) (b : Ptr) : Decidable (fast_lock_free w b) := by
  unfold fast_lock_free; infer_instance

/-- The outcome `r` of a hot-path operation on endpoint `h` started in state `w`
is a refusal: the code is `SPS_ERROR` and the state is either untouched or
differs only by the fast lock of the endpoint's device having been taken and
released. -/
def refused_exit (K : Consts) (w : World) (h : Ptr) (r : Int × World) : Prop :=
  r.1 = K.SPS_ERROR ∧
  (r.2 = w ∨
    r.2 = spin_unlock_irqrestore (spin_lock_irqsave w (w.pipe_mem h).bam) (w.pipe_mem h).bam)

/-- The system is not initialised in state `w`: the driver state is absent
(`sps == NULL`) or its readiness flag is false. -/
def not_ready (w : World) : Prop :=
  match w.sps with
  | none => True
  | some drv => drv.is_ready = false

instance (w : World) : Decidable (not_ready w) := by
  unfold not_ready; split <;> infer_instance

/-- The codes returned by the readiness checks of `sps.c`. -/
def not_ready_codes : List Int := [-ENODEV, -EAGAIN, -EPROBE_DEFER]

/-- An example state before the driver is initialised: no driver state, no
device, every endpoint context unused. -/
def ex_boot : World where
  sps := none
  bam_mem := fun _ => sps_bam.zero
  pipe_mem := fun _ => ex_pipe_idle
  map_mem := fun _ => ⟨0, 0, 0, 0, 0, 0⟩
  trace := []

/-- The endpoint invariant on the endpoint at `p` in state `w`: the device
back-reference is non-null exactly when the state tag is not `Disconnected`. -/
def ep_inv (w : World) (p : Ptr) : Prop :=
  (w.pipe_mem p).bam ≠ 0 ↔ (w.pipe_mem p).client_state ≠ sps_state.SPS_STATE_DISCONNECT

instance (w : World) (p : Ptr) : Decidable (ep_inv w p) := by
  unfold ep_inv; infer_instance

/-- One operation of this layer on some endpoint, from state `w` to state `w2`:
allocation of an endpoint, connect, disconnect, set-config or free, with any
arguments. -/
inductive op_step (E : Env) : World → World → Prop where
  | alloc (w : World) : op_step E w (sps_alloc_endpoint E w).2
  | connect (w : World) (h : Ptr) (c : Option struct_sps_connect) :
    op_step E w (sps_connect E w h c).2
  | disconnect (w : World) (h : Ptr) : op_step E w (sps_disconnect E w h).2
  | set_config (w : World) (h : Ptr) (c : Option struct_sps_connect) :
    op_step E w (sps_set_config E w h c).2
  | free (w : World) (h : Ptr) : op_step E w (sps_free_endpoint E w h).2

/-- The states reachable for the endpoint at `p`: the state in which
`sps_alloc_endpoint` has just returned `p`, and every state reached from there
by operations of this layer on `p` or on other endpoints. -/
inductive reachable (E : Env) (p : Ptr) : World → Prop where
  | init (w : World) (hp : (sps_alloc_endpoint E w).1 = p) (hn : p ≠ 0) :
    reachable E p (sps_alloc_endpoint E w).2
  | step (w w2 : World) (hr : reachable E p w) (hs : op_step E w w2) : reachable E p w2

/-- The target selections of the diagnostic selector, in the spec's words:
`ALL` pipes, `BAM-level only`, `BITMASK`, `TYPICAL`. -/
inductive Target where
  | ALL
  | BAM_LEVEL
  | BITMASK
  | TYPICAL
deriving DecidableEq

/-- The content selections that the option codes 1 to 16 use, in the spec's
words: full registers, selected registers, descriptor FIFO, selected
registers then FIFO, test bus, partial FIFO, trailing content. -/
inductive Content where
  | full_regs
  | selected_regs
  | fifo
  | selected_regs_fifo
  | test_bus
  | partial_fifo
  | trailing_content
deriving DecidableEq

/-- The pipes of a target selection for a device of capacity `n` and a mask
`m`: all pipes `0..n-1`, no pipe, the pipes below `n` whose bit is set in `m`,
the fixed pipes 4 and 5; in ascending order. -/
def target_pipes (n m : Nat) : Target → List Nat
  | Target.ALL => List.range n
  | Target.BAM_LEVEL => []
  | Target.BITMASK => (List.range n).filter (fun i => m.testBit i)
  | Target.TYPICAL => [4, 5]

/-- The dump actions of a content selection on pipe `i`: the partial FIFO dump
takes the first `N` entries, `N` defaulting to 1 when the caller supplied 0,
the trailing-content dump has the fixed depth 100. -/
def content_pipe (bam : Ptr) (N : Nat) (i : Nat) : Content → List DumpAction
  | Content.full_regs => [DumpAction.print_bam_pipe_reg bam i]
  | Content.selected_regs => [DumpAction.print_bam_pipe_selected_reg bam i]
  | Content.fifo => [DumpAction.print_bam_pipe_desc_fifo bam i 0]
  | Content.selected_regs_fifo =>
    [DumpAction.print_bam_pipe_selected_reg bam i, DumpAction.print_bam_pipe_desc_fifo bam i 0]
  | Content.test_bus => []
  | Content.partial_fifo =>
    [DumpAction.print_bam_pipe_desc_fifo bam i (if N = 0 then 1 else N)]
  | Content.trailing_content => [DumpAction.print_bam_pipe_desc_fifo bam i 100]

/-- The dump actions of a content selection at BAM level. -/
def content_bam (bam : Ptr) (tb : Nat) : Content → List DumpAction
  | Content.full_regs => [DumpAction.print_bam_reg bam]
  | Content.selected_regs => [DumpAction.print_bam_selected_reg bam]
  | Content.test_bus => [DumpAction.print_bam_test_bus_reg bam tb]
  | _ => []

/-- The spec's table of option codes 1 to 16: the content kind and the target
of each code. -/
def spec_option_table : Nat → Option (Content × Target)
  | 1 => some (Content.full_regs, Target.ALL)
  | 2 => some (Content.full_regs, Target.BAM_LEVEL)
  | 3 => some (Content.selected_regs, Target.BAM_LEVEL)
  | 4 => some (Content.selected_regs, Target.ALL)
  | 5 => some (Content.selected_regs, Target.BITMASK)
  | 6 => some (Content.selected_regs, Target.TYPICAL)
  | 7 => some (Content.fifo, Target.ALL)
  | 8 => some (Content.fifo, Target.BITMASK)
  | 9 => some (Content.fifo, Target.TYPICAL)
  | 10 => some (Content.selected_regs_fifo, Target.ALL)
  | 11 => some (Content.selected_regs_fifo, Target.BITMASK)
  | 12 => some (Content.selected_regs_fifo, Target.TYPICAL)
  | 13 => some (Content.test_bus, Target.BAM_LEVEL)
  | 14 => some (Content.partial_fifo, Target.BITMASK)
  | 15 => some (Content.trailing_content, Target.BITMASK)
  | 16 => some (Content.full_regs, Target.BITMASK)
  | _ => none

/-- The action sequence that the spec's table assigns to an option code: the
single content kind over the single target, and nothing else. -/
def spec_actions (bam : Ptr) (n c m tb N : Nat) : List DumpAction :=
  match spec_option_table c with
  | none => []
  | some (k, Target.BAM_LEVEL) => content_bam bam tb k
  | some (k, t) => (target_pipes n m t).flatMap (fun i => content_pipe bam N i k)

/-- The dump action is a test-bus register dump. -/
def is_test_bus : DumpAction → Bool
  | DumpAction.print_bam_test_bus_reg _ _ => true
  | _ => false

/-- The text `4177526784`, the decimal form of the physical address
`0xf9000000` of the example device, as bytes. -/
def ex_bam_addr_text : List Nat := [52, 49, 55, 55, 53, 50, 54, 55, 56, 52]

/-- Example debugfs globals: dump option `option`, mask `0xc`, test-bus
selector `tb`, no partial length, log level selection off. -/
def ex_debugfs (option tb : Nat) : debugfs_vars where
  reg_dump_option := option
  testbus_sel := tb
  bam_pipe_sel := 0xc
  desc_option := 0
  log_level_sel := 5

/-- The example state with the device at `0x1000` retaining its memory
(`SPS_BAM_HOLD_MEM`) and holding one descriptor-cache buffer, at `0x9000`, for
pipe 2. -/
def ex_world_hold : World :=
  ex_world.set_bam 0x1000
    { ex_bam with
      props := { ex_bam.props with options := 0x100 }
      desc_cache_pointers := fun n => if n = 2 then 0x9000 else 0 }

/-- Example properties of a device whose virtual address `0x7000` is supplied
by the caller. -/
def ex_props_mapped : sps_bam_props := ⟨0xf9100000, 0x7000, 0x1000, 0, 0, 1, 0, 0⟩

/-- The example state with a pipe memory of `0x8000` bytes at `0x10000`. -/
def ex_world_pipemem : World :=
  { ex_world with pipemem_phys_base := 0x10000, pipemem_size := 0x8000 }

/-- Collaborators as in `ex_env`, except that the Resource Manager refuses the
first state change to `Disconnected` of an endpoint (`-1`) and accepts the
next one. -/
def retry_env : Env :=
  { ex_env with
    rm_result := fun w p s =>
      if s = sps_state.SPS_STATE_DISCONNECT ∧
          Event.sps_rm_state_change p sps_state.SPS_STATE_DISCONNECT (-1) ∉ w.trace then -1
      else 0 }

/-- The state change to `Disconnected` that the rollback of `sps_connect` asks
of the Resource Manager, after the allocation for descriptor `d` on endpoint
`h` has succeeded and the configuration has failed with code `c`: its result
and the state it leaves. -/
def rollback_change (E : Env) (w : World) (h : Ptr) (d : struct_sps_connect) (c : Int) :
    Int × World :=
  sps_rm_state_change E
    (disconnect_rm_state
      (connect_rollback_state E (connect_entry E.K w d) h d
        (sps_h2bam E.K w (connect_dev E.K d)) c) h)
    h sps_state.SPS_STATE_DISCONNECT

/-- An example descriptor array that passes the admission rules: every
descriptor has size 64 and the flag `EOT`. -/
def ex_iovecs_ok : Nat → sps_iovec := fun _ => ⟨0x8000, 64, 0x4000⟩

/-- An example state in which the driver state exists and is not yet ready: no
device is registered, every endpoint context is unused. -/
def ex_early : World := { ex_boot with sps := some ⟨false, []⟩ }

/-- Example properties of a BAM-DMA device (option `SPS_BAM_OPT_BAMDMA`), which
may be registered before the driver is ready. -/
def ex_props_dma : sps_bam_props := ⟨0xf9100000, 0, 0x1000, 0, 4, 1, 0, 0⟩

/-! ## Bitwise helper lemmas -/

theorem lor_eq_zero (a b : Nat) : a ||| b = 0 ↔ a = 0 ∧ b = 0 := by
  constructor
  · intro h
    have key : ∀ i, (a ||| b).testBit i = false := by
      intro i; rw [h]; exact Nat.zero_testBit i
    refine ⟨Nat.eq_of_testBit_eq ?_, Nat.eq_of_testBit_eq ?_⟩
    · intro i
      have hi := key i
      rw [Nat.testBit_or, Bool.or_eq_false_iff] at hi
      simp [hi.1]
    · intro i
      have hi := key i
      rw [Nat.testBit_or, Bool.or_eq_false_iff] at hi
      simp [hi.2]
  · rintro ⟨rfl, rfl⟩
    rfl

theorem land_lor_ne_zero (f a b : Nat) :
    f &&& (a ||| b) ≠ 0 ↔ f &&& a ≠ 0 ∨ f &&& b ≠ 0 := by
  rw [Nat.and_or_distrib_left, Ne, lor_eq_zero]
  tauto

theorem flag_set_lor (a b m : Nat) :
    flag_set (a ||| b) m ↔ flag_set a m ∨ flag_set b m := by
  unfold flag_set
  rw [Nat.and_comm, land_lor_ne_zero, Nat.and_comm m a, Nat.and_comm m b]

theorem flag_set_self (m : Nat) (h : m ≠ 0) : flag_set m m := by
  unfold flag_set; rwa [Nat.and_self]

theorem not_flag_set_of_disjoint (a m : Nat) (h : a &&& m = 0) : ¬ flag_set a m := by
  unfold flag_set; simp [h]

theorem not_flag_set_of_disjoint_symm (a m : Nat) (h : m &&& a = 0) : ¬ flag_set a m := by
  unfold flag_set; rw [Nat.and_comm]; simp [h]

/-- The code of `sps_check_iovec_flags` fires exactly on the six rules. -/
theorem sps_check_iovec_flags_cases (K : Consts) (f : Nat) :
    (spec_flag_rules K f → sps_check_iovec_flags K f = K.SPS_ERROR) ∧
    (¬ spec_flag_rules K f → sps_check_iovec_flags K f = 0) := by
  unfold spec_flag_rules sps_check_iovec_flags
  simp only [land_lor_ne_zero, flag_set]
  by_cases hn : f &&& K.SPS_IOVEC_FLAG_NWD = 0 <;>
  by_cases he : f &&& K.SPS_IOVEC_FLAG_EOT = 0 <;>
  by_cases hc : f &&& K.SPS_IOVEC_FLAG_CMD = 0 <;>
  by_cases hl : f &&& K.SPS_IOVEC_FLAG_LOCK = 0 <;>
  by_cases hu : f &&& K.SPS_IOVEC_FLAG_UNLOCK = 0 <;>
  by_cases hi : f &&& K.SPS_IOVEC_FLAG_IMME = 0 <;>
  simp [hn, he, hc, hl, hu, hi]

/-! ## Flag rules (C1) -/

/-- C1: for every flag word `f`, `sps_check_iovec_flags` returns `0` exactly when
none of the six rules holds and `SPS_ERROR` otherwise; and `{NWD}` fails,
`{NWD,EOT}` passes, `{EOT,CMD}` fails, `{CMD,LOCK}` passes, `{LOCK,UNLOCK}` fails,
`{IMME,CMD}` fails, `{IMME}` passes. -/
theorem sps_check_iovec_flags_spec (K : Consts) (hE : K.SPS_ERROR ≠ 0)
    (hd : K.flags_distinct) (f : Nat) :
    (sps_check_iovec_flags K f = 0 ↔ ¬ spec_flag_rules K f) ∧
    (spec_flag_rules K f → sps_check_iovec_flags K f = K.SPS_ERROR) ∧
    sps_check_iovec_flags K K.SPS_IOVEC_FLAG_NWD = K.SPS_ERROR ∧
    sps_check_iovec_flags K (K.SPS_IOVEC_FLAG_NWD ||| K.SPS_IOVEC_FLAG_EOT) = 0 ∧
    sps_check_iovec_flags K (K.SPS_IOVEC_FLAG_EOT ||| K.SPS_IOVEC_FLAG_CMD) = K.SPS_ERROR ∧
    sps_check_iovec_flags K (K.SPS_IOVEC_FLAG_CMD ||| K.SPS_IOVEC_FLAG_LOCK) = 0 ∧
    sps_check_iovec_flags K (K.SPS_IOVEC_FLAG_LOCK ||| K.SPS_IOVEC_FLAG_UNLOCK) = K.SPS_ERROR ∧
    sps_check_iovec_flags K (K.SPS_IOVEC_FLAG_IMME ||| K.SPS_IOVEC_FLAG_CMD) = K.SPS_ERROR ∧
    sps_check_iovec_flags K K.SPS_IOVEC_FLAG_IMME = 0 := by
  obtain ⟨n0, e0, c0, l0, u0, i0, ne, nc, nl, nu, ni, ec, el, eu, ei, cl, cu, ci, lu, li, ui⟩ := hd
  have hn := flag_set_self _ n0
  have he := flag_set_self _ e0
  have hc := flag_set_self _ c0
  have hl := flag_set_self _ l0
  have hu := flag_set_self _ u0
  have hi := flag_set_self _ i0
  have d1 := not_flag_set_of_disjoint _ _ ne
  have d2 := not_flag_set_of_disjoint _ _ nc
  have d3 := not_flag_set_of_disjoint _ _ nl
  have d4 := not_flag_set_of_disjoint _ _ nu
  have d5 := not_flag_set_of_disjoint _ _ ni
  have d6 := not_flag_set_of_disjoint _ _ ec
  have d7 := not_flag_set_of_disjoint _ _ el
  have d8 := not_flag_set_of_disjoint _ _ eu
  have d9 := not_flag_set_of_disjoint _ _ ei
  have d10 := not_flag_set_of_disjoint _ _ cl
  have d11 := not_flag_set_of_disjoint _ _ cu
  have d12 := not_flag_set_of_disjoint _ _ ci
  have d13 := not_flag_set_of_disjoint _ _ lu
  have d14 := not_flag_set_of_disjoint _ _ li
  have d15 := not_flag_set_of_disjoint _ _ ui
  have s1 := not_flag_set_of_disjoint_symm _ _ ne
  have s2 := not_flag_set_of_disjoint_symm _ _ nc
  have s3 := not_flag_set_of_disjoint_symm _ _ nl
  have s4 := not_flag_set_of_disjoint_symm _ _ nu
  have s5 := not_flag_set_of_disjoint_symm _ _ ni
  have s6 := not_flag_set_of_disjoint_symm _ _ ec
  have s7 := not_flag_set_of_disjoint_symm _ _ el
  have s8 := not_flag_set_of_disjoint_symm _ _ eu
  have s9 := not_flag_set_of_disjoint_symm _ _ ei
  have s10 := not_flag_set_of_disjoint_symm _ _ cl
  have s11 := not_flag_set_of_disjoint_symm _ _ cu
  have s12 := not_flag_set_of_disjoint_symm _ _ ci
  have s13 := not_flag_set_of_disjoint_symm _ _ lu
  have s14 := not_flag_set_of_disjoint_symm _ _ li
  have s15 := not_flag_set_of_disjoint_symm _ _ ui
  refine ⟨⟨fun h0 hr => hE ?_, (sps_check_iovec_flags_cases K f).2⟩,
    (sps_check_iovec_flags_cases K f).1, ?_, ?_, ?_, ?_, ?_, ?_, ?_⟩
  · rw [← h0]; exact ((sps_check_iovec_flags_cases K f).1 hr).symm
  · apply (sps_check_iovec_flags_cases K _).1
    simp only [spec_flag_rules]; simp [*]
  · apply (sps_check_iovec_flags_cases K _).2
    simp only [spec_flag_rules, flag_set_lor]; simp [*]
  · apply (sps_check_iovec_flags_cases K _).1
    simp only [spec_flag_rules, flag_set_lor]; simp [*]
  · apply (sps_check_iovec_flags_cases K _).2
    simp only [spec_flag_rules, flag_set_lor]; simp [*]
  · apply (sps_check_iovec_flags_cases K _).1
    simp only [spec_flag_rules, flag_set_lor]; simp [*]
  · apply (sps_check_iovec_flags_cases K _).1
    simp only [spec_flag_rules, flag_set_lor]; simp [*]
  · apply (sps_check_iovec_flags_cases K _).2
    simp only [spec_flag_rules]; simp [*]

/-- Witness of C1 at the header values and the flag word `0x4800` (EOT and CMD). -/
theorem sps_check_iovec_flags_spec_witness :
    msm_sps_h.SPS_ERROR ≠ 0 ∧ msm_sps_h.flags_distinct ∧
    (sps_check_iovec_flags msm_sps_h 0x4800 = 0 ↔ ¬ spec_flag_rules msm_sps_h 0x4800) :=
  ⟨by decide, by decide,
    (sps_check_iovec_flags_spec msm_sps_h (by decide) (by decide) 0x4800).1⟩

/-! ### Transfer admission (C2) -/

theorem verify_iovecs_bad (K : Consts) (hE : K.SPS_ERROR ≠ 0) (iovec : Nat → sps_iovec) :
    ∀ (n i : Nat),
      (∃ j, j < n ∧ ((iovec (i + j)).size > K.SPS_IOVEC_MAX_SIZE ∨
        spec_flag_rules K (iovec (i + j)).flags)) →
      verify_iovecs K iovec i n = K.SPS_ERROR := by
  intro n
  induction n with
  | zero => rintro i ⟨j, hj, _⟩; omega
  | succ n ih =>
    rintro i ⟨j, hj, hbad⟩
    unfold verify_iovecs
    by_cases hs : (iovec i).size > K.SPS_IOVEC_MAX_SIZE
    · simp [hs]
    · by_cases hf : spec_flag_rules K (iovec i).flags
      · have := (sps_check_iovec_flags_cases K (iovec i).flags).1 hf
        simp [hs, this, hE]
      · have h0 := (sps_check_iovec_flags_cases K (iovec i).flags).2 hf
        simp only [hs, h0, if_false, ne_eq, not_true_eq_false]
        apply ih
        cases j with
        | zero => simp at hbad; tauto
        | succ j =>
          refine ⟨j, by omega, ?_⟩
          have e : i + 1 + j = i + (j + 1) := by omega
          rw [e]; exact hbad

/-- C2: a transfer request whose descriptor list is absent, whose count is zero,
or one of whose first `iovec_count` descriptors is too large or has rejected
flags, makes `sps_transfer` return the error `SPS_ERROR` with the state
untouched: no event is added to the trace, so the fast lock is not taken and the
pipe engine is not called for any descriptor, wherever the offending descriptor
stands. -/
theorem sps_transfer_rejects_bad (E : Env) (hE : E.K.SPS_ERROR ≠ 0) (w : World) (h : Ptr)
    (t : struct_sps_transfer) (hbad : bad_transfer E.K t) :
    (sps_transfer E w h (some t)).1 = E.K.SPS_ERROR ∧
    (sps_transfer E w h (some t)).1 ≠ 0 ∧
    (sps_transfer E w h (some t)).2 = w ∧
    new_events w (sps_transfer E w h (some t)).2 = [] ∧
    (∀ b, Event.spin_lock_irqsave b ∉ new_events w (sps_transfer E w h (some t)).2) ∧
    (∀ b i r, Event.sps_bam_pipe_transfer b i r ∉ new_events w (sps_transfer E w h (some t)).2) := by
  have key : sps_transfer E w h (some t) = (E.K.SPS_ERROR, w) := by
    unfold sps_transfer
    by_cases hh : h = 0
    · simp [hh]
    · unfold bad_transfer at hbad
      cases hio : t.iovec with
      | none => simp [hh, hio]
      | some iovec =>
        rw [hio] at hbad
        simp only [hh, if_false, hio]
        by_cases hc : t.iovec_count = 0
        · simp [hc]
        · rcases hbad with h0 | ⟨i, hi, hb⟩
          · exact absurd h0 hc
          · have := verify_iovecs_bad E.K hE iovec t.iovec_count 0 ⟨i, hi, by simpa using hb⟩
            simp [hc, this, hE]
  rw [key]
  simp [new_events, hE]

/-- Witness of C2: three descriptors with flags `EOT | CMD` on the connected
endpoint at `0x10`. -/
theorem sps_transfer_rejects_bad_witness :
    ex_env.K.SPS_ERROR ≠ 0 ∧ bad_transfer ex_env.K ⟨some ex_iovecs, 3⟩ ∧
    (sps_transfer ex_env ex_world 0x10 (some ⟨some ex_iovecs, 3⟩)).1 = ex_env.K.SPS_ERROR :=
  ⟨by decide, by unfold bad_transfer; exact Or.inr ⟨2, by decide, Or.inr (by decide)⟩,
    (sps_transfer_rejects_bad ex_env (by decide) ex_world 0x10 ⟨some ex_iovecs, 3⟩
      (by unfold bad_transfer; exact Or.inr ⟨2, by decide, Or.inr (by decide)⟩)).1⟩

/-! ### Ownership check (C3) -/

/-- C3: `sps_bam_lock` returns the device `d` with `d`'s fast lock held exactly
when the endpoint's device pointer is `d` (not null), its pipe index is below
`num_pipes` and the pipe table holds this endpoint at that index; otherwise it
returns `NULL` and the fast lock of the endpoint's device is not held (with a
null device pointer the state is untouched).  Hence for two endpoints that own
different pipes of one device, `sps_flow_on` on the first, after its
`pipe_index` is forced to the second's, fails. -/
theorem sps_bam_lock_spec (E : Env) (w : World) (pipe : Ptr) :
    (∀ d, d ≠ 0 →
      (((sps_bam_lock w pipe).1 = d ∧
          ((sps_bam_lock w pipe).2.bam_mem d).connection_lock = true) ↔ owns w pipe d)) ∧
    (¬ owns w pipe (w.pipe_mem pipe).bam →
      (sps_bam_lock w pipe).1 = 0 ∧
      ((w.pipe_mem pipe).bam = 0 → (sps_bam_lock w pipe).2 = w) ∧
      ((w.pipe_mem pipe).bam ≠ 0 →
        ((sps_bam_lock w pipe).2.bam_mem (w.pipe_mem pipe).bam).connection_lock = false)) ∧
    (∀ e2 d, owns w pipe d → owns w e2 d →
      (w.pipe_mem pipe).pipe_index ≠ (w.pipe_mem e2).pipe_index →
      (sps_flow_on E (force_pipe_index w pipe (w.pipe_mem e2).pipe_index) pipe).1
        = E.K.SPS_ERROR ∧
      ∀ b i v, Event.bam_pipe_halt b i v ∉
        new_events w (sps_flow_on E (force_pipe_index w pipe (w.pipe_mem e2).pipe_index) pipe).2) := by
  refine ⟨?_, ?_, ?_⟩
  · intro d hd
    unfold sps_bam_lock owns
    by_cases hb : (w.pipe_mem pipe).bam = 0
    · simp only [hb, if_true]
      constructor
      · rintro ⟨h1, _⟩; exact absurd h1.symm hd
      · rintro ⟨h1, _⟩; exact absurd h1.symm hd
    · simp only [hb, if_false, spin_lock_irqsave, Function.update_same]
      split_ifs with hc
      · constructor
        · rintro ⟨h1, _⟩; exact absurd h1.symm hd
        · rintro ⟨h1, _, h3, h4⟩
          subst h1
          rcases hc with hc | hc
          · omega
          · exact absurd h4.symm hc
      · push_neg at hc
        constructor
        · rintro ⟨h1, _⟩
          subst h1
          exact ⟨rfl, hd, hc.1, hc.2.symm⟩
        · rintro ⟨h1, _, _, _⟩
          subst h1
          simp
  · intro hno
    unfold sps_bam_lock
    unfold owns at hno
    by_cases hb : (w.pipe_mem pipe).bam = 0
    · simp [hb]
    · simp only [hb, if_false, spin_lock_irqsave, Function.update_same]
      split_ifs with hc
      · simp [spin_unlock_irqrestore, hb]
      · push_neg at hc
        exact absurd ⟨rfl, hb, hc.1, hc.2.symm⟩ hno
  · intro e2 d h1 h2 hne
    obtain ⟨a1, a2, a3, a4⟩ := h1
    obtain ⟨b1, b2, b3, b4⟩ := h2
    have hpe : pipe ≠ e2 := by
      rintro rfl; exact hne rfl
    have hfail : (sps_bam_lock (force_pipe_index w pipe (w.pipe_mem e2).pipe_index) pipe) =
        (0, spin_unlock_irqrestore
          (spin_lock_irqsave (force_pipe_index w pipe (w.pipe_mem e2).pipe_index) d) d) := by
      unfold sps_bam_lock
      simp only [force_pipe_index, Function.update_same, a1, a2, if_false, spin_lock_irqsave]
      rw [if_pos]
      right
      rw [b4]; exact hpe
    unfold sps_flow_on
    by_cases hp0 : pipe = 0
    · simp [hp0, force_pipe_index, new_events]
    · simp only [hp0, if_false, hfail, if_true]
      simp [new_events, spin_unlock_irqrestore, spin_lock_irqsave, force_pipe_index]

/-- Witness of C3: in the example state the endpoint at `0x10` owns pipe 2 of the
device at `0x1000`, and the lock call returns that device. -/
theorem sps_bam_lock_spec_witness :
    owns ex_world 0x10 0x1000 ∧ (sps_bam_lock ex_world 0x10).1 = 0x1000 ∧
    (sps_flow_on ex_env (force_pipe_index ex_world 0x10 (ex_world.pipe_mem 0x20).pipe_index)
      0x10).1 = ex_env.K.SPS_ERROR :=
  ⟨by decide,
    (((sps_bam_lock_spec ex_env ex_world 0x10).1 0x1000 (by decide)).2 (by decide)).1,
    ((sps_bam_lock_spec ex_env ex_world 0x10).2.2 0x20 0x1000 (by decide) (by decide)
      (by decide)).1⟩

/-! ### State projections -/

@[simp] theorem log_sps (w : World) (e : Event) : (w.log e).sps = w.sps := rfl

@[simp] theorem log_bam_mem (w : World) (e : Event) : (w.log e).bam_mem = w.bam_mem := rfl

@[simp] theorem log_pipe_mem (w : World) (e : Event) : (w.log e).pipe_mem = w.pipe_mem := rfl

@[simp] theorem log_map_mem (w : World) (e : Event) : (w.log e).map_mem = w.map_mem := rfl

@[simp] theorem log_trace (w : World) (e : Event) : (w.log e).trace = w.trace ++ [e] := rfl

@[simp] theorem phy2bam_log (w : World) (e : Event) (drv : sps_drv) (a : Nat) :
    phy2bam (w.log e) drv a = phy2bam w drv a := rfl

theorem phy2bam_found (w : World) (drv : sps_drv) (a : Nat) (hwf : 0 ∉ drv.bams_q)
    (hdup : ∃ b ∈ drv.bams_q, (w.bam_mem b).props.phys_addr = a) :
    phy2bam w drv a ≠ 0 := by
  unfold phy2bam
  cases hf : drv.bams_q.find? (fun bam => (w.bam_mem bam).props.phys_addr = a) with
  | none =>
    obtain ⟨b, hb, hba⟩ := hdup
    have := List.find?_eq_none.mp hf b hb
    simp [hba] at this
  | some b =>
    have hm := List.mem_of_find?_eq_some hf
    simp only
    rintro rfl
    exact hwf hm

/-! ### Duplicate registration (C4) -/

/-- C4: when the driver is ready, the properties pass the parameter checks and
the registry already holds a record with the same physical address,
`sps_register_bam_device` returns `-EEXIST`, leaves `SPS_DEV_HANDLE_INVALID` in
the handle variable and leaves the registry (the list and the records)
unchanged, so a registry with exactly one record for the address still has
exactly one. -/
theorem sps_register_bam_device_duplicate (E : Env) (w : World) (drv : sps_drv)
    (props : sps_bam_props) (hv : Nat)
    (hs : w.sps = some drv) (hr : drv.is_ready = true) (hp : props_valid E.K props)
    (hwf : 0 ∉ drv.bams_q)
    (hdup : ∃ b ∈ drv.bams_q, (w.bam_mem b).props.phys_addr = props.phys_addr) :
    (sps_register_bam_device E w (some props) (some hv)).1 = -EEXIST ∧
    (sps_register_bam_device E w (some props) (some hv)).2.1
      = some E.K.SPS_DEV_HANDLE_INVALID ∧
    (sps_register_bam_device E w (some props) (some hv)).2.2.sps = some drv ∧
    (sps_register_bam_device E w (some props) (some hv)).2.2.bam_mem = w.bam_mem ∧
    (count_phys w drv props.phys_addr = 1 →
      count_phys (sps_register_bam_device E w (some props) (some hv)).2.2 drv
        props.phys_addr = 1) := by
  have hfound := phy2bam_found w drv props.phys_addr hwf hdup
  obtain ⟨hp1, hp2⟩ := hp
  have key : sps_register_bam_device E w (some props) (some hv) =
      (-EEXIST, some E.K.SPS_DEV_HANDLE_INVALID,
        register_exit_err
          ((w.log (Event.mutex_lock LockId.sps)).log (Event.mutex_unlock LockId.sps)) 0 0) := by
    unfold sps_register_bam_device
    simp only [hs, hr]
    rw [if_neg (by simp), if_neg hp1, if_neg hp2]
    simp only [phy2bam_log]
    rw [if_pos hfound]
  rw [key]
  simp [register_exit_err, hs, count_phys]

/-- Witness of C4: registering again the physical address of the device of the
example state. -/
theorem sps_register_bam_device_duplicate_witness :
    (∃ b ∈ [0x1000], (ex_world.bam_mem b).props.phys_addr = ex_bam.props.phys_addr) ∧
    (sps_register_bam_device ex_env ex_world (some ex_bam.props) (some 7)).1 = -EEXIST :=
  ⟨⟨0x1000, by decide, by decide⟩,
    (sps_register_bam_device_duplicate ex_env ex_world ⟨true, [0x1000]⟩ ex_bam.props 7 rfl rfl
      (by decide) (by decide) ⟨0x1000, by decide, by decide⟩).1⟩

/-! ### Registration round trip (C5) -/

@[simp] theorem set_bam_sps (w : World) (p : Ptr) (b : sps_bam) : (w.set_bam p b).sps = w.sps := rfl

@[simp] theorem set_bam_trace (w : World) (p : Ptr) (b : sps_bam) :
    (w.set_bam p b).trace = w.trace := rfl

@[simp] theorem set_bam_pipe_mem (w : World) (p : Ptr) (b : sps_bam) :
    (w.set_bam p b).pipe_mem = w.pipe_mem := rfl

@[simp] theorem set_bam_map_mem (w : World) (p : Ptr) (b : sps_bam) :
    (w.set_bam p b).map_mem = w.map_mem := rfl

@[simp] theorem set_bam_bam_mem_same (w : World) (p : Ptr) (b : sps_bam) :
    (w.set_bam p b).bam_mem p = b := by
  simp [World.set_bam]

theorem set_bam_bam_mem_other (w : World) (p q : Ptr) (b : sps_bam) (h : q ≠ p) :
    (w.set_bam p b).bam_mem q = w.bam_mem q := by
  simp [World.set_bam, Function.update_noteq h]

@[simp] theorem set_bams_q_bam_mem (w : World) (q : List Ptr) :
    (w.set_bams_q q).bam_mem = w.bam_mem := rfl

@[simp] theorem set_bams_q_trace (w : World) (q : List Ptr) :
    (w.set_bams_q q).trace = w.trace := rfl

@[simp] theorem set_bams_q_pipe_mem (w : World) (q : List Ptr) :
    (w.set_bams_q q).pipe_mem = w.pipe_mem := rfl

theorem register_fill_sps (E : Env) (w : World) (bam : Ptr) (props : sps_bam_props)
    (va : Ptr) : (register_fill E w bam props va).sps = w.sps := by
  simp [register_fill]

theorem register_fill_phys (E : Env) (w : World) (bam : Ptr) (props : sps_bam_props)
    (va : Ptr) :
    ((register_fill E w bam props va).bam_mem bam).props.phys_addr = props.phys_addr := by
  simp only [register_fill, set_bam_bam_mem_same, log_bam_mem]
  split_ifs <;> rfl

theorem register_fill_other (E : Env) (w : World) (bam : Ptr) (props : sps_bam_props)
    (va : Ptr) (q : Ptr) (h : q ≠ bam) :
    (register_fill E w bam props va).bam_mem q = w.bam_mem q := by
  simp [register_fill, set_bam_bam_mem_other _ _ _ _ h]

theorem register_bamdma_ok (E : Env) (hE : E.K.SPS_ERROR ≠ 0) (w : World) (bam : Ptr)
    (h0 : (register_bamdma E w bam).1 = 0) :
    (register_bamdma E w bam).2.sps = w.sps ∧
    (register_bamdma E w bam).2.bam_mem = w.bam_mem := by
  unfold register_bamdma at h0 ⊢
  by_cases h1 : E.CONFIG_SPS_SUPPORT_BAMDMA = true ∧
      (w.bam_mem bam).props.options &&& E.K.SPS_BAM_OPT_BAMDMA ≠ 0
  · rw [if_pos h1] at h0 ⊢
    by_cases h2 : E.sps_dma_device_init w bam ≠ 0
    · dsimp only at h0
      rw [if_pos h2] at h0
      exact absurd h0 hE
    · dsimp only
      rw [if_neg h2]
      exact ⟨rfl, rfl⟩
  · rw [if_neg h1]
    exact ⟨rfl, rfl⟩

theorem find_handle (l : List Ptr) (h : Ptr) (hm : h ∈ l) :
    (match l.find? (fun bam => bam = h) with
      | some bam => bam
      | none => 0) = h := by
  cases hf : l.find? (fun bam => decide (bam = h)) with
  | none =>
    have := List.find?_eq_none.mp hf h hm
    simp at this
  | some b =>
    have := List.find?_some hf
    simpa using this

theorem phy2bam_none (w : World) (drv : sps_drv) (a : Nat) (hwf : 0 ∉ drv.bams_q)
    (h0 : phy2bam w drv a = 0) :
    ∀ b ∈ drv.bams_q, (w.bam_mem b).props.phys_addr ≠ a := by
  intro b hb hba
  exact phy2bam_found w drv a hwf ⟨b, hb, hba⟩ h0

theorem phy2bam_append (w : World) (l : List Ptr) (ready : Bool) (bam : Ptr) (a : Nat)
    (hold : ∀ b ∈ l, (w.bam_mem b).props.phys_addr ≠ a)
    (hnew : (w.bam_mem bam).props.phys_addr = a) :
    phy2bam w ⟨ready, l ++ [bam]⟩ a = bam := by
  unfold phy2bam
  have h1 : l.find? (fun b => decide ((w.bam_mem b).props.phys_addr = a)) = none := by
    rw [List.find?_eq_none]
    intro b hb
    simpa using hold b hb
  simp [List.find?_append, h1, hnew]

theorem register_record_ok (E : Env) (hE : E.K.SPS_ERROR ≠ 0) (w3 : World) (drv : sps_drv)
    (props : sps_bam_props) (bam va : Ptr) (hs : w3.sps = some drv) (hb : bam ≠ 0)
    (hinit : ∀ w2 b, (E.sps_bam_device_init w2 b).2.props.phys_addr
      = (w2.bam_mem b).props.phys_addr)
    (hok : (register_record E w3 drv props bam va).1 = 0) :
    registered w3 drv props (register_record E w3 drv props bam va) bam := by
  unfold register_record at hok ⊢
  dsimp only at hok ⊢
  by_cases h1 : (E.sps_bam_device_init (register_fill E w3 bam props va) bam).1 ≠ 0
  · rw [if_pos h1] at hok
    exact absurd hok hE
  · rw [if_neg h1] at hok ⊢
    obtain ⟨e1, e2⟩ := register_bamdma_ok E hE _ _ hok
    refine ⟨rfl, hb, ?_, ?_, ?_⟩
    · rw [e1]
      simp [World.set_bams_q, register_fill_sps, hs]
    · rw [e2]
      simp [hinit, register_fill_phys]
    · intro q hq
      rw [e2]
      simp [set_bam_bam_mem_other _ _ _ _ hq, register_fill_other _ _ _ _ _ _ hq]

theorem register_alloc_ok (E : Env) (hE : E.K.SPS_ERROR ≠ 0) (w2 : World) (drv : sps_drv)
    (props : sps_bam_props) (va : Ptr) (hs : w2.sps = some drv)
    (hinit : ∀ w b, (E.sps_bam_device_init w b).2.props.phys_addr
      = (w.bam_mem b).props.phys_addr)
    (hok : (register_alloc E w2 drv props va).1 = 0) :
    registered w2 drv props (register_alloc E w2 drv props va) (E.kzalloc w2) := by
  unfold register_alloc at hok ⊢
  dsimp only at hok ⊢
  by_cases h1 : E.kzalloc w2 = 0
  · rw [if_pos h1] at hok
    exact absurd hok hE
  · rw [if_neg h1] at hok ⊢
    exact register_record_ok E hE (w2.log (Event.kzalloc (E.kzalloc w2))) drv props _ va
      hs h1 hinit hok

theorem register_new_ok (E : Env) (hE : E.K.SPS_ERROR ≠ 0) (w1 : World) (drv : sps_drv)
    (props : sps_bam_props) (hs : w1.sps = some drv)
    (hinit : ∀ w b, (E.sps_bam_device_init w b).2.props.phys_addr
      = (w.bam_mem b).props.phys_addr)
    (hok : (register_new E w1 drv props).1 = 0) :
    ∃ w2, w2.sps = w1.sps ∧
      registered w1 drv props (register_new E w1 drv props) (E.kzalloc w2) := by
  unfold register_new at hok ⊢
  by_cases h1 : props.manage &&& E.K.SPS_BAM_MGR_ACCESS_MASK ≠ E.K.SPS_BAM_MGR_NONE ∧
      props.virt_addr = 0
  · rw [if_pos h1] at hok ⊢
    dsimp only at hok ⊢
    by_cases h2 : E.ioremap w1 props.phys_addr props.virt_size = 0
    · rw [if_pos h2] at hok
      exact absurd hok hE
    · rw [if_neg h2] at hok ⊢
      exact ⟨w1.log (Event.ioremap props.phys_addr props.virt_size
          (E.ioremap w1 props.phys_addr props.virt_size)), rfl,
        register_alloc_ok E hE
          (w1.log (Event.ioremap props.phys_addr props.virt_size
            (E.ioremap w1 props.phys_addr props.virt_size))) drv props _ hs hinit hok⟩
  · rw [if_neg h1] at hok ⊢
    exact ⟨w1, rfl, register_alloc_ok E hE w1 drv props 0 hs hinit hok⟩

theorem sps_register_bam_device_ok (E : Env) (hE : E.K.SPS_ERROR ≠ 0) (w : World)
    (drv : sps_drv) (props : sps_bam_props) (hv : Nat) (hs : w.sps = some drv)
    (hinit : ∀ w b, (E.sps_bam_device_init w b).2.props.phys_addr
      = (w.bam_mem b).props.phys_addr)
    (hok : (sps_register_bam_device E w (some props) (some hv)).1 = 0) :
    phy2bam w drv props.phys_addr = 0 ∧
    ∃ w2, w2.sps = w.sps ∧
      registered w drv props (sps_register_bam_device E w (some props) (some hv))
        (E.kzalloc w2) := by
  unfold sps_register_bam_device at hok ⊢
  simp only [hs] at hok ⊢
  split_ifs at hok ⊢ with h1 h2 h3 h4
  · simp [EAGAIN] at hok
  · exact absurd hok hE
  · exact absurd hok hE
  · simp [EEXIST] at hok
  · refine ⟨by simpa using h4, ?_⟩
    obtain ⟨w2, e, hr⟩ :=
      register_new_ok E hE (w.log (Event.mutex_lock LockId.sps)) drv props hs hinit hok
    exact ⟨w2, by rw [e]; exact hs, hr⟩

/-- C5: when `sps_register_bam_device` returns `0` and leaves `h` in the handle
variable, then in the resulting state `sps_h2bam h` is the record at `h` (not
null), that record's physical address is the registered one, and `phy2bam` of
that address is the same record.  Assumed of the collaborators: a record
returned by `kzalloc` is at the address of no registered record and at neither
reserved handle value, and `sps_bam_device_init` keeps the physical address;
the list holds no null entry. -/
theorem sps_register_bam_device_round_trip (E : Env) (hE : E.K.SPS_ERROR ≠ 0) (w : World)
    (drv : sps_drv) (props : sps_bam_props) (hv h : Nat)
    (hs : w.sps = some drv) (hwf : 0 ∉ drv.bams_q)
    (hfresh : ∀ w2, w2.sps = w.sps → E.kzalloc w2 ∉ drv.bams_q)
    (hsent : ∀ w2, E.kzalloc w2 ≠ 0 → E.kzalloc w2 ≠ E.K.SPS_DEV_HANDLE_MEM ∧
      E.kzalloc w2 ≠ E.K.SPS_DEV_HANDLE_INVALID)
    (hinit : ∀ w2 b, (E.sps_bam_device_init w2 b).2.props.phys_addr
      = (w2.bam_mem b).props.phys_addr)
    (hok : (sps_register_bam_device E w (some props) (some hv)).1 = 0)
    (hh : (sps_register_bam_device E w (some props) (some hv)).2.1 = some h) :
    h ≠ 0 ∧
    sps_h2bam E.K (sps_register_bam_device E w (some props) (some hv)).2.2 h = h ∧
    ((sps_register_bam_device E w (some props) (some hv)).2.2.bam_mem h).props.phys_addr
      = props.phys_addr ∧
    (∀ drv2, (sps_register_bam_device E w (some props) (some hv)).2.2.sps = some drv2 →
      phy2bam (sps_register_bam_device E w (some props) (some hv)).2.2 drv2 props.phys_addr
        = h) := by
  obtain ⟨hnone, w2, hw2, r1, r2, r3, r4, r5⟩ :=
    sps_register_bam_device_ok E hE w drv props hv hs hinit hok
  have heq : E.kzalloc w2 = h := by
    rw [r1] at hh; exact Option.some.inj hh
  rw [heq] at r2 r3 r4 r5
  have hnm : h ∉ drv.bams_q := heq ▸ hfresh w2 hw2
  refine ⟨r2, ?_, r4, ?_⟩
  · unfold sps_h2bam
    have hs1 := (hsent w2 (heq ▸ r2)).1
    have hs2 := (hsent w2 (heq ▸ r2)).2
    rw [heq] at hs1 hs2
    rw [if_neg (by simp [hs1, hs2]), r3]
    exact find_handle _ h (by simp)
  · intro drv2 hd
    rw [r3] at hd
    have hd2 : drv2 = ⟨drv.is_ready, drv.bams_q ++ [h]⟩ := (Option.some.inj hd).symm
    rw [hd2]
    apply phy2bam_append
    · intro b hb
      have hbh : b ≠ h := fun e => hnm (e ▸ hb)
      rw [r5 b hbh]
      exact phy2bam_none w drv props.phys_addr hwf hnone b hb
    · exact r4

/-- Witness of C5: registering the example properties in the example state
succeeds and returns the handle `0x2000`. -/
theorem sps_register_bam_device_round_trip_witness :
    (sps_register_bam_device ex_env ex_world (some ex_props) (some 0)).1 = 0 ∧
    (sps_register_bam_device ex_env ex_world (some ex_props) (some 0)).2.1 = some 0x2000 ∧
    sps_h2bam ex_env.K
      (sps_register_bam_device ex_env ex_world (some ex_props) (some 0)).2.2 0x2000 = 0x2000 :=
  ⟨by decide, by decide,
    (sps_register_bam_device_round_trip ex_env (by decide) ex_world ⟨true, [0x1000]⟩ ex_props
      0 0x2000 rfl (by decide) (fun _ _ => (by decide : (0x2000 : Nat) ∉ [0x1000]))
      (fun _ _ => (by decide : (0x2000 : Nat) ≠ 0x7fffffffffffffff ∧ (0x2000 : Nat) ≠ 0))
      (fun _ _ => rfl) (by decide) (by decide)).2.1⟩

/-! ### Release of partial allocations (C6) -/

/-- C6, evaluation at the failing input: in the example state, with a mapping
made by this call (`ioremap` returns `0x5000`) and a failing `kzalloc`,
`sps_register_bam_device` returns `SPS_ERROR`; the calls it makes are the lock,
`ioremap`, `kzalloc` and the unlock, so the mapping `0x5000` is never passed to
`iounmap`. -/
theorem sps_register_bam_device_leaks_mapping :
    (sps_register_bam_device leak_env ex_world (some ex_props) (some 0)).1
      = leak_env.K.SPS_ERROR ∧
    new_events ex_world (sps_register_bam_device leak_env ex_world (some ex_props) (some 0)).2.2
      = [Event.mutex_lock LockId.sps, Event.ioremap 0xf9100000 0x1000 0x5000,
          Event.kzalloc 0, Event.mutex_unlock LockId.sps] ∧
    Event.iounmap 0x5000 ∉
      new_events ex_world
        (sps_register_bam_device leak_env ex_world (some ex_props) (some 0)).2.2 := by
  decide

/-! ### Connection state machine (C7 to C10) -/

theorem new_events_append (w w2 : World) (l : List Event) (h : w2.trace = w.trace ++ l) :
    new_events w w2 = l := by
  unfold new_events
  rw [h, List.drop_left]

@[simp] theorem set_pipe_sps (w : World) (p : Ptr) (e : sps_pipe) :
    (w.set_pipe p e).sps = w.sps := rfl

@[simp] theorem set_pipe_trace (w : World) (p : Ptr) (e : sps_pipe) :
    (w.set_pipe p e).trace = w.trace := rfl

@[simp] theorem set_pipe_bam_mem (w : World) (p : Ptr) (e : sps_pipe) :
    (w.set_pipe p e).bam_mem = w.bam_mem := rfl

@[simp] theorem set_pipe_map_mem (w : World) (p : Ptr) (e : sps_pipe) :
    (w.set_pipe p e).map_mem = w.map_mem := rfl

@[simp] theorem set_pipe_pipe_mem_same (w : World) (p : Ptr) (e : sps_pipe) :
    (w.set_pipe p e).pipe_mem p = e := by
  simp [World.set_pipe]

@[simp] theorem set_map_sps (w : World) (p : Ptr) (m : sps_connection) :
    (w.set_map p m).sps = w.sps := rfl

@[simp] theorem set_map_trace (w : World) (p : Ptr) (m : sps_connection) :
    (w.set_map p m).trace = w.trace := rfl

@[simp] theorem set_map_bam_mem (w : World) (p : Ptr) (m : sps_connection) :
    (w.set_map p m).bam_mem = w.bam_mem := rfl

@[simp] theorem set_map_pipe_mem (w : World) (p : Ptr) (m : sps_connection) :
    (w.set_map p m).pipe_mem = w.pipe_mem := rfl

@[simp] theorem set_map_map_mem_same (w : World) (p : Ptr) (m : sps_connection) :
    (w.set_map p m).map_mem p = m := by
  simp [World.set_map]

@[simp] theorem sps_h2bam_log (K : Consts) (w : World) (e : Event) (h : Nat) :
    sps_h2bam K (w.log e) h = sps_h2bam K w h := rfl

@[simp] theorem sps_h2bam_set_pipe (K : Consts) (w : World) (p : Ptr) (e : sps_pipe) (h : Nat) :
    sps_h2bam K (w.set_pipe p e) h = sps_h2bam K w h := rfl

@[simp] theorem rm_apply_trace (E : Env) (w : World) (p : Ptr) (s : sps_state) :
    (rm_apply E w p s).trace = w.trace := by
  cases s <;> simp only [rm_apply, set_pipe_trace, set_map_trace] <;> (try split_ifs) <;> rfl

@[simp] theorem rm_apply_sps (E : Env) (w : World) (p : Ptr) (s : sps_state) :
    (rm_apply E w p s).sps = w.sps := by
  cases s <;> simp only [rm_apply, set_pipe_sps, set_map_sps] <;> (try split_ifs) <;> rfl

theorem sps_rm_state_change_fst (E : Env) (w : World) (p : Ptr) (s : sps_state) :
    (sps_rm_state_change E w p s).1 = E.rm_result w p s := by
  unfold sps_rm_state_change
  dsimp only
  by_cases h : E.rm_result w p s ≠ 0
  · rw [if_pos h]
  · rw [if_neg h]
    push_neg at h
    exact h.symm

@[simp] theorem sps_rm_state_change_trace (E : Env) (w : World) (p : Ptr) (s : sps_state) :
    (sps_rm_state_change E w p s).2.trace
      = w.trace ++ [Event.sps_rm_state_change p s (E.rm_result w p s)] := by
  unfold sps_rm_state_change
  dsimp only
  by_cases h : E.rm_result w p s ≠ 0
  · rw [if_pos h]; rfl
  · rw [if_neg h]; simp

@[simp] theorem sps_rm_state_change_sps (E : Env) (w : World) (p : Ptr) (s : sps_state) :
    (sps_rm_state_change E w p s).2.sps = w.sps := by
  unfold sps_rm_state_change
  dsimp only
  by_cases h : E.rm_result w p s ≠ 0
  · rw [if_pos h]; rfl
  · rw [if_neg h]; simp

theorem sps_rm_state_change_fail (E : Env) (w : World) (p : Ptr) (s : sps_state)
    (h : E.rm_result w p s ≠ 0) :
    (sps_rm_state_change E w p s).2
      = w.log (Event.sps_rm_state_change p s (E.rm_result w p s)) := by
  unfold sps_rm_state_change
  dsimp only
  rw [if_pos h]

theorem sps_rm_state_change_ok (E : Env) (w : World) (p : Ptr) (s : sps_state)
    (h : E.rm_result w p s = 0) :
    (sps_rm_state_change E w p s).2
      = rm_apply E (w.log (Event.sps_rm_state_change p s 0)) p s := by
  unfold sps_rm_state_change
  dsimp only
  rw [if_neg (by simp [h]), h]

theorem disconnect_locked_fail (E : Env) (w1 : World) (h bam : Ptr)
    (hr : E.rm_result w1 h sps_state.SPS_STATE_DISCONNECT ≠ 0) :
    disconnect_locked E w1 h bam =
      (E.rm_result w1 h sps_state.SPS_STATE_DISCONNECT,
        (w1.log (Event.sps_rm_state_change h sps_state.SPS_STATE_DISCONNECT
          (E.rm_result w1 h sps_state.SPS_STATE_DISCONNECT))).log
          (Event.mutex_unlock (LockId.bam bam))) := by
  unfold disconnect_locked
  simp only [sps_rm_state_change_fst]
  rw [if_pos hr, sps_rm_state_change_fail E w1 h _ hr]

theorem disconnect_locked_ok (E : Env) (w1 : World) (h bam : Ptr)
    (hr : E.rm_result w1 h sps_state.SPS_STATE_DISCONNECT = 0) :
    disconnect_locked E w1 h bam =
      (0, (((rm_apply E (w1.log (Event.sps_rm_state_change h
                sps_state.SPS_STATE_DISCONNECT 0)) h sps_state.SPS_STATE_DISCONNECT).log
              (Event.mutex_unlock (LockId.bam bam))).set_pipe h
            { ((rm_apply E (w1.log (Event.sps_rm_state_change h
                sps_state.SPS_STATE_DISCONNECT 0)) h
                sps_state.SPS_STATE_DISCONNECT).pipe_mem h) with
              connect := E.sps_rm_config_init }).log
          (Event.sps_rm_config_init h)) := by
  unfold disconnect_locked
  simp only [sps_rm_state_change_fst]
  rw [if_neg (by simp [hr]), sps_rm_state_change_ok E w1 h _ hr]
  rfl

theorem sps_disconnect_eq (E : Env) (w : World) (h : Ptr) (hh : h ≠ 0)
    (hb : (w.pipe_mem h).bam ≠ 0) (hm : map_check E.K w h) :
    sps_disconnect E w h
      = disconnect_locked E (disconnect_rm_state w h) h (w.pipe_mem h).bam := by
  have hm2 : map_check E.K (w.log (Event.sps_disconnect h)) h := hm
  have hb2 : ¬ ((w.log (Event.sps_disconnect h)).pipe_mem h).bam = 0 := hb
  unfold sps_disconnect
  dsimp only
  rw [if_neg hh, if_neg hb2, if_neg (not_not_intro hm2)]
  rfl

theorem rm_apply_disconnect_pipe (E : Env) (w : World) (h : Ptr) :
    (rm_apply E w h sps_state.SPS_STATE_DISCONNECT).pipe_mem h =
      { w.pipe_mem h with
        client_state := sps_state.SPS_STATE_DISCONNECT, bam := 0, map := 0 } := by
  simp only [rm_apply, set_pipe_pipe_mem_same]

theorem rm_apply_disconnect_bam_mem (E : Env) (w : World) (h : Ptr)
    (hs : (w.pipe_mem h).client_state ≠ sps_state.SPS_STATE_CONNECT) :
    (rm_apply E w h sps_state.SPS_STATE_DISCONNECT).bam_mem = w.bam_mem := by
  simp only [rm_apply, set_pipe_bam_mem, set_map_bam_mem, if_neg hs]

theorem sps_disconnect_ready (E : Env) (w : World) (h : Ptr) (hh : h ≠ 0)
    (hb : (w.pipe_mem h).bam ≠ 0) (hm : map_check E.K w h) :
    (sps_disconnect E w h).1
      = E.rm_result (disconnect_rm_state w h) h sps_state.SPS_STATE_DISCONNECT ∧
    (sps_disconnect E w h).2.trace = w.trace ++
      ([Event.sps_disconnect h, Event.mutex_lock (LockId.bam (w.pipe_mem h).bam),
        Event.sps_rm_state_change h sps_state.SPS_STATE_DISCONNECT
          (E.rm_result (disconnect_rm_state w h) h sps_state.SPS_STATE_DISCONNECT),
        Event.mutex_unlock (LockId.bam (w.pipe_mem h).bam)] ++
        (if E.rm_result (disconnect_rm_state w h) h sps_state.SPS_STATE_DISCONNECT = 0
          then [Event.sps_rm_config_init h] else [])) ∧
    (E.rm_result (disconnect_rm_state w h) h sps_state.SPS_STATE_DISCONNECT = 0 →
      ((sps_disconnect E w h).2.pipe_mem h).client_state = sps_state.SPS_STATE_DISCONNECT ∧
      ((sps_disconnect E w h).2.pipe_mem h).connect = E.sps_rm_config_init ∧
      ((sps_disconnect E w h).2.pipe_mem h).bam = 0 ∧
      ((w.pipe_mem h).client_state ≠ sps_state.SPS_STATE_CONNECT →
        (sps_disconnect E w h).2.bam_mem = w.bam_mem)) ∧
    (E.rm_result (disconnect_rm_state w h) h sps_state.SPS_STATE_DISCONNECT ≠ 0 →
      (sps_disconnect E w h).2.pipe_mem = w.pipe_mem ∧
      (sps_disconnect E w h).2.bam_mem = w.bam_mem) := by
  rw [sps_disconnect_eq E w h hh hb hm]
  have ht : (disconnect_rm_state w h).trace = w.trace ++
      [Event.sps_disconnect h, Event.mutex_lock (LockId.bam (w.pipe_mem h).bam)] := by
    simp [disconnect_rm_state]
  by_cases hr : E.rm_result (disconnect_rm_state w h) h sps_state.SPS_STATE_DISCONNECT ≠ 0
  · rw [disconnect_locked_fail E _ h _ hr]
    refine ⟨rfl, ?_, fun h0 => absurd h0 hr, fun _ => ⟨rfl, rfl⟩⟩
    simp [ht, hr]
  · push_neg at hr
    rw [disconnect_locked_ok E _ h _ hr]
    refine ⟨hr.symm, ?_, fun _ => ⟨?_, ?_, ?_, ?_⟩, fun h0 => absurd hr h0⟩
    · simp [ht, hr]
    · simp [rm_apply_disconnect_pipe]
    · simp
    · simp [rm_apply_disconnect_pipe]
    · intro hs
      simp only [log_bam_mem, set_pipe_bam_mem]
      rw [rm_apply_disconnect_bam_mem]
      · rfl
      · exact hs

theorem connect_locked_alloc_fail (E : Env) (w2 : World) (h : Ptr) (c : struct_sps_connect)
    (bam : Ptr)
    (ha : E.rm_result (connect_stored w2 h c) h sps_state.SPS_STATE_ALLOCATE ≠ 0) :
    connect_locked E w2 h c bam =
      (E.rm_result (connect_stored w2 h c) h sps_state.SPS_STATE_ALLOCATE,
        (((connect_stored w2 h c).log
          (Event.sps_rm_state_change h sps_state.SPS_STATE_ALLOCATE
            (E.rm_result (connect_stored w2 h c) h sps_state.SPS_STATE_ALLOCATE))).log
          (Event.mutex_unlock (LockId.bam bam))).log (Event.mutex_unlock LockId.sps)) := by
  unfold connect_locked
  simp only [sps_rm_state_change_fst]
  change (if E.rm_result (connect_stored w2 h c) h sps_state.SPS_STATE_ALLOCATE ≠ 0 then _
    else _) = _
  rw [if_pos ha]
  change (_, (((sps_rm_state_change E (connect_stored w2 h c) h
    sps_state.SPS_STATE_ALLOCATE).2.log _).log _)) = _
  rw [sps_rm_state_change_fail E _ h _ ha]
  rfl

theorem connect_locked_config_fail (E : Env) (w2 : World) (h : Ptr) (c : struct_sps_connect)
    (bam : Ptr)
    (ha : E.rm_result (connect_stored w2 h c) h sps_state.SPS_STATE_ALLOCATE = 0)
    (hc : E.rm_result (connect_allocated E w2 h c) h sps_state.SPS_STATE_CONNECT ≠ 0) :
    connect_locked E w2 h c bam =
      (E.rm_result (connect_allocated E w2 h c) h sps_state.SPS_STATE_CONNECT,
        (sps_disconnect E
          (connect_rollback_state E w2 h c bam
            (E.rm_result (connect_allocated E w2 h c) h sps_state.SPS_STATE_CONNECT)) h).2.log
          (Event.mutex_unlock LockId.sps)) := by
  have e1 : (sps_rm_state_change E (connect_stored w2 h c) h
      sps_state.SPS_STATE_ALLOCATE).2 = connect_allocated E w2 h c :=
    sps_rm_state_change_ok E _ h _ ha
  unfold connect_locked
  simp only [sps_rm_state_change_fst]
  change (if E.rm_result (connect_stored w2 h c) h sps_state.SPS_STATE_ALLOCATE ≠ 0 then _
    else _) = _
  rw [if_neg (by simp [ha])]
  change (if E.rm_result (sps_rm_state_change E (connect_stored w2 h c) h
      sps_state.SPS_STATE_ALLOCATE).2 h sps_state.SPS_STATE_CONNECT ≠ 0 then
      (E.rm_result (sps_rm_state_change E (connect_stored w2 h c) h
        sps_state.SPS_STATE_ALLOCATE).2 h sps_state.SPS_STATE_CONNECT,
        (sps_disconnect E ((sps_rm_state_change E (sps_rm_state_change E (connect_stored w2 h c) h
          sps_state.SPS_STATE_ALLOCATE).2 h sps_state.SPS_STATE_CONNECT).2.log _) h).2.log _)
    else _) = _
  rw [e1, if_pos hc, sps_rm_state_change_fail E _ h _ hc]
  rfl

theorem connect_locked_ok (E : Env) (w2 : World) (h : Ptr) (c : struct_sps_connect)
    (bam : Ptr)
    (ha : E.rm_result (connect_stored w2 h c) h sps_state.SPS_STATE_ALLOCATE = 0)
    (hc : E.rm_result (connect_allocated E w2 h c) h sps_state.SPS_STATE_CONNECT = 0) :
    connect_locked E w2 h c bam =
      (0, ((rm_apply E ((connect_allocated E w2 h c).log
            (Event.sps_rm_state_change h sps_state.SPS_STATE_CONNECT 0)) h
            sps_state.SPS_STATE_CONNECT).log
          (Event.mutex_unlock (LockId.bam bam))).log (Event.mutex_unlock LockId.sps)) := by
  have e1 : (sps_rm_state_change E (connect_stored w2 h c) h
      sps_state.SPS_STATE_ALLOCATE).2 = connect_allocated E w2 h c :=
    sps_rm_state_change_ok E _ h _ ha
  unfold connect_locked
  simp only [sps_rm_state_change_fst]
  change (if E.rm_result (connect_stored w2 h c) h sps_state.SPS_STATE_ALLOCATE ≠ 0 then _
    else _) = _
  rw [if_neg (by simp [ha])]
  change (if E.rm_result (sps_rm_state_change E (connect_stored w2 h c) h
      sps_state.SPS_STATE_ALLOCATE).2 h sps_state.SPS_STATE_CONNECT ≠ 0 then _
    else (E.rm_result (sps_rm_state_change E (connect_stored w2 h c) h
        sps_state.SPS_STATE_ALLOCATE).2 h sps_state.SPS_STATE_CONNECT,
        ((sps_rm_state_change E (sps_rm_state_change E (connect_stored w2 h c) h
          sps_state.SPS_STATE_ALLOCATE).2 h sps_state.SPS_STATE_CONNECT).2.log _).log _)) = _
  rw [e1, if_neg (by simp [hc]), sps_rm_state_change_ok E _ h _ hc, hc]

theorem connect_allocated_pipe (E : Env) (w2 : World) (h : Ptr) (c : struct_sps_connect) :
    ((connect_allocated E w2 h c).pipe_mem h).connect = c ∧
    ((connect_allocated E w2 h c).pipe_mem h).client_state = sps_state.SPS_STATE_ALLOCATE ∧
    ((connect_allocated E w2 h c).pipe_mem h).bam = sps_h2bam E.K w2 (connect_dev E.K c) ∧
    map_check E.K (connect_allocated E w2 h c) h ∧
    (connect_allocated E w2 h c).bam_mem = w2.bam_mem ∧
    (connect_allocated E w2 h c).trace
      = w2.trace ++ [Event.sps_rm_state_change h sps_state.SPS_STATE_ALLOCATE 0] := by
  refine ⟨?_, ?_, ?_, ?_, ?_, ?_⟩
  · simp [connect_allocated, rm_apply, connect_stored]
  · simp [connect_allocated, rm_apply, connect_stored]
  · simp [connect_allocated, rm_apply, connect_stored, connect_dev]
  · unfold map_check
    by_cases hm : c.mode = E.K.SPS_MODE_SRC
    · simp [connect_allocated, rm_apply, connect_stored, hm]
    · simp [connect_allocated, rm_apply, connect_stored, hm]
  · simp [connect_allocated, rm_apply, connect_stored]
  · simp [connect_allocated, connect_stored]

theorem rm_apply_connect_pipe (E : Env) (w : World) (h : Ptr) :
    (rm_apply E w h sps_state.SPS_STATE_CONNECT).pipe_mem h =
      { w.pipe_mem h with client_state := sps_state.SPS_STATE_CONNECT } ∧
    (rm_apply E w h sps_state.SPS_STATE_CONNECT).map_mem = w.map_mem := by
  constructor
  · simp only [rm_apply, set_pipe_pipe_mem_same, set_bam_pipe_mem]
  · rfl

/-- The exits of `sps_connect`: either it leaves before the locked part, with an
error code, the endpoints and devices untouched and at most the global mutex
locked and unlocked, or it runs the locked part on the resolved device. -/
theorem sps_connect_cases (E : Env) (w : World) (h : Ptr)
    (connect : Option struct_sps_connect) :
    ((sps_connect E w h connect).2.pipe_mem = w.pipe_mem ∧
      (sps_connect E w h connect).2.bam_mem = w.bam_mem ∧
      ((sps_connect E w h connect).2.trace = w.trace ++ [] ∨
        (sps_connect E w h connect).2.trace = w.trace ++
          [Event.mutex_lock LockId.sps, Event.mutex_unlock LockId.sps]) ∧
      ((sps_connect E w h connect).1 = E.K.SPS_ERROR ∨
        (sps_connect E w h connect).1 = -ENODEV ∨
        (sps_connect E w h connect).1 = -EAGAIN)) ∨
    (∃ c, connect = some c ∧ h ≠ 0 ∧ sps_h2bam E.K w (connect_dev E.K c) ≠ 0 ∧
      sps_connect E w h connect =
        connect_locked E (connect_entry E.K w c) h c (sps_h2bam E.K w (connect_dev E.K c))) := by
  unfold sps_connect
  by_cases hh : h = 0
  · rw [if_pos hh]; left; simp
  rw [if_neg hh]
  cases connect with
  | none => left; simp
  | some c =>
    cases hs : w.sps with
    | none => left; simp
    | some drv =>
      dsimp only
      by_cases hr : drv.is_ready = false
      · rw [if_pos hr]; left; simp
      rw [if_neg hr]
      by_cases hl : c.lock_group ≠ E.K.SPSRM_CLEAR ∧
          c.lock_group > E.K.BAM_MAX_P_LOCK_GROUP_NUM
      · rw [if_pos hl]; left; simp
      rw [if_neg hl]
      by_cases hb : sps_h2bam E.K (w.log (Event.mutex_lock LockId.sps))
          (connect_dev E.K c) = 0
      · rw [if_pos hb]; left; simp
      rw [if_neg hb]
      right
      exact ⟨c, rfl, hh, hb, rfl⟩

theorem connect_entry_trace (K : Consts) (w : World) (c : struct_sps_connect) :
    (connect_entry K w c).trace = w.trace ++
      [Event.mutex_lock LockId.sps,
        Event.mutex_lock (LockId.bam (sps_h2bam K w (connect_dev K c)))] := by
  simp [connect_entry]

theorem connect_rollback_state_facts (E : Env) (w2 : World) (h : Ptr)
    (c : struct_sps_connect) (bam : Ptr) (r : Int) :
    ((connect_rollback_state E w2 h c bam r).pipe_mem h).connect = c ∧
    ((connect_rollback_state E w2 h c bam r).pipe_mem h).client_state
      = sps_state.SPS_STATE_ALLOCATE ∧
    ((connect_rollback_state E w2 h c bam r).pipe_mem h).bam
      = sps_h2bam E.K w2 (connect_dev E.K c) ∧
    map_check E.K (connect_rollback_state E w2 h c bam r) h ∧
    (connect_rollback_state E w2 h c bam r).bam_mem = w2.bam_mem ∧
    (connect_rollback_state E w2 h c bam r).trace = w2.trace ++
      [Event.sps_rm_state_change h sps_state.SPS_STATE_ALLOCATE 0,
        Event.sps_rm_state_change h sps_state.SPS_STATE_CONNECT r,
        Event.mutex_unlock (LockId.bam bam)] := by
  obtain ⟨f1, f2, f3, f4, f5, f6⟩ := connect_allocated_pipe E w2 h c
  refine ⟨f1, f2, f3, f4, f5, ?_⟩
  simp [connect_rollback_state, f6]

/-- The three outcomes of the locked part of `sps_connect` on a non-null
endpoint whose target device resolves: the allocation fails; the allocation
succeeds and the configuration fails, followed by the rollback; both succeed. -/
theorem connect_locked_cases (E : Env) (w2 : World) (h : Ptr) (c : struct_sps_connect)
    (bam : Ptr) (hh : h ≠ 0) (hb : sps_h2bam E.K w2 (connect_dev E.K c) ≠ 0) :
    (∃ a, a ≠ 0 ∧ (connect_locked E w2 h c bam).1 = a ∧
      (connect_locked E w2 h c bam).2.trace = w2.trace ++
        [Event.sps_rm_state_change h sps_state.SPS_STATE_ALLOCATE a,
          Event.mutex_unlock (LockId.bam bam), Event.mutex_unlock LockId.sps] ∧
      ((connect_locked E w2 h c bam).2.pipe_mem h).client_state
        = (w2.pipe_mem h).client_state ∧
      (connect_locked E w2 h c bam).2.bam_mem = w2.bam_mem) ∨
    (∃ cc rr, cc ≠ 0 ∧ (connect_locked E w2 h c bam).1 = cc ∧
      (connect_locked E w2 h c bam).2.trace = w2.trace ++
        ([Event.sps_rm_state_change h sps_state.SPS_STATE_ALLOCATE 0,
          Event.sps_rm_state_change h sps_state.SPS_STATE_CONNECT cc,
          Event.mutex_unlock (LockId.bam bam),
          Event.sps_disconnect h,
          Event.mutex_lock (LockId.bam (sps_h2bam E.K w2 (connect_dev E.K c))),
          Event.sps_rm_state_change h sps_state.SPS_STATE_DISCONNECT rr,
          Event.mutex_unlock (LockId.bam (sps_h2bam E.K w2 (connect_dev E.K c)))] ++
          (if rr = 0 then [Event.sps_rm_config_init h] else []) ++
          [Event.mutex_unlock LockId.sps]) ∧
      (connect_locked E w2 h c bam).2.bam_mem = w2.bam_mem ∧
      (rr = 0 →
        ((connect_locked E w2 h c bam).2.pipe_mem h).client_state
          = sps_state.SPS_STATE_DISCONNECT ∧
        ((connect_locked E w2 h c bam).2.pipe_mem h).bam = 0 ∧
        ((connect_locked E w2 h c bam).2.pipe_mem h).connect = E.sps_rm_config_init) ∧
      (rr ≠ 0 →
        ((connect_locked E w2 h c bam).2.pipe_mem h).client_state
          = sps_state.SPS_STATE_ALLOCATE ∧
        ((connect_locked E w2 h c bam).2.pipe_mem h).bam
          = sps_h2bam E.K w2 (connect_dev E.K c) ∧
        ((connect_locked E w2 h c bam).2.pipe_mem h).connect = c)) ∨
    ((connect_locked E w2 h c bam).1 = 0 ∧
      (connect_locked E w2 h c bam).2.trace = w2.trace ++
        [Event.sps_rm_state_change h sps_state.SPS_STATE_ALLOCATE 0,
          Event.sps_rm_state_change h sps_state.SPS_STATE_CONNECT 0,
          Event.mutex_unlock (LockId.bam bam), Event.mutex_unlock LockId.sps] ∧
      ((connect_locked E w2 h c bam).2.pipe_mem h).connect = c ∧
      ((connect_locked E w2 h c bam).2.pipe_mem h).client_state
        = sps_state.SPS_STATE_CONNECT ∧
      ((connect_locked E w2 h c bam).2.pipe_mem h).bam
        = sps_h2bam E.K w2 (connect_dev E.K c) ∧
      map_check E.K (connect_locked E w2 h c bam).2 h) := by
  by_cases ha : E.rm_result (connect_stored w2 h c) h sps_state.SPS_STATE_ALLOCATE ≠ 0
  · left
    rw [connect_locked_alloc_fail E w2 h c bam ha]
    refine ⟨_, ha, rfl, ?_, ?_, rfl⟩
    · simp [connect_stored]
    · simp [connect_stored]
  push_neg at ha
  obtain ⟨f1, f2, f3, f4, f5, f6⟩ := connect_allocated_pipe E w2 h c
  by_cases hc : E.rm_result (connect_allocated E w2 h c) h sps_state.SPS_STATE_CONNECT ≠ 0
  · right; left
    rw [connect_locked_config_fail E w2 h c bam ha hc]
    obtain ⟨g1, g2, g3, g4, g5, g6⟩ := connect_rollback_state_facts E w2 h c bam
      (E.rm_result (connect_allocated E w2 h c) h sps_state.SPS_STATE_CONNECT)
    obtain ⟨d1, d2, d3, d4⟩ := sps_disconnect_ready E _ h hh (by rw [g3]; exact hb) g4
    refine ⟨E.rm_result (connect_allocated E w2 h c) h sps_state.SPS_STATE_CONNECT,
      E.rm_result (disconnect_rm_state (connect_rollback_state E w2 h c bam
          (E.rm_result (connect_allocated E w2 h c) h sps_state.SPS_STATE_CONNECT)) h) h
          sps_state.SPS_STATE_DISCONNECT, hc, rfl, ?_, ?_, ?_, ?_⟩
    · simp only [log_trace, d2, g6, g3, List.append_assoc]
      rfl
    · by_cases hr : E.rm_result (disconnect_rm_state (connect_rollback_state E w2 h c bam
          (E.rm_result (connect_allocated E w2 h c) h sps_state.SPS_STATE_CONNECT)) h) h
          sps_state.SPS_STATE_DISCONNECT = 0
      · rw [log_bam_mem, (d3 hr).2.2.2 (by rw [g2]; decide), g5]
      · rw [log_bam_mem, (d4 hr).2, g5]
    · intro hr
      obtain ⟨e1, e2, e3, _⟩ := d3 hr
      exact ⟨e1, e3, e2⟩
    · intro hr
      obtain ⟨e1, _⟩ := d4 hr
      rw [log_pipe_mem, e1]
      exact ⟨g2, g3, g1⟩
  · right; right
    push_neg at hc
    rw [connect_locked_ok E w2 h c bam ha hc]
    obtain ⟨p1, p2⟩ := rm_apply_connect_pipe E ((connect_allocated E w2 h c).log
      (Event.sps_rm_state_change h sps_state.SPS_STATE_CONNECT 0)) h
    refine ⟨rfl, ?_, ?_, ?_, ?_, ?_⟩
    · simp [f6]
    · simp only [log_pipe_mem, p1]; exact f1
    · simp only [log_pipe_mem, p1]
    · simp only [log_pipe_mem, p1]; exact f3
    · unfold map_check at f4 ⊢
      simp only [log_pipe_mem, log_map_mem, p1, p2]
      exact f4

/-- The outcomes of `sps_connect`, with the calls it makes: an exit before the
locked part; a failed allocation; a failed configuration followed by the
rollback, whose state change returns `rr`; success. -/
theorem sps_connect_outcomes (E : Env) (w : World) (h : Ptr)
    (connect : Option struct_sps_connect) :
    ((new_events w (sps_connect E w h connect).2 = [] ∨
        new_events w (sps_connect E w h connect).2 =
          [Event.mutex_lock LockId.sps, Event.mutex_unlock LockId.sps]) ∧
      (sps_connect E w h connect).2.pipe_mem = w.pipe_mem ∧
      (sps_connect E w h connect).2.bam_mem = w.bam_mem ∧
      ((sps_connect E w h connect).1 = E.K.SPS_ERROR ∨
        (sps_connect E w h connect).1 = -ENODEV ∨
        (sps_connect E w h connect).1 = -EAGAIN)) ∨
    (∃ c tgt, connect = some c ∧ h ≠ 0 ∧ tgt = sps_h2bam E.K w (connect_dev E.K c) ∧ tgt ≠ 0 ∧
      ((∃ a, a ≠ 0 ∧ (sps_connect E w h connect).1 = a ∧
          new_events w (sps_connect E w h connect).2 =
            [Event.mutex_lock LockId.sps, Event.mutex_lock (LockId.bam tgt),
              Event.sps_rm_state_change h sps_state.SPS_STATE_ALLOCATE a,
              Event.mutex_unlock (LockId.bam tgt), Event.mutex_unlock LockId.sps] ∧
          ((sps_connect E w h connect).2.pipe_mem h).client_state
            = (w.pipe_mem h).client_state ∧
          (sps_connect E w h connect).2.bam_mem = w.bam_mem) ∨
        (∃ cc rr, cc ≠ 0 ∧ (sps_connect E w h connect).1 = cc ∧
          new_events w (sps_connect E w h connect).2 =
            [Event.mutex_lock LockId.sps, Event.mutex_lock (LockId.bam tgt),
              Event.sps_rm_state_change h sps_state.SPS_STATE_ALLOCATE 0,
              Event.sps_rm_state_change h sps_state.SPS_STATE_CONNECT cc,
              Event.mutex_unlock (LockId.bam tgt),
              Event.sps_disconnect h,
              Event.mutex_lock (LockId.bam tgt),
              Event.sps_rm_state_change h sps_state.SPS_STATE_DISCONNECT rr,
              Event.mutex_unlock (LockId.bam tgt)] ++
              (if rr = 0 then [Event.sps_rm_config_init h] else []) ++
              [Event.mutex_unlock LockId.sps] ∧
          (sps_connect E w h connect).2.bam_mem = w.bam_mem ∧
          (rr = 0 →
            ((sps_connect E w h connect).2.pipe_mem h).client_state
              = sps_state.SPS_STATE_DISCONNECT ∧
            ((sps_connect E w h connect).2.pipe_mem h).bam = 0 ∧
            ((sps_connect E w h connect).2.pipe_mem h).connect = E.sps_rm_config_init) ∧
          (rr ≠ 0 →
            ((sps_connect E w h connect).2.pipe_mem h).client_state
              = sps_state.SPS_STATE_ALLOCATE ∧
            ((sps_connect E w h connect).2.pipe_mem h).bam = tgt ∧
            ((sps_connect E w h connect).2.pipe_mem h).connect = c)) ∨
        ((sps_connect E w h connect).1 = 0 ∧
          new_events w (sps_connect E w h connect).2 =
            [Event.mutex_lock LockId.sps, Event.mutex_lock (LockId.bam tgt),
              Event.sps_rm_state_change h sps_state.SPS_STATE_ALLOCATE 0,
              Event.sps_rm_state_change h sps_state.SPS_STATE_CONNECT 0,
              Event.mutex_unlock (LockId.bam tgt), Event.mutex_unlock LockId.sps] ∧
          ((sps_connect E w h connect).2.pipe_mem h).connect = c ∧
          ((sps_connect E w h connect).2.pipe_mem h).client_state
            = sps_state.SPS_STATE_CONNECT ∧
          ((sps_connect E w h connect).2.pipe_mem h).bam = tgt ∧
          map_check E.K (sps_connect E w h connect).2 h))) := by
  rcases sps_connect_cases E w h connect with ⟨h1, h2, h3, h4⟩ | ⟨c, hc, hh, hb, heq⟩
  · left
    refine ⟨?_, h1, h2, h4⟩
    rcases h3 with h3 | h3
    · left; exact new_events_append _ _ _ h3
    · right; exact new_events_append _ _ _ h3
  · right
    refine ⟨c, _, hc, hh, rfl, hb, ?_⟩
    rw [heq]
    have hb2 : sps_h2bam E.K (connect_entry E.K w c) (connect_dev E.K c) ≠ 0 := hb
    have ht := connect_entry_trace E.K w c
    have hk : sps_h2bam E.K (connect_entry E.K w c) (connect_dev E.K c)
        = sps_h2bam E.K w (connect_dev E.K c) := rfl
    rcases connect_locked_cases E (connect_entry E.K w c) h c
        (sps_h2bam E.K w (connect_dev E.K c)) hh hb2 with
      ⟨a, a1, a2, a3, a4, a5⟩ | ⟨cc, rr, b1, b2, b3, b4, b5, b6⟩ | ⟨c1, c2, c3, c4, c5, c6⟩
    · left
      refine ⟨a, a1, a2, ?_, a4, a5⟩
      apply new_events_append
      rw [a3, ht]; simp
    · right; left
      refine ⟨cc, rr, b1, b2, ?_, b4, b5, ?_⟩
      · apply new_events_append
        rw [b3, ht, hk]; simp
      · rw [hk] at b6; exact b6
    · right; right
      refine ⟨c1, ?_, c3, c4, c5, c6⟩
      apply new_events_append
      rw [c2, ht]; simp

/-- C7: after a successful `sps_connect` of endpoint `h` with descriptor `d`,
`sps_disconnect h` calls the Resource Manager's state change to `Disconnected`
and returns its result `e`; when `e = 0` the endpoint is left in state
`Disconnected` with the descriptor `sps_rm_config_init` writes, and when `e ≠ 0`
the error `e` is returned, the descriptor is still `d` and `sps_rm_config_init`
is not called. -/
theorem sps_disconnect_after_connect (E : Env) (hE : E.K.SPS_ERROR ≠ 0) (w : World) (h : Ptr)
    (d : struct_sps_connect) (hok : (sps_connect E w h (some d)).1 = 0) :
    ∃ e,
      Event.sps_rm_state_change h sps_state.SPS_STATE_DISCONNECT e ∈
        new_events (sps_connect E w h (some d)).2
          (sps_disconnect E (sps_connect E w h (some d)).2 h).2 ∧
      (sps_disconnect E (sps_connect E w h (some d)).2 h).1 = e ∧
      (e = 0 →
        ((sps_disconnect E (sps_connect E w h (some d)).2 h).2.pipe_mem h).client_state
          = sps_state.SPS_STATE_DISCONNECT ∧
        ((sps_disconnect E (sps_connect E w h (some d)).2 h).2.pipe_mem h).connect
          = E.sps_rm_config_init) ∧
      (e ≠ 0 →
        ((sps_disconnect E (sps_connect E w h (some d)).2 h).2.pipe_mem h).connect = d ∧
        Event.sps_rm_config_init h ∉
          new_events (sps_connect E w h (some d)).2
            (sps_disconnect E (sps_connect E w h (some d)).2 h).2) := by
  rcases sps_connect_outcomes E w h (some d) with
    ⟨_, _, _, h4⟩ | ⟨c, tgt, hc, hh, ht, hb, hcase⟩
  · rcases h4 with h4 | h4 | h4
    · rw [h4] at hok; exact absurd hok hE
    · rw [h4] at hok; simp [ENODEV] at hok
    · rw [h4] at hok; simp [EAGAIN] at hok
  · have hcd : d = c := Option.some.inj hc
    subst hcd
    rcases hcase with ⟨a, a1, a2, _⟩ | ⟨cc, rr, b1, b2, _⟩ | ⟨_, _, c3, c4, c5, c6⟩
    · rw [a2] at hok; exact absurd hok a1
    · rw [b2] at hok; exact absurd hok b1
    · obtain ⟨d1, d2, d3, d4⟩ := sps_disconnect_ready E (sps_connect E w h (some d)).2 h hh
        (by rw [c5]; exact hb) c6
      refine ⟨_, ?_, d1, ?_, ?_⟩
      · rw [new_events_append _ _ _ d2]
        simp
      · intro he
        obtain ⟨e1, e2, _⟩ := d3 he
        exact ⟨e1, e2⟩
      · intro he
        obtain ⟨e1, _⟩ := d4 he
        refine ⟨by rw [e1]; exact c3, ?_⟩
        rw [new_events_append _ _ _ d2]
        simp [he]

/-- Witness of C7: connecting the idle endpoint at `0x30` of the example state
with the example descriptor succeeds, and the following disconnect returns `0`. -/
theorem sps_disconnect_after_connect_witness :
    (sps_connect ex_env ex_world 0x30 (some ex_connect)).1 = 0 ∧
    ∃ e, Event.sps_rm_state_change 0x30 sps_state.SPS_STATE_DISCONNECT e ∈
        new_events (sps_connect ex_env ex_world 0x30 (some ex_connect)).2
          (sps_disconnect ex_env (sps_connect ex_env ex_world 0x30 (some ex_connect)).2
            0x30).2 ∧
      (sps_disconnect ex_env (sps_connect ex_env ex_world 0x30 (some ex_connect)).2 0x30).1
        = e :=
  ⟨by decide,
    (sps_disconnect_after_connect ex_env (by decide) ex_world 0x30 ex_connect
      (by decide)).imp fun _ hx => ⟨hx.1, hx.2.1⟩⟩

/-- The run of `sps_connect` whose trace holds a failing configuration with
code `c`: the allocation had succeeded, and what is returned is `c` with the
state left by the rollback `sps_disconnect`, then the release of the global
mutex. -/
theorem connect_after_config_failure (E : Env) (w : World) (h : Ptr)
    (connect : Option struct_sps_connect) (c : Int) (hc : c ≠ 0)
    (hev : Event.sps_rm_state_change h sps_state.SPS_STATE_CONNECT c ∈
      new_events w (sps_connect E w h connect).2) :
    ∃ d, connect = some d ∧ h ≠ 0 ∧ sps_h2bam E.K w (connect_dev E.K d) ≠ 0 ∧
      sps_connect E w h connect =
        (c, (sps_disconnect E
          (connect_rollback_state E (connect_entry E.K w d) h d
            (sps_h2bam E.K w (connect_dev E.K d)) c) h).2.log
          (Event.mutex_unlock LockId.sps)) := by
  rcases sps_connect_cases E w h connect with ⟨_, _, h3, _⟩ | ⟨d, hd, hh, hb, heq⟩
  · exfalso
    rcases h3 with h3 | h3
    · rw [new_events_append _ _ _ h3] at hev; simp at hev
    · rw [new_events_append _ _ _ h3] at hev; simp at hev
  refine ⟨d, hd, hh, hb, ?_⟩
  have hb2 : sps_h2bam E.K (connect_entry E.K w d) (connect_dev E.K d) ≠ 0 := hb
  have ht := connect_entry_trace E.K w d
  by_cases ha : E.rm_result (connect_stored (connect_entry E.K w d) h d) h
      sps_state.SPS_STATE_ALLOCATE ≠ 0
  · exfalso
    rw [heq, connect_locked_alloc_fail E _ h d _ ha] at hev
    rw [new_events_append w _ _
      (by simp only [log_trace, connect_stored, set_pipe_trace, ht, List.append_assoc]; rfl)] at hev
    simp at hev
  push_neg at ha
  obtain ⟨_, _, _, _, _, f6⟩ := connect_allocated_pipe E (connect_entry E.K w d) h d
  by_cases hcf : E.rm_result (connect_allocated E (connect_entry E.K w d) h d) h
      sps_state.SPS_STATE_CONNECT ≠ 0
  · have e := connect_locked_config_fail E (connect_entry E.K w d) h d
      (sps_h2bam E.K w (connect_dev E.K d)) ha hcf
    obtain ⟨_, _, g3, g4, _, g6⟩ := connect_rollback_state_facts E (connect_entry E.K w d) h d
      (sps_h2bam E.K w (connect_dev E.K d))
      (E.rm_result (connect_allocated E (connect_entry E.K w d) h d) h
        sps_state.SPS_STATE_CONNECT)
    obtain ⟨_, d2, _, _⟩ := sps_disconnect_ready E _ h hh (by rw [g3]; exact hb2) g4
    have hcc : c = E.rm_result (connect_allocated E (connect_entry E.K w d) h d) h
        sps_state.SPS_STATE_CONNECT := by
      rw [heq, e] at hev
      rw [new_events_append w _ _
        (by simp only [log_trace, d2, g6, ht, List.append_assoc]; rfl)] at hev
      simp at hev
      exact hev
    rw [heq, e, ← hcc]
  · exfalso
    push_neg at hcf
    rw [heq, connect_locked_ok E _ h d _ ha hcf] at hev
    rw [new_events_append w _ _
      (by simp only [log_trace, rm_apply_trace, f6, ht, List.append_assoc]; rfl)] at hev
    simp at hev
    exact hc hev

/-- C8, as stated, fails: with a Resource Manager that allocates, fails to
configure and then refuses the disconnect of the rollback, `sps_connect` on the
idle endpoint at `0x30` returns with the endpoint in state `Allocated`, not
`Disconnected`; and with a rollback that succeeds, `sps_connect` on the
endpoint at `0x10`, which pipe 2 of the device referenced before the call,
returns with the endpoint `Disconnected` and the pipe table still referencing
it. -/
theorem sps_connect_rollback_may_fail :
    Event.sps_rm_state_change 0x30 sps_state.SPS_STATE_ALLOCATE 0 ∈
      new_events ex_world (sps_connect rollback_fail_env ex_world 0x30 (some ex_connect)).2 ∧
    Event.sps_rm_state_change 0x30 sps_state.SPS_STATE_CONNECT (-5) ∈
      new_events ex_world (sps_connect rollback_fail_env ex_world 0x30 (some ex_connect)).2 ∧
    (sps_connect rollback_fail_env ex_world 0x30 (some ex_connect)).1 = -5 ∧
    ((sps_connect rollback_fail_env ex_world 0x30 (some ex_connect)).2.pipe_mem
      0x30).client_state = sps_state.SPS_STATE_ALLOCATE ∧
    ((sps_connect rollback_fail_env ex_world 0x30 (some ex_connect)).2.pipe_mem
      0x30).client_state ≠ sps_state.SPS_STATE_DISCONNECT ∧
    Event.sps_rm_state_change 0x10 sps_state.SPS_STATE_CONNECT (-5) ∈
      new_events ex_world (sps_connect config_fail_env ex_world 0x10 (some ex_connect)).2 ∧
    ((sps_connect config_fail_env ex_world 0x10 (some ex_connect)).2.pipe_mem
      0x10).client_state = sps_state.SPS_STATE_DISCONNECT ∧
    ((sps_connect config_fail_env ex_world 0x10 (some ex_connect)).2.bam_mem 0x1000).pipes 2
      = 0x10 := by
  decide

/-- C8, amended: when the configuration step of `sps_connect` fails with code
`c` (after a successful allocation), `sps_connect` returns `c` and its rollback
calls the Resource Manager's state change to `Disconnected`, `rollback_change`.
When that state change succeeds, the endpoint is left in state `Disconnected`
with a null device reference and the device records, pipe tables included, are
what they were before the call, so that no pipe table references the endpoint
if none did before the call.  When it fails, `sps.c` writes nothing more: the
endpoints and device records are those the state change left, and
`sps_rm_config_init` is not called. -/
theorem sps_connect_rollback (E : Env) (w : World) (h : Ptr)
    (connect : Option struct_sps_connect) (c : Int) (hc : c ≠ 0)
    (hev : Event.sps_rm_state_change h sps_state.SPS_STATE_CONNECT c ∈
      new_events w (sps_connect E w h connect).2) :
    ∃ d, connect = some d ∧
      (sps_connect E w h connect).1 = c ∧
      Event.sps_rm_state_change h sps_state.SPS_STATE_ALLOCATE 0 ∈
        new_events w (sps_connect E w h connect).2 ∧
      Event.sps_rm_state_change h sps_state.SPS_STATE_DISCONNECT (rollback_change E w h d c).1 ∈
        new_events w (sps_connect E w h connect).2 ∧
      ((rollback_change E w h d c).1 = 0 →
        ((sps_connect E w h connect).2.pipe_mem h).client_state
          = sps_state.SPS_STATE_DISCONNECT ∧
        ((sps_connect E w h connect).2.pipe_mem h).bam = 0 ∧
        (sps_connect E w h connect).2.bam_mem = w.bam_mem ∧
        ((∀ b i, (w.bam_mem b).pipes i ≠ h) →
          ∀ b i, ((sps_connect E w h connect).2.bam_mem b).pipes i ≠ h)) ∧
      ((rollback_change E w h d c).1 ≠ 0 →
        (sps_connect E w h connect).2.pipe_mem = (rollback_change E w h d c).2.pipe_mem ∧
        (sps_connect E w h connect).2.bam_mem = (rollback_change E w h d c).2.bam_mem ∧
        Event.sps_rm_config_init h ∉ new_events w (sps_connect E w h connect).2) := by
  obtain ⟨d, hd, hh, hb, heq⟩ := connect_after_config_failure E w h connect c hc hev
  have hb2 : sps_h2bam E.K (connect_entry E.K w d) (connect_dev E.K d) ≠ 0 := hb
  have ht := connect_entry_trace E.K w d
  obtain ⟨_, g2, g3, g4, g5, g6⟩ := connect_rollback_state_facts E (connect_entry E.K w d) h d
    (sps_h2bam E.K w (connect_dev E.K d)) c
  obtain ⟨_, d2, d3, d4⟩ := sps_disconnect_ready E _ h hh (by rw [g3]; exact hb2) g4
  have hr : (rollback_change E w h d c).1
      = E.rm_result (disconnect_rm_state (connect_rollback_state E (connect_entry E.K w d) h d
          (sps_h2bam E.K w (connect_dev E.K d)) c) h) h sps_state.SPS_STATE_DISCONNECT :=
    sps_rm_state_change_fst E _ h _
  have hn := new_events_append w
    ((sps_disconnect E (connect_rollback_state E (connect_entry E.K w d) h d
      (sps_h2bam E.K w (connect_dev E.K d)) c) h).2.log (Event.mutex_unlock LockId.sps)) _
    (by simp only [log_trace, d2, g6, ht, List.append_assoc]; rfl)
  refine ⟨d, hd, by rw [heq], ?_, ?_, ?_, ?_⟩
  · rw [heq, hn]; simp
  · rw [heq, hn, hr]; simp
  · intro h0
    rw [hr] at h0
    obtain ⟨e1, _, e3, e4⟩ := d3 h0
    have hbm : (sps_connect E w h connect).2.bam_mem = w.bam_mem := by
      rw [heq]
      show (sps_disconnect E _ h).2.bam_mem = w.bam_mem
      rw [e4 (by rw [g2]; decide), g5]
      rfl
    refine ⟨by rw [heq]; exact e1, by rw [heq]; exact e3, hbm, ?_⟩
    intro hf b i
    rw [hbm]
    exact hf b i
  · intro h0
    rw [hr] at h0
    obtain ⟨e1, e2⟩ := d4 h0
    have hfail : (rollback_change E w h d c).2
        = (disconnect_rm_state (connect_rollback_state E (connect_entry E.K w d) h d
            (sps_h2bam E.K w (connect_dev E.K d)) c) h).log
            (Event.sps_rm_state_change h sps_state.SPS_STATE_DISCONNECT
              (E.rm_result (disconnect_rm_state (connect_rollback_state E
                (connect_entry E.K w d) h d (sps_h2bam E.K w (connect_dev E.K d)) c) h) h
                sps_state.SPS_STATE_DISCONNECT)) :=
      sps_rm_state_change_fail E _ h _ h0
    refine ⟨?_, ?_, ?_⟩
    · rw [heq, hfail]
      show (sps_disconnect E _ h).2.pipe_mem = _
      rw [e1]
      rfl
    · rw [heq, hfail]
      show (sps_disconnect E _ h).2.bam_mem = _
      rw [e2]
      rfl
    · rw [heq, hn]
      simp [h0]

/-- Witness of C8 (amended): a failing configuration on the idle endpoint at
`0x30`, with a rollback that succeeds. -/
theorem sps_connect_rollback_witness :
    Event.sps_rm_state_change 0x30 sps_state.SPS_STATE_CONNECT (-5) ∈
      new_events ex_world (sps_connect config_fail_env ex_world 0x30 (some ex_connect)).2 ∧
    ∃ d, some ex_connect = some d ∧
      (sps_connect config_fail_env ex_world 0x30 (some ex_connect)).1 = -5 :=
  ⟨by decide,
    (sps_connect_rollback config_fail_env ex_world 0x30 (some ex_connect) (-5) (by decide)
      (by decide)).imp fun _ hx => ⟨hx.1, hx.2.1⟩⟩

/-- C9: when the configuration step of `sps_connect` fails with code `c`,
`sps_connect` returns `c`, and among the calls it makes there is exactly one
entry into `sps_disconnect`, on this endpoint; this holds for every behaviour of
the collaborators, hence for every outcome of the rollback. -/
theorem sps_connect_config_failure (E : Env) (w : World) (h : Ptr)
    (connect : Option struct_sps_connect) (c : Int) (hc : c ≠ 0)
    (hev : Event.sps_rm_state_change h sps_state.SPS_STATE_CONNECT c ∈
      new_events w (sps_connect E w h connect).2) :
    (sps_connect E w h connect).1 = c ∧
    (new_events w (sps_connect E w h connect).2).count (Event.sps_disconnect h) = 1 ∧
    (∀ x, x ≠ h → Event.sps_disconnect x ∉ new_events w (sps_connect E w h connect).2) := by
  rcases sps_connect_outcomes E w h connect with
    ⟨h1, _, _, _⟩ | ⟨d, tgt, hd, hh, ht, hb, hcase⟩
  · rcases h1 with h1 | h1 <;> (rw [h1] at hev; simp at hev)
  · rcases hcase with ⟨a, a1, a2, a3, _⟩ | ⟨cc, rr, b1, b2, b3, b4, b5, b6⟩ |
      ⟨_, c2, _⟩
    · rw [a3] at hev; simp at hev
    · have hcc : c = cc := by
        rw [b3] at hev
        by_cases hr0 : rr = 0
        · simpa [hr0] using hev
        · simpa [hr0] using hev
      subst hcc
      refine ⟨b2, ?_, ?_⟩
      · rw [b3]
        by_cases hr0 : rr = 0
        · simp [hr0, List.count_cons]
        · simp [hr0, List.count_cons]
      · intro x hx
        rw [b3]
        by_cases hr0 : rr = 0
        · simp [hr0, hx]
        · simp [hr0, hx]
    · rw [c2] at hev; simp at hev
      exact absurd hev hc

/-- Witness of C9: a failing configuration whose rollback fails too; the value
returned is the configuration error `-5`, not the rollback's `-1`. -/
theorem sps_connect_config_failure_witness :
    Event.sps_rm_state_change 0x30 sps_state.SPS_STATE_CONNECT (-5) ∈
      new_events ex_world (sps_connect rollback_fail_env ex_world 0x30 (some ex_connect)).2 ∧
    (sps_connect rollback_fail_env ex_world 0x30 (some ex_connect)).1 = -5 :=
  ⟨by decide,
    (sps_connect_config_failure rollback_fail_env ex_world 0x30 (some ex_connect) (-5)
      (by decide) (by decide)).1⟩

/-- C10: when the allocation step of `sps_connect` fails with code `a`,
`sps_connect` returns `a`, makes neither a state change to `Connected` nor a
call of `sps_disconnect`, and leaves the endpoint's state tag as it was, so a
`Disconnected` endpoint stays `Disconnected`. -/
theorem sps_connect_alloc_failure (E : Env) (w : World) (h : Ptr)
    (connect : Option struct_sps_connect) (a : Int) (ha : a ≠ 0)
    (hev : Event.sps_rm_state_change h sps_state.SPS_STATE_ALLOCATE a ∈
      new_events w (sps_connect E w h connect).2) :
    (sps_connect E w h connect).1 = a ∧
    (∀ p r, Event.sps_rm_state_change p sps_state.SPS_STATE_CONNECT r ∉
      new_events w (sps_connect E w h connect).2) ∧
    (∀ x, Event.sps_disconnect x ∉ new_events w (sps_connect E w h connect).2) ∧
    ((sps_connect E w h connect).2.pipe_mem h).client_state = (w.pipe_mem h).client_state ∧
    ((w.pipe_mem h).client_state = sps_state.SPS_STATE_DISCONNECT →
      ((sps_connect E w h connect).2.pipe_mem h).client_state
        = sps_state.SPS_STATE_DISCONNECT) := by
  rcases sps_connect_outcomes E w h connect with
    ⟨h1, _, _, _⟩ | ⟨d, tgt, hd, hh, ht, hb, hcase⟩
  · rcases h1 with h1 | h1 <;> (rw [h1] at hev; simp at hev)
  · rcases hcase with ⟨a2, a1, a3, a4, a5, _⟩ | ⟨cc, rr, b1, b2, b3, b4, b5, b6⟩ |
      ⟨_, c2, _⟩
    · have haa : a = a2 := by
        rw [a4] at hev; simpa using hev
      subst haa
      refine ⟨a3, ?_, ?_, a5, fun h0 => by rw [a5]; exact h0⟩
      · intro p r; rw [a4]; simp
      · intro x; rw [a4]; simp
    · rw [b3] at hev
      by_cases hr0 : rr = 0
      · simp [hr0] at hev; exact absurd hev ha
      · simp [hr0] at hev; exact absurd hev ha
    · rw [c2] at hev; simp at hev
      exact absurd hev ha

/-- Witness of C10: a failing allocation (`-12`) on the idle endpoint at `0x30`. -/
theorem sps_connect_alloc_failure_witness :
    Event.sps_rm_state_change 0x30 sps_state.SPS_STATE_ALLOCATE (-12) ∈
      new_events ex_world (sps_connect alloc_fail_env ex_world 0x30 (some ex_connect)).2 ∧
    (sps_connect alloc_fail_env ex_world 0x30 (some ex_connect)).1 = -12 ∧
    ((sps_connect alloc_fail_env ex_world 0x30 (some ex_connect)).2.pipe_mem
      0x30).client_state = sps_state.SPS_STATE_DISCONNECT :=
  ⟨by decide,
    (sps_connect_alloc_failure alloc_fail_env ex_world 0x30 (some ex_connect) (-12)
      (by decide) (by decide)).1,
    (sps_connect_alloc_failure alloc_fail_env ex_world 0x30 (some ex_connect) (-12)
      (by decide) (by decide)).2.2.2.2 (by decide)⟩

/-! ### Sentinel handles (C19) -/

theorem sps_h2bam_mem (K : Consts) (w : World) : sps_h2bam K w K.SPS_DEV_HANDLE_MEM = 0 := by
  unfold sps_h2bam
  rw [if_pos (Or.inl rfl)]

theorem sps_h2bam_invalid (K : Consts) (w : World) :
    sps_h2bam K w K.SPS_DEV_HANDLE_INVALID = 0 := by
  unfold sps_h2bam
  rw [if_pos (Or.inr rfl)]

theorem neg_errno_ne_zero : -ENODEV ≠ (0 : Int) ∧ -EAGAIN ≠ (0 : Int) ∧
    -EPROBE_DEFER ≠ (0 : Int) := by
  refine ⟨?_, ?_, ?_⟩ <;> decide

/-- C19: `sps_h2bam` gives `NULL` on the handle `SPS_DEV_HANDLE_MEM` and on the
handle `SPS_DEV_HANDLE_INVALID`, in every state; and `sps_connect` with a
descriptor whose target handle is one of the two returns a non-zero code, calls
no state change of the Resource Manager and leaves endpoints and devices as
they were. -/
theorem sps_h2bam_sentinel (E : Env) (hE : E.K.SPS_ERROR ≠ 0) (w : World) (h : Ptr)
    (c : struct_sps_connect) :
    sps_h2bam E.K w E.K.SPS_DEV_HANDLE_MEM = 0 ∧
    sps_h2bam E.K w E.K.SPS_DEV_HANDLE_INVALID = 0 ∧
    (connect_dev E.K c = E.K.SPS_DEV_HANDLE_MEM ∨
        connect_dev E.K c = E.K.SPS_DEV_HANDLE_INVALID →
      (sps_connect E w h (some c)).1 ≠ 0 ∧
      (∀ p s r, Event.sps_rm_state_change p s r ∉
        new_events w (sps_connect E w h (some c)).2) ∧
      (sps_connect E w h (some c)).2.pipe_mem = w.pipe_mem ∧
      (sps_connect E w h (some c)).2.bam_mem = w.bam_mem) := by
  refine ⟨sps_h2bam_mem E.K w, sps_h2bam_invalid E.K w, ?_⟩
  intro hs
  have hz : sps_h2bam E.K w (connect_dev E.K c) = 0 := by
    rcases hs with hs | hs
    · rw [hs]; exact sps_h2bam_mem E.K w
    · rw [hs]; exact sps_h2bam_invalid E.K w
  rcases sps_connect_outcomes E w h (some c) with
    ⟨h1, h2, h3, h4⟩ | ⟨c2, tgt, hc, _, ht, hb, _⟩
  · refine ⟨?_, ?_, h2, h3⟩
    · rcases h4 with h4 | h4 | h4
      · rw [h4]; exact hE
      · rw [h4]; exact neg_errno_ne_zero.1
      · rw [h4]; exact neg_errno_ne_zero.2.1
    · intro p s r
      rcases h1 with h1 | h1
      · rw [h1]; simp
      · rw [h1]; simp
  · have hcd : c = c2 := Option.some.inj hc
    subst hcd
    rw [ht] at hb
    exact absurd hz hb

theorem sps_h2bam_sentinel_witness :
    (sps_connect ex_env ex_world 0x30
      (some { ex_connect with destination := msm_sps_h.SPS_DEV_HANDLE_MEM })).1 ≠ 0 :=
  ((sps_h2bam_sentinel ex_env (by decide) ex_world 0x30
    { ex_connect with destination := msm_sps_h.SPS_DEV_HANDLE_MEM }).2.2
      (Or.inl (by decide))).1

/-! ### Lock group validation (C11) -/

/-- C11: on a non-null endpoint with the driver ready, `sps_connect` takes the
global mutex exactly when the descriptor's `lock_group` is `SPSRM_CLEAR` or at
most `BAM_MAX_P_LOCK_GROUP_NUM`; for every other `lock_group` it returns
`SPS_ERROR` and the state is the one before the call: no lock is taken, the
descriptor is not stored and the Resource Manager is not called. -/
theorem sps_connect_lock_group (E : Env) (w : World) (h : Ptr) (c : struct_sps_connect)
    (drv : sps_drv) (hh : h ≠ 0) (hs : w.sps = some drv) (hr : drv.is_ready = true) :
    (Event.mutex_lock LockId.sps ∈ new_events w (sps_connect E w h (some c)).2 ↔
      (c.lock_group = E.K.SPSRM_CLEAR ∨ c.lock_group ≤ E.K.BAM_MAX_P_LOCK_GROUP_NUM)) ∧
    (¬ (c.lock_group = E.K.SPSRM_CLEAR ∨ c.lock_group ≤ E.K.BAM_MAX_P_LOCK_GROUP_NUM) →
      sps_connect E w h (some c) = (E.K.SPS_ERROR, w)) := by
  have hr2 : ¬ drv.is_ready = false := by simp [hr]
  have hbad : ¬ (c.lock_group = E.K.SPSRM_CLEAR ∨
      c.lock_group ≤ E.K.BAM_MAX_P_LOCK_GROUP_NUM) →
      sps_connect E w h (some c) = (E.K.SPS_ERROR, w) := by
    intro hl
    have hl2 : c.lock_group ≠ E.K.SPSRM_CLEAR ∧
        c.lock_group > E.K.BAM_MAX_P_LOCK_GROUP_NUM := by
      push_neg at hl
      exact ⟨hl.1, hl.2⟩
    unfold sps_connect
    rw [if_neg hh]
    simp only [hs]
    rw [if_neg hr2, if_pos hl2]
  refine ⟨⟨?_, ?_⟩, hbad⟩
  · intro hm
    by_contra hl
    rw [hbad hl] at hm
    simp [new_events] at hm
  · intro hl
    have hl2 : ¬ (c.lock_group ≠ E.K.SPSRM_CLEAR ∧
        c.lock_group > E.K.BAM_MAX_P_LOCK_GROUP_NUM) := by
      intro hx
      rcases hl with hl | hl
      · exact hx.1 hl
      · exact absurd hl (not_le.mpr hx.2)
    by_cases hb : sps_h2bam E.K w (connect_dev E.K c) = 0
    · have e : sps_connect E w h (some c) = (E.K.SPS_ERROR,
          (w.log (Event.mutex_lock LockId.sps)).log (Event.mutex_unlock LockId.sps)) := by
        have hb2 : sps_h2bam E.K (w.log (Event.mutex_lock LockId.sps)) (connect_dev E.K c)
            = 0 := hb
        unfold sps_connect
        rw [if_neg hh]
        simp only [hs]
        rw [if_neg hr2, if_neg hl2, if_pos hb2]
      rw [e]
      simp [new_events]
    · have e : sps_connect E w h (some c) = connect_locked E
          ((w.log (Event.mutex_lock LockId.sps)).log
            (Event.mutex_lock (LockId.bam (sps_h2bam E.K w (connect_dev E.K c))))) h c
          (sps_h2bam E.K w (connect_dev E.K c)) := by
        have hb2 : ¬ sps_h2bam E.K (w.log (Event.mutex_lock LockId.sps))
            (connect_dev E.K c) = 0 := hb
        unfold sps_connect
        rw [if_neg hh]
        simp only [hs]
        rw [if_neg hr2, if_neg hl2, if_neg hb2]
        rfl
      rw [e]
      have hmem : ∀ (w3 : World) (l : List Event),
          w3.trace = ((w.log (Event.mutex_lock LockId.sps)).log
            (Event.mutex_lock (LockId.bam (sps_h2bam E.K w (connect_dev E.K c))))).trace ++ l →
          Event.mutex_lock LockId.sps ∈ new_events w w3 := by
        intro w3 l h3
        rw [new_events_append w w3 (Event.mutex_lock LockId.sps ::
          Event.mutex_lock (LockId.bam (sps_h2bam E.K w (connect_dev E.K c))) :: l)]
        · simp
        · rw [h3]; simp
      rcases connect_locked_cases E ((w.log (Event.mutex_lock LockId.sps)).log
          (Event.mutex_lock (LockId.bam (sps_h2bam E.K w (connect_dev E.K c))))) h c
          (sps_h2bam E.K w (connect_dev E.K c)) hh hb with
        ⟨a, _, _, a3, _⟩ | ⟨cc, rr, _, _, b3, _⟩ | ⟨_, c2, _⟩
      · exact hmem _ _ a3
      · exact hmem _ _ b3
      · exact hmem _ _ c2

theorem sps_connect_lock_group_witness :
    sps_connect ex_env ex_world 0x30 (some { ex_connect with lock_group := 32 })
      = (ex_env.K.SPS_ERROR, ex_world) :=
  (sps_connect_lock_group ex_env ex_world 0x30 { ex_connect with lock_group := 32 }
    ⟨true, [0x1000]⟩ (by decide) rfl rfl).2 (by decide)

/-! ### Early exits of `sps_disconnect` (C12, C13) -/

/-- The exits of `sps_disconnect` before the device mutex: the result is
`SPS_ERROR` and only the entry is recorded. -/
theorem sps_disconnect_early (E : Env) (w : World) (h : Ptr)
    (hx : h = 0 ∨ (w.pipe_mem h).bam = 0 ∨ ¬ map_check E.K w h) :
    sps_disconnect E w h = (E.K.SPS_ERROR, w.log (Event.sps_disconnect h)) := by
  unfold sps_disconnect
  dsimp only
  by_cases hh : h = 0
  · rw [if_pos hh]
  rw [if_neg hh]
  by_cases hb : ((w.log (Event.sps_disconnect h)).pipe_mem h).bam = 0
  · rw [if_pos hb]
  rw [if_neg hb]
  rcases hx with hx | hx | hx
  · exact absurd hx hh
  · exact absurd hx hb
  · have hm : ¬ map_check E.K (w.log (Event.sps_disconnect h)) h := hx
    rw [if_pos hm]

/-- C12 as stated does not hold: with a Resource Manager that refuses the first
state change to `Disconnected` and accepts the next one, `sps_connect` on the
idle endpoint at `0x30` succeeds, a first `sps_disconnect` returns the refusal
`-1` and leaves the device reference in place, and the second `sps_disconnect`
in a row succeeds. -/
theorem sps_disconnect_twice_may_succeed :
    (sps_connect retry_env ex_world 0x30 (some ex_connect)).1 = 0 ∧
    (sps_disconnect retry_env
      (sps_connect retry_env ex_world 0x30 (some ex_connect)).2 0x30).1 = -1 ∧
    ((sps_disconnect retry_env
      (sps_connect retry_env ex_world 0x30 (some ex_connect)).2 0x30).2.pipe_mem 0x30).bam
        = 0x1000 ∧
    (sps_disconnect retry_env
      (sps_disconnect retry_env
        (sps_connect retry_env ex_world 0x30 (some ex_connect)).2 0x30).2 0x30).1 = 0 := by
  decide

/-- C12, amended: `sps_disconnect` on an endpoint whose device reference is null
returns `SPS_ERROR` (not `0`), makes no call (only the entry is recorded) and
leaves the endpoints, devices and map records as they were; hence when
`sps_connect` succeeded and a first `sps_disconnect` returned success, a second
`sps_disconnect` in a row returns `SPS_ERROR`. -/
theorem sps_disconnect_null_device (E : Env) (hE : E.K.SPS_ERROR ≠ 0) (w : World) (h : Ptr) :
    ((w.pipe_mem h).bam = 0 →
      (sps_disconnect E w h).1 = E.K.SPS_ERROR ∧
      (sps_disconnect E w h).1 ≠ 0 ∧
      new_events w (sps_disconnect E w h).2 = [Event.sps_disconnect h] ∧
      (sps_disconnect E w h).2.pipe_mem = w.pipe_mem ∧
      (sps_disconnect E w h).2.bam_mem = w.bam_mem ∧
      (sps_disconnect E w h).2.map_mem = w.map_mem) ∧
    (∀ d, (sps_connect E w h (some d)).1 = 0 →
      (sps_disconnect E (sps_connect E w h (some d)).2 h).1 = 0 →
      (sps_disconnect E
        (sps_disconnect E (sps_connect E w h (some d)).2 h).2 h).1 = E.K.SPS_ERROR) := by
  constructor
  · intro hb
    rw [sps_disconnect_early E w h (Or.inr (Or.inl hb))]
    refine ⟨rfl, hE, ?_, rfl, rfl, rfl⟩
    exact new_events_append _ _ _ rfl
  · intro d hok hdis
    have hnull : (((sps_disconnect E (sps_connect E w h (some d)).2 h).2).pipe_mem h).bam
        = 0 := by
      rcases sps_connect_outcomes E w h (some d) with
        ⟨_, _, _, h4⟩ | ⟨c, tgt, hc, hh, ht, hb, hcase⟩
      · rcases h4 with h4 | h4 | h4
        · rw [h4] at hok; exact absurd hok hE
        · rw [h4] at hok; exact absurd hok neg_errno_ne_zero.1
        · rw [h4] at hok; exact absurd hok neg_errno_ne_zero.2.1
      · rcases hcase with ⟨a, a1, a2, _⟩ | ⟨cc, rr, b1, b2, _⟩ | ⟨_, _, _, _, c5, c6⟩
        · rw [a2] at hok; exact absurd hok a1
        · rw [b2] at hok; exact absurd hok b1
        · obtain ⟨d1, _, d3, _⟩ := sps_disconnect_ready E (sps_connect E w h (some d)).2 h hh
            (by rw [c5]; exact hb) c6
          rw [d1] at hdis
          exact (d3 hdis).2.2.1
    rw [sps_disconnect_early E _ h (Or.inr (Or.inl hnull))]

theorem sps_disconnect_null_device_witness :
    (sps_disconnect ex_env
      (sps_disconnect ex_env (sps_connect ex_env ex_world 0x30 (some ex_connect)).2 0x30).2
        0x30).1 = ex_env.K.SPS_ERROR :=
  (sps_disconnect_null_device ex_env (by decide) ex_world 0x30).2 ex_connect
    (by decide) (by decide)

/-- C13: on an endpoint with a non-null device whose map record names another
endpoint for its role (`client_src` for a source endpoint, `client_dest`
otherwise), `sps_disconnect` returns `SPS_ERROR`, the code of the exit that logs
the context as corrupt, and does not proceed: no state change of the Resource
Manager is called, no mutex is taken, `sps_rm_config_init` is not called and the
endpoints (with their descriptors), devices and map records are as they
were. -/
theorem sps_disconnect_map_mismatch (E : Env) (w : World) (h : Ptr)
    (hb : (w.pipe_mem h).bam ≠ 0)
    (hm : (if (w.pipe_mem h).connect.mode = E.K.SPS_MODE_SRC then
        (w.map_mem (w.pipe_mem h).map).client_src
      else (w.map_mem (w.pipe_mem h).map).client_dest) ≠ h) :
    (sps_disconnect E w h).1 = E.K.SPS_ERROR ∧
    (∀ p s r, Event.sps_rm_state_change p s r ∉ new_events w (sps_disconnect E w h).2) ∧
    (∀ l, Event.mutex_lock l ∉ new_events w (sps_disconnect E w h).2) ∧
    (∀ p, Event.sps_rm_config_init p ∉ new_events w (sps_disconnect E w h).2) ∧
    (sps_disconnect E w h).2.pipe_mem = w.pipe_mem ∧
    (sps_disconnect E w h).2.bam_mem = w.bam_mem ∧
    (sps_disconnect E w h).2.map_mem = w.map_mem := by
  have e : sps_disconnect E w h = (E.K.SPS_ERROR, w.log (Event.sps_disconnect h)) := by
    have hb2 : ¬ ((w.log (Event.sps_disconnect h)).pipe_mem h).bam = 0 := hb
    have hm2 : ¬ map_check E.K (w.log (Event.sps_disconnect h)) h := hm
    unfold sps_disconnect
    dsimp only
    by_cases hh : h = 0
    · rw [if_pos hh]
    · rw [if_neg hh, if_neg hb2, if_pos hm2]
  rw [e]
  have hn : new_events w (w.log (Event.sps_disconnect h)) = [Event.sps_disconnect h] :=
    new_events_append _ _ _ rfl
  refine ⟨rfl, ?_, ?_, ?_, rfl, rfl, rfl⟩
  · intro p s r; rw [hn]; simp
  · intro l; rw [hn]; simp
  · intro p; rw [hn]; simp

theorem sps_disconnect_map_mismatch_witness :
    (sps_disconnect ex_env (ex_world.set_map 0x102 ⟨0, 0x20, 0, 0, 0, 0⟩) 0x10).1
      = ex_env.K.SPS_ERROR :=
  (sps_disconnect_map_mismatch ex_env (ex_world.set_map 0x102 ⟨0, 0x20, 0, 0, 0, 0⟩) 0x10
    (by decide) (by decide)).1

/-! ### Deregistration (C18) -/

@[simp] theorem free_desc_cache_sps (bam : Ptr) (k : Nat) :
    ∀ (n : Nat) (w : World), (free_desc_cache bam n k w).sps = w.sps := by
  induction k with
  | zero => intro n w; rfl
  | succ k ih =>
    intro n w
    simp only [free_desc_cache, ih]
    split_ifs <;> rfl

@[simp] theorem free_desc_cache_bam_mem (bam : Ptr) (k : Nat) :
    ∀ (n : Nat) (w : World), (free_desc_cache bam n k w).bam_mem = w.bam_mem := by
  induction k with
  | zero => intro n w; rfl
  | succ k ih =>
    intro n w
    simp only [free_desc_cache, ih]
    split_ifs <;> rfl

@[simp] theorem free_desc_cache_pipe_mem (bam : Ptr) (k : Nat) :
    ∀ (n : Nat) (w : World), (free_desc_cache bam n k w).pipe_mem = w.pipe_mem := by
  induction k with
  | zero => intro n w; rfl
  | succ k ih =>
    intro n w
    simp only [free_desc_cache, ih]
    split_ifs <;> rfl

@[simp] theorem set_bams_q_sps (w : World) (q : List Ptr) :
    (w.set_bams_q q).sps = w.sps.map (fun drv => { drv with bams_q := q }) := rfl

/-- The handle lookup in terms of list membership. -/
theorem sps_h2bam_eq (K : Consts) (w : World) (h : Nat) (drv : sps_drv)
    (hs : w.sps = some drv) :
    sps_h2bam K w h =
      if h = K.SPS_DEV_HANDLE_MEM ∨ h = K.SPS_DEV_HANDLE_INVALID then 0
      else if h ∈ drv.bams_q then h else 0 := by
  unfold sps_h2bam
  by_cases hx : h = K.SPS_DEV_HANDLE_MEM ∨ h = K.SPS_DEV_HANDLE_INVALID
  · rw [if_pos hx, if_pos hx]
  rw [if_neg hx, if_neg hx]
  simp only [hs]
  by_cases hm : h ∈ drv.bams_q
  · rw [if_pos hm]
    exact find_handle drv.bams_q h hm
  · rw [if_neg hm]
    have hf : drv.bams_q.find? (fun bam => decide (bam = h)) = none := by
      rw [List.find?_eq_none]
      intro x hx2 hxe
      simp at hxe
      rw [hxe] at hx2
      exact hm hx2
    rw [hf]

/-- A handle that resolves resolves to itself. -/
theorem sps_h2bam_self (K : Consts) (w : World) (h : Nat)
    (hb : sps_h2bam K w h ≠ 0) : sps_h2bam K w h = h := by
  cases hs : w.sps with
  | none =>
    exfalso
    apply hb
    unfold sps_h2bam
    simp only [hs]
    split_ifs <;> rfl
  | some drv =>
    rw [sps_h2bam_eq K w h drv hs] at hb ⊢
    split_ifs at hb ⊢ with h1 h2
    · exact absurd rfl hb
    · rfl
    · exact absurd rfl hb

theorem sps_deregister_bam_device_fail (E : Env) (w : World) (h : Nat)
    (hx : h = 0 ∨ sps_h2bam E.K w h = 0) :
    sps_deregister_bam_device E w h = (E.K.SPS_ERROR, w) := by
  unfold sps_deregister_bam_device
  by_cases hh : h = 0
  · rw [if_pos hh]
  rw [if_neg hh]
  have hz : sps_h2bam E.K w h = 0 := by
    rcases hx with hx | hx
    · exact absurd hx hh
    · exact hx
  show (if sps_h2bam E.K w h = 0 then _ else _) = _
  rw [if_pos hz]

theorem sps_deregister_bam_device_ok (E : Env) (w : World) (h : Nat)
    (hh : h ≠ 0) (hb : sps_h2bam E.K w h ≠ 0) :
    (sps_deregister_bam_device E w h).1 = 0 ∧
    (sps_deregister_bam_device E w h).2.sps =
      w.sps.map (fun drv => { drv with bams_q := drv.bams_q.erase (sps_h2bam E.K w h) }) ∧
    (∀ p, p ≠ sps_h2bam E.K w h →
      (sps_deregister_bam_device E w h).2.bam_mem p = w.bam_mem p) ∧
    (sps_deregister_bam_device E w h).2.pipe_mem = w.pipe_mem := by
  unfold sps_deregister_bam_device
  rw [if_neg hh]
  dsimp only
  rw [if_neg hb]
  refine ⟨rfl, ?_, ?_, ?_⟩
  · cases hs : w.sps with
    | none => split_ifs <;> simp [hs]
    | some drv => split_ifs <;> simp [hs]
  · intro p hp
    split_ifs <;> simp [World.set_bam, Function.update, hp]
  · split_ifs <;> simp

/-- C18: with the registry list free of repetitions, `sps_deregister_bam_device`
on a handle that is `0` or does not resolve returns `SPS_ERROR` and leaves the
state as it was; on a handle that resolves it returns `0`, the handle no longer
resolves afterwards, every other handle resolves as before, and the device
records at all other addresses are unchanged. -/
theorem sps_deregister_bam_device_spec (E : Env) (w : World) (h : Nat) (drv : sps_drv)
    (hs : w.sps = some drv) (hnd : drv.bams_q.Nodup) :
    (h = 0 ∨ sps_h2bam E.K w h = 0 →
      sps_deregister_bam_device E w h = (E.K.SPS_ERROR, w)) ∧
    (h ≠ 0 → sps_h2bam E.K w h ≠ 0 →
      (sps_deregister_bam_device E w h).1 = 0 ∧
      sps_h2bam E.K (sps_deregister_bam_device E w h).2 h = 0 ∧
      (∀ g, g ≠ h →
        sps_h2bam E.K (sps_deregister_bam_device E w h).2 g = sps_h2bam E.K w g ∧
        (sps_deregister_bam_device E w h).2.bam_mem g = w.bam_mem g)) := by
  refine ⟨sps_deregister_bam_device_fail E w h, ?_⟩
  intro hh hb
  obtain ⟨r1, r2, r3, _⟩ := sps_deregister_bam_device_ok E w h hh hb
  have hself := sps_h2bam_self E.K w h hb
  rw [hself] at r2 r3
  rw [hs] at r2
  refine ⟨r1, ?_, ?_⟩
  · rw [sps_h2bam_eq E.K _ h _ r2]
    split_ifs with h1 h2
    · rfl
    · exact absurd h2 (List.Nodup.not_mem_erase hnd)
    · rfl
  · intro g hg
    refine ⟨?_, r3 g hg⟩
    rw [sps_h2bam_eq E.K _ g _ r2, sps_h2bam_eq E.K w g drv hs]
    have hmem : g ∈ drv.bams_q.erase h ↔ g ∈ drv.bams_q := by
      constructor
      · exact List.mem_of_mem_erase
      · intro hm
        exact (List.mem_erase_of_ne hg).mpr hm
    simp only [hmem]

theorem sps_deregister_bam_device_spec_witness :
    (sps_deregister_bam_device ex_env ex_world 0x1000).1 = 0 ∧
    sps_h2bam ex_env.K (sps_deregister_bam_device ex_env ex_world 0x1000).2 0x1000 = 0 :=
  ⟨((sps_deregister_bam_device_spec ex_env ex_world 0x1000 ⟨true, [0x1000]⟩ rfl
      (by decide)).2 (by decide) (by decide)).1,
    ((sps_deregister_bam_device_spec ex_env ex_world 0x1000 ⟨true, [0x1000]⟩ rfl
      (by decide)).2 (by decide) (by decide)).2.1⟩

/-! ### Diagnostic selector (C20) -/

@[simp] theorem log_all_trace (w : World) (l : List Event) :
    (w.log_all l).trace = w.trace ++ l := rfl

/-- The run of `sps_get_bam_debug_info` on a non-zero handle that resolves,
with the driver ready. -/
theorem sps_get_bam_debug_info_ok (E : Env) (w : World) (dev : Nat) (drv : sps_drv)
    (option para tb_sel desc_sel : Nat)
    (hd : dev ≠ 0) (hs : w.sps = some drv) (hr : drv.is_ready = true)
    (hb : sps_h2bam E.K w dev ≠ 0) :
    (sps_get_bam_debug_info E w dev option para tb_sel desc_sel).1 = 0 ∧
    new_events w (sps_get_bam_debug_info E w dev option para tb_sel desc_sel).2 =
      [Event.mutex_lock LockId.sps, Event.mutex_unlock LockId.sps] ++
        debug_info_switch (sps_h2bam E.K w dev)
          (w.bam_mem (sps_h2bam E.K w dev)).props.num_pipes option para tb_sel desc_sel := by
  have hr2 : ¬ drv.is_ready = false := by simp [hr]
  have hb2 : ¬ sps_h2bam E.K (w.log (Event.mutex_lock LockId.sps)) dev = 0 := hb
  unfold sps_get_bam_debug_info
  rw [if_neg hd]
  simp only [hs]
  rw [if_neg hr2, if_neg hb2]
  refine ⟨rfl, ?_⟩
  apply new_events_append
  simp

theorem debug_info_switch_six (bam : Ptr) (num_pipes para tb_sel desc_sel : Nat) :
    debug_info_switch bam num_pipes 6 para tb_sel desc_sel =
      [Event.dump (DumpAction.print_bam_pipe_selected_reg bam 4),
        Event.dump (DumpAction.print_bam_pipe_selected_reg bam 5)] := rfl

theorem debug_info_switch_default (bam : Ptr) (num_pipes option para tb_sel desc_sel : Nat)
    (h1 : ¬ (1 ≤ option ∧ option ≤ 16)) (h2 : ¬ (91 ≤ option ∧ option ≤ 99)) :
    debug_info_switch bam num_pipes option para tb_sel desc_sel =
      [Event.pr_info Message.no_option_chosen] := by
  unfold debug_info_switch
  rw [if_neg (show ¬ option = 1 by omega), if_neg (show ¬ option = 2 by omega)]
  rw [if_neg (show ¬ option = 3 by omega), if_neg (show ¬ option = 4 by omega)]
  rw [if_neg (show ¬ option = 5 by omega), if_neg (show ¬ option = 6 by omega)]
  rw [if_neg (show ¬ option = 7 by omega), if_neg (show ¬ option = 8 by omega)]
  rw [if_neg (show ¬ option = 9 by omega), if_neg (show ¬ option = 10 by omega)]
  rw [if_neg (show ¬ option = 11 by omega), if_neg (show ¬ option = 12 by omega)]
  rw [if_neg (show ¬ option = 13 by omega), if_neg (show ¬ option = 14 by omega)]
  rw [if_neg (show ¬ option = 15 by omega), if_neg (show ¬ option = 16 by omega)]
  rw [if_neg (show ¬ option = 91 by omega), if_neg (show ¬ option = 92 by omega)]
  rw [if_neg (show ¬ option = 93 by omega), if_neg (show ¬ option = 94 by omega)]
  rw [if_neg (show ¬ option = 95 by omega), if_neg (show ¬ option = 96 by omega)]
  rw [if_neg (show ¬ option = 97 by omega), if_neg (show ¬ option = 98 by omega)]
  rw [if_neg (show ¬ option = 99 by omega)]

/-- C20: on a non-zero handle that resolves, with the driver ready, for every
number of pipes of the device and every `para`, `tb_sel` and `desc_sel`:
`sps_get_bam_debug_info` with option `6` returns `0` and, after locking and
unlocking the global mutex for the lookup, makes exactly two dump calls, the
selected registers of pipe 4 and then of pipe 5; with an option outside 1..16
and 91..99 (such as `0`) it returns `0` and makes no dump call, only the
`pr_info` that no option is chosen. -/
theorem sps_get_bam_debug_info_option (E : Env) (w : World) (dev : Nat) (drv : sps_drv)
    (para tb_sel desc_sel : Nat)
    (hd : dev ≠ 0) (hs : w.sps = some drv) (hr : drv.is_ready = true)
    (hb : sps_h2bam E.K w dev ≠ 0) :
    ((sps_get_bam_debug_info E w dev 6 para tb_sel desc_sel).1 = 0 ∧
      new_events w (sps_get_bam_debug_info E w dev 6 para tb_sel desc_sel).2 =
        [Event.mutex_lock LockId.sps, Event.mutex_unlock LockId.sps,
          Event.dump (DumpAction.print_bam_pipe_selected_reg (sps_h2bam E.K w dev) 4),
          Event.dump (DumpAction.print_bam_pipe_selected_reg (sps_h2bam E.K w dev) 5)] ∧
      dump_actions (new_events w (sps_get_bam_debug_info E w dev 6 para tb_sel desc_sel).2) =
        [DumpAction.print_bam_pipe_selected_reg (sps_h2bam E.K w dev) 4,
          DumpAction.print_bam_pipe_selected_reg (sps_h2bam E.K w dev) 5]) ∧
    (∀ option, ¬ (1 ≤ option ∧ option ≤ 16) → ¬ (91 ≤ option ∧ option ≤ 99) →
      (sps_get_bam_debug_info E w dev option para tb_sel desc_sel).1 = 0 ∧
      new_events w (sps_get_bam_debug_info E w dev option para tb_sel desc_sel).2 =
        [Event.mutex_lock LockId.sps, Event.mutex_unlock LockId.sps,
          Event.pr_info Message.no_option_chosen] ∧
      dump_actions
        (new_events w (sps_get_bam_debug_info E w dev option para tb_sel desc_sel).2) = []) := by
  constructor
  · obtain ⟨r1, r2⟩ := sps_get_bam_debug_info_ok E w dev drv 6 para tb_sel desc_sel hd hs hr hb
    rw [debug_info_switch_six] at r2
    refine ⟨r1, r2, ?_⟩
    rw [r2]
    rfl
  · intro option h1 h2
    obtain ⟨r1, r2⟩ :=
      sps_get_bam_debug_info_ok E w dev drv option para tb_sel desc_sel hd hs hr hb
    rw [debug_info_switch_default _ _ _ _ _ _ h1 h2] at r2
    refine ⟨r1, r2, ?_⟩
    rw [r2]
    rfl

theorem sps_get_bam_debug_info_option_witness :
    dump_actions (new_events ex_world (sps_get_bam_debug_info ex_env ex_world 0x1000 0 3 0 0).2)
      = [] :=
  ((sps_get_bam_debug_info_option ex_env ex_world 0x1000 ⟨true, [0x1000]⟩ 3 0 0
    (by decide) rfl rfl (by decide)).2 0 (by decide) (by decide)).2.2

/-! ### Fast lock discipline of the hot path (C15, C16) -/

/-- The three exits of `sps_bam_lock`. -/
theorem sps_bam_lock_cases (w : World) (h : Ptr) :
    ((w.pipe_mem h).bam = 0 ∧ sps_bam_lock w h = (0, w)) ∨
    ((w.pipe_mem h).bam ≠ 0 ∧ ¬ owns w h (w.pipe_mem h).bam ∧
      sps_bam_lock w h = (0, spin_unlock_irqrestore
        (spin_lock_irqsave w (w.pipe_mem h).bam) (w.pipe_mem h).bam)) ∨
    ((w.pipe_mem h).bam ≠ 0 ∧ owns w h (w.pipe_mem h).bam ∧
      sps_bam_lock w h = ((w.pipe_mem h).bam, spin_lock_irqsave w (w.pipe_mem h).bam)) := by
  unfold sps_bam_lock owns
  by_cases hb : (w.pipe_mem h).bam = 0
  · left
    simp only [hb, if_true, and_self]
  · right
    simp only [hb, if_false, spin_lock_irqsave, Function.update_same]
    split_ifs with hc
    · left
      refine ⟨hb, ?_, rfl⟩
      rintro ⟨_, _, h3, h4⟩
      rcases hc with hc | hc
      · omega
      · exact hc h4.symm
    · right
      push_neg at hc
      exact ⟨hb, ⟨trivial, hb, hc.1, hc.2.symm⟩, rfl⟩

theorem spin_unlock_free (w w2 : World) (bam b : Ptr)
    (hm : w2.bam_mem = (spin_lock_irqsave w bam).bam_mem) (hf : fast_lock_free w b) :
    fast_lock_free (spin_unlock_irqrestore w2 bam) b := by
  unfold fast_lock_free at hf ⊢
  unfold spin_unlock_irqrestore
  by_cases hbb : b = bam
  · subst hbb; simp
  · simp [hm, spin_lock_irqsave, Function.update, hbb, hf]

/-- A refusal leaves every fast lock that was free free. -/
theorem refused_exit_free (K : Consts) (w : World) (h : Ptr) (r : Int × World) (b : Ptr)
    (hx : refused_exit K w h r) (hf : fast_lock_free w b) : fast_lock_free r.2 b := by
  rcases hx.2 with e | e
  · rw [e]; exact hf
  · rw [e]; exact spin_unlock_free w _ _ b rfl hf

/-- When the lock call gives `NULL`, a caller that returns `SPS_ERROR` with the
state of the lock call exits by refusal. -/
theorem sps_bam_lock_refused (K : Consts) (w : World) (h : Ptr)
    (hl : (sps_bam_lock w h).1 = 0) :
    refused_exit K w h (K.SPS_ERROR, (sps_bam_lock w h).2) := by
  rcases sps_bam_lock_cases w h with ⟨_, e⟩ | ⟨_, _, e⟩ | ⟨hb, _, e⟩
  · rw [e]; exact ⟨rfl, Or.inl rfl⟩
  · rw [e]; exact ⟨rfl, Or.inr rfl⟩
  · rw [e] at hl; exact absurd hl hb

theorem sps_bam_lock_not_owner (w : World) (h : Ptr)
    (hx : ¬ owns w h (w.pipe_mem h).bam) : (sps_bam_lock w h).1 = 0 := by
  rcases sps_bam_lock_cases w h with ⟨_, e⟩ | ⟨_, _, e⟩ | ⟨_, ho, _⟩
  · rw [e]
  · rw [e]
  · exact absurd ho hx

theorem sps_bam_lock_mem (w : World) (h : Ptr) (hl : (sps_bam_lock w h).1 ≠ 0) :
    (sps_bam_lock w h).2.bam_mem = (spin_lock_irqsave w (sps_bam_lock w h).1).bam_mem := by
  rcases sps_bam_lock_cases w h with ⟨_, e⟩ | ⟨_, _, e⟩ | ⟨_, _, e⟩
  · rw [e] at hl; exact absurd rfl hl
  · rw [e] at hl; exact absurd rfl hl
  · rw [e]

theorem locked_call_free (E : Env) (w : World) (h : Ptr) (op : PipeOp) (b : Ptr)
    (hf : fast_lock_free w b) : fast_lock_free (locked_call E w h op).2 b := by
  unfold locked_call
  dsimp only
  by_cases hl : (sps_bam_lock w h).1 = 0
  · rw [if_pos hl]
    exact refused_exit_free E.K w h _ b (sps_bam_lock_refused E.K w h hl) hf
  · rw [if_neg hl]
    exact spin_unlock_free w _ _ b (sps_bam_lock_mem w h hl) hf

theorem locked_call_refused (E : Env) (w : World) (h : Ptr) (op : PipeOp)
    (hx : ¬ owns w h (w.pipe_mem h).bam) : refused_exit E.K w h (locked_call E w h op) := by
  unfold locked_call
  dsimp only
  rw [if_pos (sps_bam_lock_not_owner w h hx)]
  exact sps_bam_lock_refused E.K w h (sps_bam_lock_not_owner w h hx)

theorem refused_exit_unchanged (K : Consts) (w : World) (h : Ptr) :
    refused_exit K w h (K.SPS_ERROR, w) := ⟨rfl, Or.inl rfl⟩

theorem no_owner_of_cause (w : World) (h : Ptr)
    (hx : (w.pipe_mem h).bam = 0 ∨
      ((w.pipe_mem h).bam ≠ 0 ∧ ¬ owns w h (w.pipe_mem h).bam)) :
    ¬ owns w h (w.pipe_mem h).bam := by
  rcases hx with hx | hx
  · intro ho; exact ho.2.1 hx
  · exact hx.2

/-- An operation made of argument checks that return `SPS_ERROR` untouched,
followed by the shared locked sequence. -/
theorem checked_call_facts (E : Env) (w : World) (h : Ptr) (op : PipeOp) (c1 c2 : Prop)
    [Decidable c1] [Decidable c2] :
    (∀ b, fast_lock_free w b →
      fast_lock_free
        (if c1 then (E.K.SPS_ERROR, w) else if c2 then (E.K.SPS_ERROR, w)
          else locked_call E w h op).2 b) ∧
    (¬ owns w h (w.pipe_mem h).bam →
      refused_exit E.K w h
        (if c1 then (E.K.SPS_ERROR, w) else if c2 then (E.K.SPS_ERROR, w)
          else locked_call E w h op)) := by
  constructor
  · intro b hf
    split_ifs
    · exact hf
    · exact hf
    · exact locked_call_free E w h op b hf
  · intro hx
    split_ifs
    · exact refused_exit_unchanged E.K w h
    · exact refused_exit_unchanged E.K w h
    · exact locked_call_refused E w h op hx

theorem sps_register_event_facts (E : Env) (w : World) (h reg : Ptr) :
    (∀ b, fast_lock_free w b → fast_lock_free (sps_register_event E w h reg).2 b) ∧
    (∀ drv, w.sps = some drv → drv.is_ready = true → ¬ owns w h (w.pipe_mem h).bam →
      refused_exit E.K w h (sps_register_event E w h reg)) := by
  unfold sps_register_event
  constructor
  · intro b hf
    by_cases hh : h = 0
    · rw [if_pos hh]; exact hf
    rw [if_neg hh]
    by_cases hg : reg = 0
    · rw [if_pos hg]; exact hf
    rw [if_neg hg]
    cases hs : w.sps with
    | none => exact hf
    | some drv =>
      dsimp only
      by_cases hr : drv.is_ready = false
      · rw [if_pos hr]; exact hf
      · rw [if_neg hr]; exact locked_call_free E w h _ b hf
  · intro drv hs hr hx
    have hr2 : ¬ drv.is_ready = false := by simp [hr]
    by_cases hh : h = 0
    · rw [if_pos hh]; exact refused_exit_unchanged E.K w h
    rw [if_neg hh]
    by_cases hg : reg = 0
    · rw [if_pos hg]; exact refused_exit_unchanged E.K w h
    rw [if_neg hg]
    simp only [hs]
    rw [if_neg hr2]
    exact locked_call_refused E w h _ hx

theorem sps_flow_on_facts (E : Env) (w : World) (h : Ptr) :
    (∀ b, fast_lock_free w b → fast_lock_free (sps_flow_on E w h).2 b) ∧
    (¬ owns w h (w.pipe_mem h).bam → refused_exit E.K w h (sps_flow_on E w h)) := by
  unfold sps_flow_on
  dsimp only
  constructor
  · intro b hf
    by_cases hh : h = 0
    · rw [if_pos hh]; exact hf
    rw [if_neg hh]
    by_cases hl : (sps_bam_lock w h).1 = 0
    · rw [if_pos hl]
      exact refused_exit_free E.K w h _ b (sps_bam_lock_refused E.K w h hl) hf
    · rw [if_neg hl]
      exact spin_unlock_free w _ _ b (sps_bam_lock_mem w h hl) hf
  · intro hx
    by_cases hh : h = 0
    · rw [if_pos hh]; exact refused_exit_unchanged E.K w h
    rw [if_neg hh, if_pos (sps_bam_lock_not_owner w h hx)]
    exact sps_bam_lock_refused E.K w h (sps_bam_lock_not_owner w h hx)

theorem sps_flow_off_facts (E : Env) (w : World) (h : Ptr) :
    (∀ b, fast_lock_free w b → fast_lock_free (sps_flow_off E w h).2 b) ∧
    (¬ owns w h (w.pipe_mem h).bam → refused_exit E.K w h (sps_flow_off E w h)) := by
  unfold sps_flow_off
  dsimp only
  constructor
  · intro b hf
    by_cases hh : h = 0
    · rw [if_pos hh]; exact hf
    rw [if_neg hh]
    by_cases hl : (sps_bam_lock w h).1 = 0
    · rw [if_pos hl]
      exact refused_exit_free E.K w h _ b (sps_bam_lock_refused E.K w h hl) hf
    · rw [if_neg hl]
      exact spin_unlock_free w _ _ b (sps_bam_lock_mem w h hl) hf
  · intro hx
    by_cases hh : h = 0
    · rw [if_pos hh]; exact refused_exit_unchanged E.K w h
    rw [if_neg hh, if_pos (sps_bam_lock_not_owner w h hx)]
    exact sps_bam_lock_refused E.K w h (sps_bam_lock_not_owner w h hx)

theorem sps_transfer_facts (E : Env) (w : World) (h : Ptr)
    (transfer : Option struct_sps_transfer) :
    (∀ b, fast_lock_free w b → fast_lock_free (sps_transfer E w h transfer).2 b) ∧
    (¬ owns w h (w.pipe_mem h).bam → refused_exit E.K w h (sps_transfer E w h transfer)) := by
  unfold sps_transfer
  by_cases hh : h = 0
  · rw [if_pos hh]
    exact ⟨fun b hf => hf, fun _ => refused_exit_unchanged E.K w h⟩
  rw [if_neg hh]
  cases transfer with
  | none => exact ⟨fun b hf => hf, fun _ => refused_exit_unchanged E.K w h⟩
  | some t =>
    cases hio : t.iovec with
    | none =>
      simp only [hio]
      exact ⟨fun b hf => hf, fun _ => refused_exit_unchanged E.K w h⟩
    | some iovec =>
      simp only [hio]
      by_cases hc : t.iovec_count = 0
      · rw [if_pos hc]
        exact ⟨fun b hf => hf, fun _ => refused_exit_unchanged E.K w h⟩
      rw [if_neg hc]
      by_cases hv : verify_iovecs E.K iovec 0 t.iovec_count ≠ 0
      · rw [if_pos hv]
        exact ⟨fun b hf => hf, fun _ => refused_exit_unchanged E.K w h⟩
      rw [if_neg hv]
      constructor
      · intro b hf
        by_cases hl : (sps_bam_lock w h).1 = 0
        · rw [if_pos hl]
          exact refused_exit_free E.K w h _ b (sps_bam_lock_refused E.K w h hl) hf
        · rw [if_neg hl]
          exact spin_unlock_free w _ _ b (sps_bam_lock_mem w h hl) hf
      · intro hx
        rw [if_pos (sps_bam_lock_not_owner w h hx)]
        exact sps_bam_lock_refused E.K w h (sps_bam_lock_not_owner w h hx)

theorem sps_set_config_facts (E : Env) (w : World) (h : Ptr)
    (config : Option struct_sps_connect) :
    (∀ b, fast_lock_free w b → fast_lock_free (sps_set_config E w h config).2 b) ∧
    (¬ owns w h (w.pipe_mem h).bam → refused_exit E.K w h (sps_set_config E w h config)) := by
  unfold sps_set_config
  by_cases hh : h = 0
  · rw [if_pos hh]
    exact ⟨fun b hf => hf, fun _ => refused_exit_unchanged E.K w h⟩
  rw [if_neg hh]
  cases config with
  | none => exact ⟨fun b hf => hf, fun _ => refused_exit_unchanged E.K w h⟩
  | some c =>
    dsimp only
    constructor
    · intro b hf
      by_cases hl : (sps_bam_lock w h).1 = 0
      · rw [if_pos hl]
        exact refused_exit_free E.K w h _ b (sps_bam_lock_refused E.K w h hl) hf
      · rw [if_neg hl]
        apply spin_unlock_free w _ _ b _ hf
        split_ifs
        · exact sps_bam_lock_mem w h hl
        · exact sps_bam_lock_mem w h hl
    · intro hx
      rw [if_pos (sps_bam_lock_not_owner w h hx)]
      exact sps_bam_lock_refused E.K w h (sps_bam_lock_not_owner w h hx)

theorem sps_set_owner_facts (E : Env) (w : World) (h : Ptr) (owner : sps_owner)
    (connect : Option sps_satellite) :
    (∀ b, fast_lock_free w b → fast_lock_free (sps_set_owner E w h owner connect).2.2 b) ∧
    (¬ owns w h (w.pipe_mem h).bam →
      refused_exit E.K w h
        ((sps_set_owner E w h owner connect).1, (sps_set_owner E w h owner connect).2.2)) := by
  unfold sps_set_owner
  by_cases hh : h = 0
  · rw [if_pos hh]
    exact ⟨fun b hf => hf, fun _ => refused_exit_unchanged E.K w h⟩
  rw [if_neg hh]
  cases connect with
  | none => exact ⟨fun b hf => hf, fun _ => refused_exit_unchanged E.K w h⟩
  | some s =>
    dsimp only
    by_cases ho : owner ≠ sps_owner.SPS_OWNER_REMOTE
    · rw [if_pos ho]
      exact ⟨fun b hf => hf, fun _ => refused_exit_unchanged E.K w h⟩
    rw [if_neg ho]
    constructor
    · intro b hf
      by_cases hl : (sps_bam_lock w h).1 = 0
      · rw [if_pos hl]
        exact refused_exit_free E.K w h _ b (sps_bam_lock_refused E.K w h hl) hf
      · rw [if_neg hl]
        split_ifs <;> exact spin_unlock_free w _ _ b (sps_bam_lock_mem w h hl) hf
    · intro hx
      rw [if_pos (sps_bam_lock_not_owner w h hx)]
      exact sps_bam_lock_refused E.K w h (sps_bam_lock_not_owner w h hx)

/-- C15: each of the thirteen hot-path operations, started in a state where the
fast lock of a device `b` is free, ends in a state where it is free, for every
endpoint, every argument and every result of the pipe engine: so on success,
on an engine error, on an endpoint without device and on a failed ownership
check alike. -/
theorem hot_path_releases_fast_lock (E : Env) (w : World) (h b : Ptr)
    (hf : fast_lock_free w b)
    (reg notify empty count desc_num iovec timer_ctrl timer_result user : Ptr)
    (addr size flags : Nat) (transfer : Option struct_sps_transfer)
    (config : Option struct_sps_connect) (owner : sps_owner)
    (connect : Option sps_satellite) :
    fast_lock_free (sps_register_event E w h reg).2 b ∧
    fast_lock_free (sps_flow_on E w h).2 b ∧
    fast_lock_free (sps_flow_off E w h).2 b ∧
    fast_lock_free (sps_transfer E w h transfer).2 b ∧
    fast_lock_free (sps_transfer_one E w h addr size user flags).2 b ∧
    fast_lock_free (sps_get_event E w h notify).2 b ∧
    fast_lock_free (sps_is_pipe_empty E w h empty).2 b ∧
    fast_lock_free (sps_get_free_count E w h count).2 b ∧
    fast_lock_free (sps_set_config E w h config).2 b ∧
    fast_lock_free (sps_set_owner E w h owner connect).2.2 b ∧
    fast_lock_free (sps_get_unused_desc_num E w h desc_num).2 b ∧
    fast_lock_free (sps_get_iovec E w h iovec).2 b ∧
    fast_lock_free (sps_timer_ctrl E w h timer_ctrl timer_result).2 b :=
  ⟨(sps_register_event_facts E w h reg).1 b hf,
    (sps_flow_on_facts E w h).1 b hf,
    (sps_flow_off_facts E w h).1 b hf,
    (sps_transfer_facts E w h transfer).1 b hf,
    (checked_call_facts E w h _ _ _).1 b hf,
    (checked_call_facts E w h _ _ _).1 b hf,
    (checked_call_facts E w h _ _ _).1 b hf,
    (checked_call_facts E w h _ _ _).1 b hf,
    (sps_set_config_facts E w h config).1 b hf,
    (sps_set_owner_facts E w h owner connect).1 b hf,
    (checked_call_facts E w h _ _ _).1 b hf,
    (checked_call_facts E w h _ _ _).1 b hf,
    (checked_call_facts E w h _ _ _).1 b hf⟩

theorem hot_path_releases_fast_lock_witness :
    fast_lock_free ex_world 0x1000 ∧
    fast_lock_free (sps_get_event ex_env ex_world 0x10 1).2 0x1000 :=
  ⟨by decide,
    (hot_path_releases_fast_lock ex_env ex_world 0x10 0x1000 (by decide) 1 1 1 1 1 1 1 1 1
      0 0 0 none none sps_owner.SPS_OWNER_REMOTE none).2.2.2.2.2.1⟩

/-- C16 as stated does not hold: in the example state the endpoint at `0x30` has
no device and the endpoint at `0x10`, with its `pipe_index` forced to 3, has a
device but fails the ownership check, and `sps_flow_on` returns the same value
to the caller in both cases. -/
theorem hot_path_refusals_same_code :
    (ex_world.pipe_mem 0x30).bam = 0 ∧
    ((force_pipe_index ex_world 0x10 3).pipe_mem 0x10).bam = 0x1000 ∧
    ¬ owns (force_pipe_index ex_world 0x10 3) 0x10 0x1000 ∧
    (sps_flow_on ex_env ex_world 0x30).1
      = (sps_flow_on ex_env (force_pipe_index ex_world 0x10 3) 0x10).1 := by
  decide

/-- C16, amended: a hot-path operation on an endpoint that has no device, or
that has one and fails the ownership check, returns `SPS_ERROR` in both cases
(the causes differ in the logged message only), and the state is untouched or
differs only by the fast lock having been taken and released: the pipe engine
is not called.  For `sps_register_event` this is with the driver ready. -/
theorem hot_path_refusal (E : Env) (w : World) (h : Ptr) (drv : sps_drv)
    (hs : w.sps = some drv) (hr : drv.is_ready = true)
    (hx : (w.pipe_mem h).bam = 0 ∨
      ((w.pipe_mem h).bam ≠ 0 ∧ ¬ owns w h (w.pipe_mem h).bam))
    (reg notify empty count desc_num iovec timer_ctrl timer_result user : Ptr)
    (addr size flags : Nat) (transfer : Option struct_sps_transfer)
    (config : Option struct_sps_connect) (owner : sps_owner)
    (connect : Option sps_satellite) :
    refused_exit E.K w h (sps_register_event E w h reg) ∧
    refused_exit E.K w h (sps_flow_on E w h) ∧
    refused_exit E.K w h (sps_flow_off E w h) ∧
    refused_exit E.K w h (sps_transfer E w h transfer) ∧
    refused_exit E.K w h (sps_transfer_one E w h addr size user flags) ∧
    refused_exit E.K w h (sps_get_event E w h notify) ∧
    refused_exit E.K w h (sps_is_pipe_empty E w h empty) ∧
    refused_exit E.K w h (sps_get_free_count E w h count) ∧
    refused_exit E.K w h (sps_set_config E w h config) ∧
    refused_exit E.K w h
      ((sps_set_owner E w h owner connect).1, (sps_set_owner E w h owner connect).2.2) ∧
    refused_exit E.K w h (sps_get_unused_desc_num E w h desc_num) ∧
    refused_exit E.K w h (sps_get_iovec E w h iovec) ∧
    refused_exit E.K w h (sps_timer_ctrl E w h timer_ctrl timer_result) :=
  ⟨(sps_register_event_facts E w h reg).2 drv hs hr (no_owner_of_cause w h hx),
    (sps_flow_on_facts E w h).2 (no_owner_of_cause w h hx),
    (sps_flow_off_facts E w h).2 (no_owner_of_cause w h hx),
    (sps_transfer_facts E w h transfer).2 (no_owner_of_cause w h hx),
    (checked_call_facts E w h _ _ _).2 (no_owner_of_cause w h hx),
    (checked_call_facts E w h _ _ _).2 (no_owner_of_cause w h hx),
    (checked_call_facts E w h _ _ _).2 (no_owner_of_cause w h hx),
    (checked_call_facts E w h _ _ _).2 (no_owner_of_cause w h hx),
    (sps_set_config_facts E w h config).2 (no_owner_of_cause w h hx),
    (sps_set_owner_facts E w h owner connect).2 (no_owner_of_cause w h hx),
    (checked_call_facts E w h _ _ _).2 (no_owner_of_cause w h hx),
    (checked_call_facts E w h _ _ _).2 (no_owner_of_cause w h hx),
    (checked_call_facts E w h _ _ _).2 (no_owner_of_cause w h hx)⟩

theorem hot_path_refusal_witness :
    (sps_flow_on ex_env (force_pipe_index ex_world 0x10 3) 0x10).1 = ex_env.K.SPS_ERROR ∧
    (sps_get_iovec ex_env ex_world 0x30 1).1 = ex_env.K.SPS_ERROR :=
  ⟨(hot_path_refusal ex_env (force_pipe_index ex_world 0x10 3) 0x10 ⟨true, [0x1000]⟩ rfl rfl
      (Or.inr (by decide)) 1 1 1 1 1 1 1 1 1 0 0 0 none none sps_owner.SPS_OWNER_REMOTE
      none).2.1.1,
    (hot_path_refusal ex_env ex_world 0x30 ⟨true, [0x1000]⟩ rfl rfl
      (Or.inl (by decide)) 1 1 1 1 1 1 1 1 1 0 0 0 none none sps_owner.SPS_OWNER_REMOTE
      none).2.2.2.2.2.2.2.2.2.2.2.1.1⟩

/-! ### Readiness checks (C17) -/

/-- C17 as stated does not hold.  Before the driver state exists an endpoint
can be allocated, and on it `sps_get_config` returns success with the default
descriptor, while `sps_flow_on`, `sps_transfer` (with a transfer that passes its
argument checks) and `sps_disconnect` return the generic `SPS_ERROR` of an
endpoint without device, which is not one of the not-ready codes.  With the
driver state present and not ready, a BAM-DMA device can be registered, and
`sps_deregister_bam_device` on its handle returns success and empties the
registry. -/
theorem not_ready_not_checked :
    not_ready ex_boot ∧
    (sps_alloc_endpoint ex_env ex_boot).1 = 0x2000 ∧
    not_ready (sps_alloc_endpoint ex_env ex_boot).2 ∧
    sps_get_config ex_env.K (sps_alloc_endpoint ex_env ex_boot).2 0x2000 (some ex_connect)
      = (0, some ex_env.sps_rm_config_init) ∧
    (sps_flow_on ex_env (sps_alloc_endpoint ex_env ex_boot).2 0x2000).1 = ex_env.K.SPS_ERROR ∧
    verify_iovecs ex_env.K ex_iovecs_ok 0 1 = 0 ∧
    (sps_transfer ex_env (sps_alloc_endpoint ex_env ex_boot).2 0x2000
      (some ⟨some ex_iovecs_ok, 1⟩)).1 = ex_env.K.SPS_ERROR ∧
    (sps_disconnect ex_env (sps_alloc_endpoint ex_env ex_boot).2 0x2000).1
      = ex_env.K.SPS_ERROR ∧
    ex_env.K.SPS_ERROR ∉ not_ready_codes ∧
    not_ready ex_early ∧
    (sps_register_bam_device ex_env ex_early (some ex_props_dma) (some 0)).1 = 0 ∧
    (sps_register_bam_device ex_env ex_early (some ex_props_dma) (some 0)).2.1 = some 0x2000 ∧
    not_ready (sps_register_bam_device ex_env ex_early (some ex_props_dma) (some 0)).2.2 ∧
    (sps_register_bam_device ex_env ex_early (some ex_props_dma) (some 0)).2.2.sps
      = some ⟨false, [0x2000]⟩ ∧
    (sps_deregister_bam_device ex_env
      (sps_register_bam_device ex_env ex_early (some ex_props_dma) (some 0)).2.2 0x2000).1 = 0 ∧
    (sps_deregister_bam_device ex_env
      (sps_register_bam_device ex_env ex_early (some ex_props_dma) (some 0)).2.2 0x2000).2.sps
      = some ⟨false, []⟩ := by
  decide

/-- The lock call on an endpoint without device gives `NULL` and changes
nothing. -/
theorem sps_bam_lock_no_device (w : World) (h : Ptr) (hb : (w.pipe_mem h).bam = 0) :
    sps_bam_lock w h = (0, w) := by
  unfold sps_bam_lock
  dsimp only
  rw [if_pos hb]

/-- C17, amended: when the system is not initialised, the operations that
consult the driver state (`sps_connect`, `sps_register_event`, `sps_phy2h`,
`sps_get_bam_debug_info`, and `sps_register_bam_device` for a device without the
BAM-DMA option) called with non-null arguments return one of the not-ready
codes `-ENODEV`, `-EAGAIN`, `-EPROBE_DEFER` and leave the state and the
caller's variables as they were, making no call; with `SPS_ERROR = -1` these
codes differ from `SPS_ERROR` and from success.  The other operations named in
the claim make no readiness check.  On a non-null endpoint `sps_get_config`
returns success with the endpoint's stored descriptor.  On a non-null endpoint
without device reference `sps_flow_on`, `sps_transfer` (with a transfer that
passes the argument checks) and `sps_disconnect` return `SPS_ERROR` and leave
the state as it was (`sps_disconnect` up to the mark of its entry in the
trace).  With the driver state present and not ready,
`sps_deregister_bam_device` on a handle that resolves returns success, removes
the record from the registry and leaves the endpoints as they were. -/
theorem not_ready_fails_fast (E : Env) (hE : E.K.SPS_ERROR = -1) (w : World)
    (hn : not_ready w) :
    (∀ h c, h ≠ 0 → ∃ code ∈ not_ready_codes, sps_connect E w h (some c) = (code, w)) ∧
    (∀ h reg, h ≠ 0 → reg ≠ 0 →
      ∃ code ∈ not_ready_codes, sps_register_event E w h reg = (code, w)) ∧
    (∀ props hv, props.options &&& E.K.SPS_BAM_OPT_BAMDMA = 0 →
      ∃ code ∈ not_ready_codes,
        sps_register_bam_device E w (some props) (some hv) = (code, some hv, w)) ∧
    (∀ phys_addr hv, sps_phy2h E.K w phys_addr (some hv) = (-EPROBE_DEFER, some hv)) ∧
    (∀ dev option para tb_sel desc_sel, dev ≠ 0 →
      sps_get_bam_debug_info E w dev option para tb_sel desc_sel = (-EPROBE_DEFER, w)) ∧
    (∀ code ∈ not_ready_codes, code ≠ E.K.SPS_ERROR ∧ code ≠ 0) ∧
    (∀ h c, h ≠ 0 → sps_get_config E.K w h (some c) = (0, some (w.pipe_mem h).connect)) ∧
    (∀ h, h ≠ 0 → (w.pipe_mem h).bam = 0 → sps_flow_on E w h = (E.K.SPS_ERROR, w)) ∧
    (∀ h t iovec, h ≠ 0 → (w.pipe_mem h).bam = 0 → t.iovec = some iovec →
      t.iovec_count ≠ 0 → verify_iovecs E.K iovec 0 t.iovec_count = 0 →
      sps_transfer E w h (some t) = (E.K.SPS_ERROR, w)) ∧
    (∀ h, h ≠ 0 → (w.pipe_mem h).bam = 0 →
      sps_disconnect E w h = (E.K.SPS_ERROR, w.log (Event.sps_disconnect h))) ∧
    (∀ drv dev, w.sps = some drv → dev ≠ 0 → sps_h2bam E.K w dev ≠ 0 →
      (sps_deregister_bam_device E w dev).1 = 0 ∧
      (sps_deregister_bam_device E w dev).2.sps
        = some { drv with bams_q := drv.bams_q.erase dev } ∧
      (sps_deregister_bam_device E w dev).2.pipe_mem = w.pipe_mem) := by
  have hcodes : ∀ code ∈ not_ready_codes, code ≠ E.K.SPS_ERROR ∧ code ≠ 0 := by
    intro code hc
    rw [hE]
    simp only [not_ready_codes, List.mem_cons, List.mem_singleton, List.not_mem_nil,
      or_false] at hc
    rcases hc with hc | hc | hc <;> rw [hc] <;> decide
  have hcfg : ∀ h c, h ≠ 0 →
      sps_get_config E.K w h (some c) = (0, some (w.pipe_mem h).connect) := by
    intro h c hh
    unfold sps_get_config
    rw [if_neg hh]
  have hflow : ∀ h, h ≠ 0 → (w.pipe_mem h).bam = 0 →
      sps_flow_on E w h = (E.K.SPS_ERROR, w) := by
    intro h hh hb
    unfold sps_flow_on
    dsimp only
    rw [if_neg hh, sps_bam_lock_no_device w h hb, if_pos rfl]
  have htr : ∀ h t iovec, h ≠ 0 → (w.pipe_mem h).bam = 0 → t.iovec = some iovec →
      t.iovec_count ≠ 0 → verify_iovecs E.K iovec 0 t.iovec_count = 0 →
      sps_transfer E w h (some t) = (E.K.SPS_ERROR, w) := by
    intro h t iovec hh hb hio hc hv
    unfold sps_transfer
    rw [if_neg hh]
    simp only [hio]
    rw [if_neg hc, if_neg (not_not.mpr hv), sps_bam_lock_no_device w h hb, if_pos rfl]
  have hdis : ∀ h, h ≠ 0 → (w.pipe_mem h).bam = 0 →
      sps_disconnect E w h = (E.K.SPS_ERROR, w.log (Event.sps_disconnect h)) :=
    fun h _ hb => sps_disconnect_early E w h (Or.inr (Or.inl hb))
  have hder : ∀ drv dev, w.sps = some drv → dev ≠ 0 → sps_h2bam E.K w dev ≠ 0 →
      (sps_deregister_bam_device E w dev).1 = 0 ∧
      (sps_deregister_bam_device E w dev).2.sps
        = some { drv with bams_q := drv.bams_q.erase dev } ∧
      (sps_deregister_bam_device E w dev).2.pipe_mem = w.pipe_mem := by
    intro drv dev hs hd hb
    obtain ⟨e1, e2, _, e4⟩ := sps_deregister_bam_device_ok E w dev hd hb
    refine ⟨e1, ?_, e4⟩
    rw [e2, hs, sps_h2bam_self E.K w dev hb]
    rfl
  unfold not_ready at hn
  cases hs : w.sps with
  | none =>
    refine ⟨?_, ?_, ?_, ?_, ?_, hcodes, hcfg, hflow, htr, hdis, ?_⟩
    · intro h c hh
      refine ⟨-ENODEV, by simp [not_ready_codes], ?_⟩
      unfold sps_connect
      rw [if_neg hh]
      simp only [hs]
    · intro h reg hh hg
      refine ⟨-ENODEV, by simp [not_ready_codes], ?_⟩
      unfold sps_register_event
      rw [if_neg hh, if_neg hg]
      simp only [hs]
    · intro props hv _
      refine ⟨-EPROBE_DEFER, by simp [not_ready_codes], ?_⟩
      unfold sps_register_bam_device
      simp only [hs]
    · intro phys_addr hv
      unfold sps_phy2h
      simp only [hs]
    · intro dev option para tb_sel desc_sel hd
      unfold sps_get_bam_debug_info
      rw [if_neg hd]
      simp only [hs]
    · intro drv dev hs2
      exact absurd hs2 (by simp)
  | some drv =>
    rw [hs] at hn
    have hr : drv.is_ready = false := hn
    refine ⟨?_, ?_, ?_, ?_, ?_, hcodes, hcfg, hflow, htr, hdis, ?_⟩
    · intro h c hh
      refine ⟨-EAGAIN, by simp [not_ready_codes], ?_⟩
      unfold sps_connect
      rw [if_neg hh]
      simp only [hs]
      rw [if_pos hr]
    · intro h reg hh hg
      refine ⟨-EAGAIN, by simp [not_ready_codes], ?_⟩
      unfold sps_register_event
      rw [if_neg hh, if_neg hg]
      simp only [hs]
      rw [if_pos hr]
    · intro props hv ho
      refine ⟨-EAGAIN, by simp [not_ready_codes], ?_⟩
      unfold sps_register_bam_device
      simp only [hs]
      rw [if_pos ⟨hr, by simp [ho]⟩]
    · intro phys_addr hv
      unfold sps_phy2h
      simp only [hs]
      rw [if_pos hr]
    · intro dev option para tb_sel desc_sel hd
      unfold sps_get_bam_debug_info
      rw [if_neg hd]
      simp only [hs]
      rw [if_pos hr]
    · intro drv2 dev hs2 hd hb
      exact hder drv2 dev (hs.trans hs2) hd hb

/-- Witness of C17 (amended), in the state with the driver state present and not
ready in which a BAM-DMA device was registered: the debug dump is refused with
`-EPROBE_DEFER`, and the device is deregistered with success. -/
theorem not_ready_fails_fast_witness :
    not_ready (sps_register_bam_device ex_env ex_early (some ex_props_dma) (some 0)).2.2 ∧
    (sps_get_bam_debug_info ex_env
      (sps_register_bam_device ex_env ex_early (some ex_props_dma) (some 0)).2.2
      0x2000 6 0 0 0).1 = -EPROBE_DEFER ∧
    (sps_deregister_bam_device ex_env
      (sps_register_bam_device ex_env ex_early (some ex_props_dma) (some 0)).2.2 0x2000).1 = 0 :=
  ⟨by decide,
    congrArg Prod.fst
      ((not_ready_fails_fast ex_env (by decide)
        (sps_register_bam_device ex_env ex_early (some ex_props_dma) (some 0)).2.2
        (by decide)).2.2.2.2.1 0x2000 6 0 0 0 (by decide)),
    ((not_ready_fails_fast ex_env (by decide)
      (sps_register_bam_device ex_env ex_early (some ex_props_dma) (some 0)).2.2
      (by decide)).2.2.2.2.2.2.2.2.2.2 ⟨false, [0x2000]⟩ 0x2000 (by decide) (by decide)
      (by decide)).1⟩

/-! ### Endpoint invariant (C14) -/

theorem ep_inv_of_pipe_eq (w w2 : World) (p : Ptr) (he : w2.pipe_mem p = w.pipe_mem p)
    (hi : ep_inv w p) : ep_inv w2 p := by
  unfold ep_inv at hi ⊢
  rw [he]
  exact hi

theorem set_pipe_pipe_mem_other (w : World) (h p : Ptr) (e : sps_pipe) (hp : p ≠ h) :
    (w.set_pipe h e).pipe_mem p = w.pipe_mem p := by
  simp [World.set_pipe, Function.update, hp]

theorem rm_apply_pipe_mem_other (E : Env) (w : World) (h p : Ptr) (s : sps_state)
    (hp : p ≠ h) : (rm_apply E w h s).pipe_mem p = w.pipe_mem p := by
  cases s <;> simp only [rm_apply] <;> rw [set_pipe_pipe_mem_other _ _ _ _ hp] <;>
    (try split_ifs) <;> rfl

theorem sps_rm_state_change_pipe_mem_other (E : Env) (w : World) (h p : Ptr) (s : sps_state)
    (hp : p ≠ h) : (sps_rm_state_change E w h s).2.pipe_mem p = w.pipe_mem p := by
  by_cases hr : E.rm_result w h s ≠ 0
  · rw [sps_rm_state_change_fail E w h s hr]; rfl
  · push_neg at hr
    rw [sps_rm_state_change_ok E w h s hr, rm_apply_pipe_mem_other E _ h p s hp]
    rfl

theorem sps_disconnect_pipe_mem_other (E : Env) (w : World) (h p : Ptr) (hp : p ≠ h) :
    (sps_disconnect E w h).2.pipe_mem p = w.pipe_mem p := by
  by_cases hx : h = 0 ∨ (w.pipe_mem h).bam = 0 ∨ ¬ map_check E.K w h
  · rw [sps_disconnect_early E w h hx]; rfl
  · push_neg at hx
    obtain ⟨hh, hb, hm⟩ := hx
    rw [sps_disconnect_eq E w h hh hb hm]
    by_cases hr : E.rm_result (disconnect_rm_state w h) h sps_state.SPS_STATE_DISCONNECT ≠ 0
    · rw [disconnect_locked_fail E _ h _ hr]; rfl
    · push_neg at hr
      rw [disconnect_locked_ok E _ h _ hr]
      simp only [log_pipe_mem]
      rw [set_pipe_pipe_mem_other _ _ _ _ hp]
      simp only [log_pipe_mem]
      rw [rm_apply_pipe_mem_other E _ h p _ hp]
      rfl

/-- The endpoint invariant is kept by `sps_disconnect`. -/
theorem sps_disconnect_inv (E : Env) (w : World) (h p : Ptr) (hi : ep_inv w p) :
    ep_inv (sps_disconnect E w h).2 p := by
  by_cases hp : p = h
  · subst hp
    by_cases hx : p = 0 ∨ (w.pipe_mem p).bam = 0 ∨ ¬ map_check E.K w p
    · rw [sps_disconnect_early E w p hx]; exact hi
    · push_neg at hx
      obtain ⟨hh, hb, hm⟩ := hx
      obtain ⟨_, _, d3, d4⟩ := sps_disconnect_ready E w p hh hb hm
      by_cases hr : E.rm_result (disconnect_rm_state w p) p sps_state.SPS_STATE_DISCONNECT = 0
      · obtain ⟨e1, _, e3, _⟩ := d3 hr
        unfold ep_inv
        rw [e1, e3]
        simp
      · exact ep_inv_of_pipe_eq w _ p (by rw [(d4 hr).1]) hi
  · exact ep_inv_of_pipe_eq w _ p (sps_disconnect_pipe_mem_other E w h p hp) hi

theorem connect_allocated_pipe_mem_other (E : Env) (w2 : World) (h p : Ptr)
    (c : struct_sps_connect) (hp : p ≠ h) :
    (connect_allocated E w2 h c).pipe_mem p = w2.pipe_mem p := by
  unfold connect_allocated
  rw [rm_apply_pipe_mem_other E _ h p _ hp]
  simp only [log_pipe_mem, connect_stored]
  exact set_pipe_pipe_mem_other _ _ _ _ hp

/-- The endpoint invariant is kept by the locked part of `sps_connect` when the
target device resolves. -/
theorem connect_locked_inv (E : Env) (w2 : World) (h p : Ptr) (c : struct_sps_connect)
    (bam : Ptr) (hb : sps_h2bam E.K w2 (connect_dev E.K c) ≠ 0) (hi : ep_inv w2 p) :
    ep_inv (connect_locked E w2 h c bam).2 p := by
  by_cases ha : E.rm_result (connect_stored w2 h c) h sps_state.SPS_STATE_ALLOCATE ≠ 0
  · rw [connect_locked_alloc_fail E w2 h c bam ha]
    unfold ep_inv at hi ⊢
    simp only [log_pipe_mem, connect_stored]
    by_cases hp : p = h
    · subst hp
      simp only [set_pipe_pipe_mem_same]
      exact hi
    · rw [set_pipe_pipe_mem_other _ _ _ _ hp]
      exact hi
  push_neg at ha
  obtain ⟨_, f2, f3, _, _, _⟩ := connect_allocated_pipe E w2 h c
  have hall : ep_inv (connect_allocated E w2 h c) p := by
    by_cases hp : p = h
    · subst hp
      unfold ep_inv
      rw [f2, f3]
      simp [hb]
    · exact ep_inv_of_pipe_eq w2 _ p (connect_allocated_pipe_mem_other E w2 h p c hp) hi
  by_cases hc : E.rm_result (connect_allocated E w2 h c) h sps_state.SPS_STATE_CONNECT ≠ 0
  · rw [connect_locked_config_fail E w2 h c bam ha hc]
    apply ep_inv_of_pipe_eq (sps_disconnect E _ h).2 _ p rfl
    apply sps_disconnect_inv
    exact ep_inv_of_pipe_eq _ _ p rfl hall
  · push_neg at hc
    rw [connect_locked_ok E w2 h c bam ha hc]
    obtain ⟨p1, _⟩ := rm_apply_connect_pipe E ((connect_allocated E w2 h c).log
      (Event.sps_rm_state_change h sps_state.SPS_STATE_CONNECT 0)) h
    by_cases hp : p = h
    · subst hp
      unfold ep_inv
      simp only [log_pipe_mem, p1]
      rw [f3]
      simp [hb]
    · apply ep_inv_of_pipe_eq (connect_allocated E w2 h c) _ p _ hall
      simp only [log_pipe_mem]
      rw [rm_apply_pipe_mem_other E _ h p _ hp]
      rfl

/-- The endpoint invariant is kept by `sps_connect`. -/
theorem sps_connect_inv (E : Env) (w : World) (h p : Ptr)
    (connect : Option struct_sps_connect) (hi : ep_inv w p) :
    ep_inv (sps_connect E w h connect).2 p := by
  rcases sps_connect_cases E w h connect with ⟨h1, _, _, _⟩ | ⟨c, _, _, hb, heq⟩
  · exact ep_inv_of_pipe_eq w _ p (by rw [h1]) hi
  · rw [heq]
    exact connect_locked_inv E _ h p c _ hb (ep_inv_of_pipe_eq w _ p rfl hi)

/-- The endpoint invariant is kept by `sps_set_config`. -/
theorem sps_set_config_inv (E : Env) (w : World) (h p : Ptr)
    (config : Option struct_sps_connect) (hi : ep_inv w p) :
    ep_inv (sps_set_config E w h config).2 p := by
  have hlock : (sps_bam_lock w h).2.pipe_mem = w.pipe_mem := by
    rcases sps_bam_lock_cases w h with ⟨_, e⟩ | ⟨_, _, e⟩ | ⟨_, _, e⟩ <;> rw [e] <;> rfl
  unfold sps_set_config
  by_cases hh : h = 0
  · rw [if_pos hh]; exact hi
  rw [if_neg hh]
  cases config with
  | none => exact hi
  | some c =>
    dsimp only
    by_cases hl : (sps_bam_lock w h).1 = 0
    · rw [if_pos hl]
      exact ep_inv_of_pipe_eq w _ p (by rw [hlock]) hi
    · rw [if_neg hl]
      unfold ep_inv at hi ⊢
      unfold sps_bam_unlock spin_unlock_irqrestore
      split_ifs
      · by_cases hp : p = h
        · subst hp
          simp only [set_pipe_pipe_mem_same, log_pipe_mem, hlock]
          exact hi
        · simp only [set_pipe_pipe_mem_other _ _ _ _ hp, log_pipe_mem, hlock]
          exact hi
      · simp only [log_pipe_mem, hlock]
        exact hi

/-- The state of a freshly initialised endpoint. -/
theorem sps_client_init_fresh (E : Env) (w : World) (client : Ptr) (hc : client ≠ 0) :
    (sps_client_init E w client).1 = 0 ∧
    (sps_client_init E w client).2.pipe_mem client =
      { connect := E.sps_rm_config_init
        client_state := sps_state.SPS_STATE_DISCONNECT
        bam := 0
        pipe_index := 0
        map := 0 } ∧
    ∀ p, p ≠ client → (sps_client_init E w client).2.pipe_mem p = w.pipe_mem p := by
  unfold sps_client_init
  rw [if_neg hc]
  refine ⟨rfl, ?_, ?_⟩
  · simp
  · intro p hp
    simp only [log_pipe_mem]
    exact set_pipe_pipe_mem_other _ _ _ _ hp

/-- The endpoint invariant is kept by `sps_alloc_endpoint`. -/
theorem sps_alloc_endpoint_inv (E : Env) (w : World) (p : Ptr) (hi : ep_inv w p) :
    ep_inv (sps_alloc_endpoint E w).2 p := by
  unfold sps_alloc_endpoint
  dsimp only
  by_cases hz : E.kzalloc w = 0
  · rw [if_pos hz]; exact hi
  rw [if_neg hz]
  obtain ⟨_, f2, f3⟩ := sps_client_init_fresh E (w.log (Event.kzalloc (E.kzalloc w)))
    (E.kzalloc w) hz
  by_cases hp : p = E.kzalloc w
  · unfold ep_inv
    rw [hp, f2]
    simp
  · exact ep_inv_of_pipe_eq w _ p (f3 p hp) hi

/-- The endpoint invariant is kept by `sps_free_endpoint`. -/
theorem sps_free_endpoint_inv (E : Env) (w : World) (h p : Ptr) (hi : ep_inv w p) :
    ep_inv (sps_free_endpoint E w h).2 p := by
  unfold sps_free_endpoint sps_client_de_init
  by_cases hh : h = 0
  · rw [if_pos hh]; exact hi
  rw [if_neg hh]
  dsimp only
  by_cases hs : (w.pipe_mem h).client_state ≠ sps_state.SPS_STATE_DISCONNECT
  · rw [if_pos hs]
    split_ifs <;> exact hi
  · rw [if_neg hs, if_pos rfl]
    push_neg at hs
    by_cases hp : p = h
    · subst hp
      unfold ep_inv
      simp only [log_pipe_mem, set_pipe_pipe_mem_same]
      simp [hs]
    · apply ep_inv_of_pipe_eq w _ p _ hi
      simp only [log_pipe_mem]
      exact set_pipe_pipe_mem_other _ _ _ _ hp

theorem op_step_inv (E : Env) (w w2 : World) (p : Ptr) (hs : op_step E w w2)
    (hi : ep_inv w p) : ep_inv w2 p := by
  cases hs with
  | alloc => exact sps_alloc_endpoint_inv E w p hi
  | connect h c => exact sps_connect_inv E w h p c hi
  | disconnect h => exact sps_disconnect_inv E w h p hi
  | set_config h c => exact sps_set_config_inv E w h p c hi
  | free h => exact sps_free_endpoint_inv E w h p hi

theorem sps_alloc_endpoint_fresh (E : Env) (w : World) (hn : (sps_alloc_endpoint E w).1 ≠ 0) :
    (sps_alloc_endpoint E w).2.pipe_mem (sps_alloc_endpoint E w).1 =
      { connect := E.sps_rm_config_init
        client_state := sps_state.SPS_STATE_DISCONNECT
        bam := 0
        pipe_index := 0
        map := 0 } := by
  unfold sps_alloc_endpoint at hn ⊢
  dsimp only at hn ⊢
  by_cases hz : E.kzalloc w = 0
  · rw [if_pos hz] at hn
    exact absurd rfl hn
  · rw [if_neg hz]
    exact (sps_client_init_fresh E _ _ hz).2.1

/-- C14: an endpoint just returned by `sps_alloc_endpoint` has state
`Disconnected`, a null device reference and the descriptor written by
`sps_rm_config_init`; and in every state reached from there by operations of
this layer (`sps_alloc_endpoint`, `sps_connect`, `sps_disconnect`,
`sps_set_config`, `sps_free_endpoint` on any endpoint with any arguments) the
endpoint's device reference is non-null exactly when its state tag is not
`Disconnected`. -/
theorem endpoint_invariant (E : Env) (p : Ptr) :
    (∀ w, (sps_alloc_endpoint E w).1 = p → p ≠ 0 →
      ((sps_alloc_endpoint E w).2.pipe_mem p).client_state = sps_state.SPS_STATE_DISCONNECT ∧
      ((sps_alloc_endpoint E w).2.pipe_mem p).bam = 0 ∧
      ((sps_alloc_endpoint E w).2.pipe_mem p).connect = E.sps_rm_config_init) ∧
    (∀ w, reachable E p w → ep_inv w p) := by
  have hfresh : ∀ w, (sps_alloc_endpoint E w).1 = p → p ≠ 0 →
      (sps_alloc_endpoint E w).2.pipe_mem p =
        { connect := E.sps_rm_config_init
          client_state := sps_state.SPS_STATE_DISCONNECT
          bam := 0
          pipe_index := 0
          map := 0 } := by
    intro w hp hn
    have := sps_alloc_endpoint_fresh E w (by rw [hp]; exact hn)
    rw [hp] at this
    exact this
  constructor
  · intro w hp hn
    rw [hfresh w hp hn]
    exact ⟨rfl, rfl, rfl⟩
  · intro w hr
    induction hr with
    | init w0 hp hn =>
      unfold ep_inv
      rw [hfresh w0 hp hn]
      simp
    | step w1 w2 _ hs ih => exact op_step_inv E w1 w2 p hs ih

theorem endpoint_invariant_witness :
    ep_inv (sps_connect ex_env (sps_alloc_endpoint ex_env ex_world).2 0x2000
      (some ex_connect)).2 0x2000 :=
  (endpoint_invariant ex_env 0x2000).2 _
    (reachable.step _ _ (reachable.init ex_world (by decide) (by decide))
      (op_step.connect _ 0x2000 (some ex_connect)))

/-! ### Diagnostic selector: loops and masks -/

theorem and_shift_ne_zero_iff (m i : Nat) : m &&& (1 <<< i) ≠ 0 ↔ m.testBit i = true := by
  rw [Nat.one_shiftLeft]
  constructor
  · intro h
    by_contra hb
    apply h
    apply Nat.eq_of_testBit_eq
    intro j
    rw [Nat.testBit_and, Nat.testBit_two_pow, Nat.zero_testBit]
    by_cases hij : i = j
    · subst hij
      simp at hb
      simp [hb]
    · simp [hij]
  · intro hb h0
    have h1 : (m &&& 2 ^ i).testBit i = true := by
      rw [Nat.testBit_and, hb, Nat.testBit_two_pow_self]
      rfl
    rw [h0, Nat.zero_testBit] at h1
    exact Bool.noConfusion h1

theorem pipe_loop_range' (body : Nat → List DumpAction) (n : Nat) :
    ∀ i, pipe_loop body i n = (List.range' i n).flatMap body := by
  induction n with
  | zero => intro i; rfl
  | succ n ih =>
    intro i
    rw [List.range'_succ, List.flatMap_cons, ← ih (i + 1)]
    rfl

theorem pipe_loop_selected_range' (m : Nat) (body : Nat → List DumpAction) (n : Nat) :
    ∀ i, pipe_loop (selected m body) i n
      = ((List.range' i n).filter (fun j => m.testBit j)).flatMap body := by
  induction n with
  | zero => intro i; rfl
  | succ n ih =>
    intro i
    rw [List.range'_succ, List.filter_cons]
    show selected m body i ++ pipe_loop (selected m body) (i + 1) n = _
    rw [ih (i + 1)]
    unfold selected
    by_cases hb : m.testBit i = true
    · rw [if_pos ((and_shift_ne_zero_iff m i).mpr hb), if_pos hb, List.flatMap_cons]
    · rw [if_neg (fun h => hb ((and_shift_ne_zero_iff m i).mp h)), if_neg hb]
      rfl

/-- The unguarded pipe loop visits the pipes `0..n-1` in ascending order. -/
theorem pipe_loop_all (body : Nat → List DumpAction) (n : Nat) :
    pipe_loop body 0 n = (List.range n).flatMap body := by
  rw [List.range_eq_range', pipe_loop_range']

/-- The guarded pipe loop visits, in ascending order, the pipes below `n` whose
bit is set in the mask. -/
theorem pipe_loop_mask (m : Nat) (body : Nat → List DumpAction) (n : Nat) :
    pipe_loop (selected m body) 0 n
      = ((List.range n).filter (fun j => m.testBit j)).flatMap body := by
  rw [List.range_eq_range', pipe_loop_selected_range']

@[simp] theorem dump_actions_emit (l : List DumpAction) : dump_actions (emit l) = l := by
  induction l with
  | nil => rfl
  | cons a l ih =>
    show a :: dump_actions (emit l) = a :: l
    rw [ih]

/-- The dump actions of a run of `sps_get_bam_debug_info` on a non-zero handle
that resolves, with the driver ready, are those of the switch. -/
theorem dump_actions_debug_info (E : Env) (w : World) (dev : Nat) (drv : sps_drv)
    (option para tb_sel desc_sel : Nat)
    (hd : dev ≠ 0) (hs : w.sps = some drv) (hr : drv.is_ready = true)
    (hb : sps_h2bam E.K w dev ≠ 0) :
    dump_actions (new_events w (sps_get_bam_debug_info E w dev option para tb_sel desc_sel).2)
      = dump_actions (debug_info_switch (sps_h2bam E.K w dev)
          (w.bam_mem (sps_h2bam E.K w dev)).props.num_pipes option para tb_sel desc_sel) := by
  rw [(sps_get_bam_debug_info_ok E w dev drv option para tb_sel desc_sel hd hs hr hb).2]
  rfl

/-! ### Option codes 1 to 16 (C21, C22) -/

/-- The dump actions of the switch for the option codes 2 to 12 and 14 to 16
are those of the spec's table. -/
theorem debug_info_switch_table (bam : Ptr) (n c m tb N : Nat) (h1 : 2 ≤ c) (h2 : c ≤ 16)
    (h13 : c ≠ 13) :
    dump_actions (debug_info_switch bam n c m tb N) = spec_actions bam n c m tb N := by
  interval_cases c
  · rfl
  · rfl
  · show dump_actions (emit (pipe_loop _ 0 n)) = _
    rw [dump_actions_emit, pipe_loop_all]
    rfl
  · show dump_actions (emit (pipe_loop (selected m _) 0 n)) = _
    rw [dump_actions_emit, pipe_loop_mask]
    rfl
  · rfl
  · show dump_actions (emit (pipe_loop _ 0 n)) = _
    rw [dump_actions_emit, pipe_loop_all]
    rfl
  · show dump_actions (emit (pipe_loop (selected m _) 0 n)) = _
    rw [dump_actions_emit, pipe_loop_mask]
    rfl
  · rfl
  · show dump_actions (emit (pipe_loop _ 0 n)) = _
    rw [dump_actions_emit, pipe_loop_all]
    rfl
  · show dump_actions (emit (pipe_loop (selected m _) 0 n)) = _
    rw [dump_actions_emit, pipe_loop_mask]
    rfl
  · rfl
  · exact absurd rfl h13
  · show dump_actions (emit (pipe_loop (selected m _) 0 n)) = _
    rw [dump_actions_emit, pipe_loop_mask]
    rfl
  · show dump_actions (emit (pipe_loop (selected m _) 0 n)) = _
    rw [dump_actions_emit, pipe_loop_mask]
    rfl
  · show dump_actions (emit (pipe_loop (selected m _) 0 n)) = _
    rw [dump_actions_emit, pipe_loop_mask]
    rfl

theorem debug_info_switch_one (bam : Ptr) (n m tb N : Nat) :
    dump_actions (debug_info_switch bam n 1 m tb N)
      = DumpAction.print_bam_reg bam :: spec_actions bam n 1 m tb N := by
  show dump_actions (emit (_ :: pipe_loop _ 0 n)) = _
  rw [dump_actions_emit, pipe_loop_all]
  rfl

theorem debug_info_switch_thirteen (bam : Ptr) (n m tb N : Nat) :
    (tb ≠ 0 → debug_info_switch bam n 13 m tb N
      = [Event.dump (DumpAction.print_bam_test_bus_reg bam tb)]) ∧
    (tb = 0 → debug_info_switch bam n 13 m tb N
      = [Event.pr_info Message.test_bus_sel_zero]) := by
  constructor
  · intro h
    show (if tb ≠ 0 then _ else _) = _
    rw [if_pos h]
    rfl
  · intro h
    show (if tb ≠ 0 then _ else _) = _
    rw [if_neg (not_not_intro h)]

theorem flatMap_single {α β : Type} (l : List α) (f : α → β) :
    l.flatMap (fun i => [f i]) = l.map f := by
  induction l with
  | nil => rfl
  | cons a l ih => rw [List.flatMap_cons, ih]; rfl

/-- C21 as stated does not hold: on the example device (8 pipes) option code 1
emits the full BAM-level registers before the full registers of the pipes, which
is not the sequence the table assigns to code 1 (full registers of each pipe
only); and option code 13 with a zero test-bus selector emits no action, where
the table's entry alone would give a test-bus action. -/
theorem option_table_code_one_differs :
    dump_actions (new_events ex_world
        (sps_get_bam_debug_info ex_env ex_world 0x1000 1 0 0 0).2)
      = DumpAction.print_bam_reg 0x1000 :: spec_actions 0x1000 8 1 0 0 0 ∧
    dump_actions (new_events ex_world
        (sps_get_bam_debug_info ex_env ex_world 0x1000 1 0 0 0).2)
      ≠ spec_actions 0x1000 8 1 0 0 0 ∧
    dump_actions (new_events ex_world
        (sps_get_bam_debug_info ex_env ex_world 0x1000 13 0 0 0).2) = [] ∧
    spec_actions 0x1000 8 13 0 0 0 = [DumpAction.print_bam_test_bus_reg 0x1000 0] := by
  decide

/-- C21, amended: on a non-zero handle that resolves to a device with `n`
pipes, with the driver ready, for every option code `c` in 1..16 the dump
actions of `sps_get_bam_debug_info` are exactly those the table assigns to `c`
(one content kind over one target) and nothing else, except that code 1 emits
the full BAM-level registers before the full registers of each pipe, and that
code 13 emits its test-bus action only for a non-zero test-bus selector and no
action for a zero one. -/
theorem sps_get_bam_debug_info_table (E : Env) (w : World) (dev : Nat) (drv : sps_drv)
    (c para tb_sel desc_sel : Nat)
    (hd : dev ≠ 0) (hs : w.sps = some drv) (hr : drv.is_ready = true)
    (hb : sps_h2bam E.K w dev ≠ 0) (h1 : 1 ≤ c) (h2 : c ≤ 16) :
    dump_actions (new_events w (sps_get_bam_debug_info E w dev c para tb_sel desc_sel).2) =
      if c = 1 then
        DumpAction.print_bam_reg (sps_h2bam E.K w dev) ::
          spec_actions (sps_h2bam E.K w dev) (w.bam_mem (sps_h2bam E.K w dev)).props.num_pipes
            1 para tb_sel desc_sel
      else if c = 13 ∧ tb_sel = 0 then []
      else
        spec_actions (sps_h2bam E.K w dev) (w.bam_mem (sps_h2bam E.K w dev)).props.num_pipes
          c para tb_sel desc_sel := by
  rw [dump_actions_debug_info E w dev drv c para tb_sel desc_sel hd hs hr hb]
  by_cases hc1 : c = 1
  · rw [if_pos hc1, hc1]
    exact debug_info_switch_one _ _ _ _ _
  rw [if_neg hc1]
  by_cases hc13 : c = 13
  · subst hc13
    by_cases ht : tb_sel = 0
    · rw [if_pos ⟨rfl, ht⟩, (debug_info_switch_thirteen _ _ _ _ _).2 ht]
      rfl
    · rw [if_neg (fun hx => ht hx.2), (debug_info_switch_thirteen _ _ _ _ _).1 ht]
      rfl
  · rw [if_neg (fun hx => hc13 hx.1)]
    exact debug_info_switch_table _ _ c _ _ _ (by omega) h2 hc13

theorem sps_get_bam_debug_info_table_witness :
    dump_actions (new_events ex_world
        (sps_get_bam_debug_info ex_env ex_world 0x1000 11 0x14 0 0).2)
      = [DumpAction.print_bam_pipe_selected_reg 0x1000 2,
          DumpAction.print_bam_pipe_desc_fifo 0x1000 2 0,
          DumpAction.print_bam_pipe_selected_reg 0x1000 4,
          DumpAction.print_bam_pipe_desc_fifo 0x1000 4 0] :=
  (sps_get_bam_debug_info_table ex_env ex_world 0x1000 ⟨true, [0x1000]⟩ 11 0x14 0 0
    (by decide) rfl rfl (by decide) (by decide) (by decide)).trans (by decide)

/-- C22: on a non-zero handle that resolves to a device with `n` pipes, with the
driver ready and a mask `m`, the option codes 5, 8, 11, 14, 15 and 16 act on the
pipes `target_pipes n m BITMASK`, in the order of that list, which holds exactly
the indices below `n` whose bit is set in `m`, each once, in ascending order,
and is empty for `m = 0`; code 14 passes the caller's `desc_sel`, or 1 when
that is 0, to every FIFO action, and code 15 passes 100. -/
theorem sps_get_bam_debug_info_bitmask (E : Env) (w : World) (dev : Nat) (drv : sps_drv)
    (m tb_sel desc_sel : Nat)
    (hd : dev ≠ 0) (hs : w.sps = some drv) (hr : drv.is_ready = true)
    (hb : sps_h2bam E.K w dev ≠ 0) :
    dump_actions (new_events w (sps_get_bam_debug_info E w dev 5 m tb_sel desc_sel).2)
      = (target_pipes (w.bam_mem (sps_h2bam E.K w dev)).props.num_pipes m Target.BITMASK).map
          (fun i => DumpAction.print_bam_pipe_selected_reg (sps_h2bam E.K w dev) i) ∧
    dump_actions (new_events w (sps_get_bam_debug_info E w dev 8 m tb_sel desc_sel).2)
      = (target_pipes (w.bam_mem (sps_h2bam E.K w dev)).props.num_pipes m Target.BITMASK).map
          (fun i => DumpAction.print_bam_pipe_desc_fifo (sps_h2bam E.K w dev) i 0) ∧
    dump_actions (new_events w (sps_get_bam_debug_info E w dev 11 m tb_sel desc_sel).2)
      = (target_pipes (w.bam_mem (sps_h2bam E.K w dev)).props.num_pipes m
          Target.BITMASK).flatMap
          (fun i => [DumpAction.print_bam_pipe_selected_reg (sps_h2bam E.K w dev) i,
            DumpAction.print_bam_pipe_desc_fifo (sps_h2bam E.K w dev) i 0]) ∧
    dump_actions (new_events w (sps_get_bam_debug_info E w dev 14 m tb_sel desc_sel).2)
      = (target_pipes (w.bam_mem (sps_h2bam E.K w dev)).props.num_pipes m Target.BITMASK).map
          (fun i => DumpAction.print_bam_pipe_desc_fifo (sps_h2bam E.K w dev) i
            (if desc_sel = 0 then 1 else desc_sel)) ∧
    dump_actions (new_events w (sps_get_bam_debug_info E w dev 15 m tb_sel desc_sel).2)
      = (target_pipes (w.bam_mem (sps_h2bam E.K w dev)).props.num_pipes m Target.BITMASK).map
          (fun i => DumpAction.print_bam_pipe_desc_fifo (sps_h2bam E.K w dev) i 100) ∧
    dump_actions (new_events w (sps_get_bam_debug_info E w dev 16 m tb_sel desc_sel).2)
      = (target_pipes (w.bam_mem (sps_h2bam E.K w dev)).props.num_pipes m Target.BITMASK).map
          (fun i => DumpAction.print_bam_pipe_reg (sps_h2bam E.K w dev) i) ∧
    (∀ n i, i ∈ target_pipes n m Target.BITMASK ↔ i < n ∧ m.testBit i = true) ∧
    (∀ n, (target_pipes n m Target.BITMASK).Pairwise (fun i j => i < j)) ∧
    (∀ n, target_pipes n 0 Target.BITMASK = []) := by
  have key : ∀ c, 2 ≤ c → c ≤ 16 → c ≠ 13 →
      dump_actions (new_events w (sps_get_bam_debug_info E w dev c m tb_sel desc_sel).2)
        = spec_actions (sps_h2bam E.K w dev)
            (w.bam_mem (sps_h2bam E.K w dev)).props.num_pipes c m tb_sel desc_sel := by
    intro c h1 h2 h3
    rw [dump_actions_debug_info E w dev drv c m tb_sel desc_sel hd hs hr hb]
    exact debug_info_switch_table _ _ c _ _ _ h1 h2 h3
  refine ⟨?_, ?_, ?_, ?_, ?_, ?_, ?_, ?_, ?_⟩
  · rw [key 5 (by decide) (by decide) (by decide), ← flatMap_single]; rfl
  · rw [key 8 (by decide) (by decide) (by decide), ← flatMap_single]; rfl
  · rw [key 11 (by decide) (by decide) (by decide)]; rfl
  · rw [key 14 (by decide) (by decide) (by decide), ← flatMap_single]; rfl
  · rw [key 15 (by decide) (by decide) (by decide), ← flatMap_single]; rfl
  · rw [key 16 (by decide) (by decide) (by decide), ← flatMap_single]; rfl
  · intro n i
    simp [target_pipes]
  · intro n
    exact List.Pairwise.filter _ (List.pairwise_lt_range n)
  · intro n
    simp [target_pipes]

theorem sps_get_bam_debug_info_bitmask_witness :
    dump_actions (new_events ex_world
        (sps_get_bam_debug_info ex_env ex_world 0x1000 14 0x108 0 0).2)
      = [DumpAction.print_bam_pipe_desc_fifo 0x1000 3 1] :=
  ((sps_get_bam_debug_info_bitmask ex_env ex_world 0x1000 ⟨true, [0x1000]⟩ 0x108 0 0
    (by decide) rfl rfl (by decide)).2.2.2.1).trans (by decide)

/-! ### Combination codes 93 to 98 (C28) -/

/-- The two output orderings over the mask-selected pipes `P`, after the
test-bus and the BAM-level selected-register actions: format 1 with all
register actions before the FIFO passes, format 2 interleaved per pipe. -/
theorem debug_info_switch_formats (bam : Ptr) (n m tb N : Nat) :
    dump_actions (debug_info_switch bam n 93 m tb N) =
      [DumpAction.print_bam_test_bus_reg bam tb, DumpAction.print_bam_selected_reg bam] ++
        (target_pipes n m Target.BITMASK).flatMap
          (fun i => [DumpAction.print_bam_pipe_selected_reg bam i]) ++
        (target_pipes n m Target.BITMASK).flatMap
          (fun i => [DumpAction.print_bam_pipe_desc_fifo bam i (if N = 0 then 1 else N)]) ∧
    dump_actions (debug_info_switch bam n 94 m tb N) =
      [DumpAction.print_bam_test_bus_reg bam tb, DumpAction.print_bam_selected_reg bam] ++
        (target_pipes n m Target.BITMASK).flatMap
          (fun i => [DumpAction.print_bam_pipe_selected_reg bam i] ++
            [DumpAction.print_bam_pipe_desc_fifo bam i (if N = 0 then 1 else N)]) ∧
    dump_actions (debug_info_switch bam n 95 m tb N) =
      [DumpAction.print_bam_test_bus_reg bam tb, DumpAction.print_bam_selected_reg bam] ++
        (target_pipes n m Target.BITMASK).flatMap
          (fun i => [DumpAction.print_bam_pipe_selected_reg bam i]) ++
        (target_pipes n m Target.BITMASK).flatMap
          (fun i => [DumpAction.print_bam_pipe_desc_fifo bam i 0]) ∧
    dump_actions (debug_info_switch bam n 96 m tb N) =
      [DumpAction.print_bam_test_bus_reg bam tb, DumpAction.print_bam_selected_reg bam] ++
        (target_pipes n m Target.BITMASK).flatMap
          (fun i => [DumpAction.print_bam_pipe_selected_reg bam i] ++
            [DumpAction.print_bam_pipe_desc_fifo bam i 0]) ∧
    dump_actions (debug_info_switch bam n 97 m tb N) =
      [DumpAction.print_bam_test_bus_reg bam tb, DumpAction.print_bam_selected_reg bam] ++
        (target_pipes n m Target.BITMASK).flatMap
          (fun i => [DumpAction.print_bam_pipe_selected_reg bam i]) ++
        (target_pipes n m Target.BITMASK).flatMap
          (fun i => [DumpAction.print_bam_pipe_desc_fifo bam i 0]) ++
        (target_pipes n m Target.BITMASK).flatMap
          (fun i => [DumpAction.print_bam_pipe_desc_fifo bam i 100]) ∧
    dump_actions (debug_info_switch bam n 98 m tb N) =
      [DumpAction.print_bam_test_bus_reg bam tb, DumpAction.print_bam_selected_reg bam] ++
        (target_pipes n m Target.BITMASK).flatMap
          (fun i => [DumpAction.print_bam_pipe_selected_reg bam i] ++
            [DumpAction.print_bam_pipe_desc_fifo bam i 0] ++
            [DumpAction.print_bam_pipe_desc_fifo bam i 100]) := by
  refine ⟨?_, ?_, ?_, ?_, ?_, ?_⟩
  · show dump_actions (emit (_ ++ pipe_loop (selected m _) 0 n ++
      pipe_loop (selected m _) 0 n)) = _
    rw [dump_actions_emit, pipe_loop_mask, pipe_loop_mask]
    rfl
  · show dump_actions (emit (_ ++ pipe_loop (selected m _) 0 n)) = _
    rw [dump_actions_emit, pipe_loop_mask]
    rfl
  · show dump_actions (emit (_ ++ pipe_loop (selected m _) 0 n ++
      pipe_loop (selected m _) 0 n)) = _
    rw [dump_actions_emit, pipe_loop_mask, pipe_loop_mask]
    rfl
  · show dump_actions (emit (_ ++ pipe_loop (selected m _) 0 n)) = _
    rw [dump_actions_emit, pipe_loop_mask]
    rfl
  · show dump_actions (emit (_ ++ pipe_loop (selected m _) 0 n ++
      pipe_loop (selected m _) 0 n ++ pipe_loop (selected m _) 0 n)) = _
    rw [dump_actions_emit, pipe_loop_mask, pipe_loop_mask, pipe_loop_mask]
    rfl
  · show dump_actions (emit (_ ++ pipe_loop (selected m _) 0 n)) = _
    rw [dump_actions_emit, pipe_loop_mask]
    rfl

/-- C28: on a non-zero handle that resolves to a device with `n` pipes, with the
driver ready, over the mask-selected pipes `P = target_pipes n m BITMASK` (in
ascending order): the codes 93, 95 and 97 emit the test-bus action, the
BAM-level selected registers, then the selected registers of every pipe of `P`
and only then the FIFO actions of every pipe of `P` (for 97 the FIFO pass and
then the trailing-content pass); the codes 94, 96 and 98 emit the same two
leading actions and then, pipe by pipe in the order of `P`, the selected
registers followed by the FIFO actions of that pipe; and the outputs of 93 and
94, of 95 and 96, and of 97 and 98 are permutations of each other. -/
theorem sps_get_bam_debug_info_formats (E : Env) (w : World) (dev : Nat) (drv : sps_drv)
    (m tb_sel desc_sel : Nat)
    (hd : dev ≠ 0) (hs : w.sps = some drv) (hr : drv.is_ready = true)
    (hb : sps_h2bam E.K w dev ≠ 0) :
    dump_actions (new_events w (sps_get_bam_debug_info E w dev 93 m tb_sel desc_sel).2) =
      [DumpAction.print_bam_test_bus_reg (sps_h2bam E.K w dev) tb_sel,
        DumpAction.print_bam_selected_reg (sps_h2bam E.K w dev)] ++
      (target_pipes (w.bam_mem (sps_h2bam E.K w dev)).props.num_pipes m Target.BITMASK).map
        (fun i => DumpAction.print_bam_pipe_selected_reg (sps_h2bam E.K w dev) i) ++
      (target_pipes (w.bam_mem (sps_h2bam E.K w dev)).props.num_pipes m Target.BITMASK).map
        (fun i => DumpAction.print_bam_pipe_desc_fifo (sps_h2bam E.K w dev) i
          (if desc_sel = 0 then 1 else desc_sel)) ∧
    dump_actions (new_events w (sps_get_bam_debug_info E w dev 94 m tb_sel desc_sel).2) =
      [DumpAction.print_bam_test_bus_reg (sps_h2bam E.K w dev) tb_sel,
        DumpAction.print_bam_selected_reg (sps_h2bam E.K w dev)] ++
      (target_pipes (w.bam_mem (sps_h2bam E.K w dev)).props.num_pipes m
        Target.BITMASK).flatMap
        (fun i => [DumpAction.print_bam_pipe_selected_reg (sps_h2bam E.K w dev) i,
          DumpAction.print_bam_pipe_desc_fifo (sps_h2bam E.K w dev) i
            (if desc_sel = 0 then 1 else desc_sel)]) ∧
    dump_actions (new_events w (sps_get_bam_debug_info E w dev 95 m tb_sel desc_sel).2) =
      [DumpAction.print_bam_test_bus_reg (sps_h2bam E.K w dev) tb_sel,
        DumpAction.print_bam_selected_reg (sps_h2bam E.K w dev)] ++
      (target_pipes (w.bam_mem (sps_h2bam E.K w dev)).props.num_pipes m Target.BITMASK).map
        (fun i => DumpAction.print_bam_pipe_selected_reg (sps_h2bam E.K w dev) i) ++
      (target_pipes (w.bam_mem (sps_h2bam E.K w dev)).props.num_pipes m Target.BITMASK).map
        (fun i => DumpAction.print_bam_pipe_desc_fifo (sps_h2bam E.K w dev) i 0) ∧
    dump_actions (new_events w (sps_get_bam_debug_info E w dev 96 m tb_sel desc_sel).2) =
      [DumpAction.print_bam_test_bus_reg (sps_h2bam E.K w dev) tb_sel,
        DumpAction.print_bam_selected_reg (sps_h2bam E.K w dev)] ++
      (target_pipes (w.bam_mem (sps_h2bam E.K w dev)).props.num_pipes m
        Target.BITMASK).flatMap
        (fun i => [DumpAction.print_bam_pipe_selected_reg (sps_h2bam E.K w dev) i,
          DumpAction.print_bam_pipe_desc_fifo (sps_h2bam E.K w dev) i 0]) ∧
    dump_actions (new_events w (sps_get_bam_debug_info E w dev 97 m tb_sel desc_sel).2) =
      [DumpAction.print_bam_test_bus_reg (sps_h2bam E.K w dev) tb_sel,
        DumpAction.print_bam_selected_reg (sps_h2bam E.K w dev)] ++
      (target_pipes (w.bam_mem (sps_h2bam E.K w dev)).props.num_pipes m Target.BITMASK).map
        (fun i => DumpAction.print_bam_pipe_selected_reg (sps_h2bam E.K w dev) i) ++
      (target_pipes (w.bam_mem (sps_h2bam E.K w dev)).props.num_pipes m Target.BITMASK).map
        (fun i => DumpAction.print_bam_pipe_desc_fifo (sps_h2bam E.K w dev) i 0) ++
      (target_pipes (w.bam_mem (sps_h2bam E.K w dev)).props.num_pipes m Target.BITMASK).map
        (fun i => DumpAction.print_bam_pipe_desc_fifo (sps_h2bam E.K w dev) i 100) ∧
    dump_actions (new_events w (sps_get_bam_debug_info E w dev 98 m tb_sel desc_sel).2) =
      [DumpAction.print_bam_test_bus_reg (sps_h2bam E.K w dev) tb_sel,
        DumpAction.print_bam_selected_reg (sps_h2bam E.K w dev)] ++
      (target_pipes (w.bam_mem (sps_h2bam E.K w dev)).props.num_pipes m
        Target.BITMASK).flatMap
        (fun i => [DumpAction.print_bam_pipe_selected_reg (sps_h2bam E.K w dev) i,
          DumpAction.print_bam_pipe_desc_fifo (sps_h2bam E.K w dev) i 0,
          DumpAction.print_bam_pipe_desc_fifo (sps_h2bam E.K w dev) i 100]) ∧
    (dump_actions (new_events w (sps_get_bam_debug_info E w dev 93 m tb_sel desc_sel).2)).Perm
      (dump_actions (new_events w (sps_get_bam_debug_info E w dev 94 m tb_sel desc_sel).2)) ∧
    (dump_actions (new_events w (sps_get_bam_debug_info E w dev 95 m tb_sel desc_sel).2)).Perm
      (dump_actions (new_events w (sps_get_bam_debug_info E w dev 96 m tb_sel desc_sel).2)) ∧
    (dump_actions (new_events w (sps_get_bam_debug_info E w dev 97 m tb_sel desc_sel).2)).Perm
      (dump_actions
        (new_events w (sps_get_bam_debug_info E w dev 98 m tb_sel desc_sel).2)) := by
  obtain ⟨f93, f94, f95, f96, f97, f98⟩ := debug_info_switch_formats (sps_h2bam E.K w dev)
    (w.bam_mem (sps_h2bam E.K w dev)).props.num_pipes m tb_sel desc_sel
  have key : ∀ c,
      dump_actions (new_events w (sps_get_bam_debug_info E w dev c m tb_sel desc_sel).2)
        = dump_actions (debug_info_switch (sps_h2bam E.K w dev)
            (w.bam_mem (sps_h2bam E.K w dev)).props.num_pipes c m tb_sel desc_sel) :=
    fun c => dump_actions_debug_info E w dev drv c m tb_sel desc_sel hd hs hr hb
  rw [key 93, key 94, key 95, key 96, key 97, key 98, f93, f94, f95, f96, f97, f98]
  refine ⟨?_, rfl, ?_, rfl, ?_, rfl, ?_, ?_, ?_⟩
  · rw [flatMap_single, flatMap_single]
  · rw [flatMap_single, flatMap_single]
  · rw [flatMap_single, flatMap_single, flatMap_single]
  · rw [List.append_assoc]
    exact List.Perm.append_left _ (List.flatMap_append_perm _ _ _)
  · rw [List.append_assoc]
    exact List.Perm.append_left _ (List.flatMap_append_perm _ _ _)
  · rw [List.append_assoc, List.append_assoc]
    apply List.Perm.append_left
    rw [← List.append_assoc]
    exact (List.Perm.append_right _ (List.flatMap_append_perm _ _ _)).trans
      (List.flatMap_append_perm _ _ _)

theorem sps_get_bam_debug_info_formats_witness :
    dump_actions (new_events ex_world
        (sps_get_bam_debug_info ex_env ex_world 0x1000 94 0xc 2 0).2)
      = [DumpAction.print_bam_test_bus_reg 0x1000 2, DumpAction.print_bam_selected_reg 0x1000,
          DumpAction.print_bam_pipe_selected_reg 0x1000 2,
          DumpAction.print_bam_pipe_desc_fifo 0x1000 2 1,
          DumpAction.print_bam_pipe_selected_reg 0x1000 3,
          DumpAction.print_bam_pipe_desc_fifo 0x1000 3 1] :=
  ((sps_get_bam_debug_info_formats ex_env ex_world 0x1000 ⟨true, [0x1000]⟩ 0xc 2 0
    (by decide) rfl rfl (by decide)).2.1).trans (by decide)

/-! ### Test-bus dumps (C24) and the two selectors (C23) -/

theorem debugfs_switch_default (bam : Ptr)
    (num_pipes reg_dump_option bam_pipe_sel testbus_sel desc_option : Nat)
    (h1 : ¬ (1 ≤ reg_dump_option ∧ reg_dump_option ≤ 16))
    (h2 : ¬ (91 ≤ reg_dump_option ∧ reg_dump_option ≤ 99)) :
    debugfs_switch bam num_pipes reg_dump_option bam_pipe_sel testbus_sel desc_option =
      [Event.pr_info Message.no_dump_option_chosen] := by
  unfold debugfs_switch
  rw [if_neg (show ¬ reg_dump_option = 1 by omega), if_neg (show ¬ reg_dump_option = 2 by omega)]
  rw [if_neg (show ¬ reg_dump_option = 3 by omega), if_neg (show ¬ reg_dump_option = 4 by omega)]
  rw [if_neg (show ¬ reg_dump_option = 5 by omega), if_neg (show ¬ reg_dump_option = 6 by omega)]
  rw [if_neg (show ¬ reg_dump_option = 7 by omega), if_neg (show ¬ reg_dump_option = 8 by omega)]
  rw [if_neg (show ¬ reg_dump_option = 9 by omega), if_neg (show ¬ reg_dump_option = 10 by omega)]
  rw [if_neg (show ¬ reg_dump_option = 11 by omega), if_neg (show ¬ reg_dump_option = 12 by omega)]
  rw [if_neg (show ¬ reg_dump_option = 13 by omega), if_neg (show ¬ reg_dump_option = 14 by omega)]
  rw [if_neg (show ¬ reg_dump_option = 15 by omega), if_neg (show ¬ reg_dump_option = 16 by omega)]
  rw [if_neg (show ¬ reg_dump_option = 91 by omega), if_neg (show ¬ reg_dump_option = 92 by omega)]
  rw [if_neg (show ¬ reg_dump_option = 93 by omega), if_neg (show ¬ reg_dump_option = 94 by omega)]
  rw [if_neg (show ¬ reg_dump_option = 95 by omega), if_neg (show ¬ reg_dump_option = 96 by omega)]
  rw [if_neg (show ¬ reg_dump_option = 97 by omega), if_neg (show ¬ reg_dump_option = 98 by omega)]
  rw [if_neg (show ¬ reg_dump_option = 99 by omega)]

/-- The combination codes 91 to 99 start with the test-bus action, whatever the
selector. -/
theorem debug_info_switch_combo_head (bam : Ptr) (n c m tb N : Nat)
    (h1 : 91 ≤ c) (h2 : c ≤ 99) :
    (dump_actions (debug_info_switch bam n c m tb N)).head?
      = some (DumpAction.print_bam_test_bus_reg bam tb) := by
  interval_cases c <;> rfl

theorem content_pipe_no_test_bus (bam : Ptr) (N i : Nat) (k : Content) :
    ∀ a ∈ content_pipe bam N i k, is_test_bus a = false := by
  cases k <;> simp [content_pipe, is_test_bus]

theorem spec_actions_no_test_bus (bam : Ptr) (n c m tb N : Nat) (h13 : c ≠ 13) :
    ∀ a ∈ spec_actions bam n c m tb N, is_test_bus a = false := by
  by_cases hc : 1 ≤ c ∧ c ≤ 16
  · obtain ⟨h1, h2⟩ := hc
    intro a ha
    interval_cases c <;>
      first
      | exact absurd rfl h13
      | (simp only [spec_actions, spec_option_table, List.mem_flatMap] at ha
         obtain ⟨i, _, hi⟩ := ha
         exact content_pipe_no_test_bus bam N i _ a hi)
      | (simp [spec_actions, spec_option_table, content_bam] at ha
         subst ha
         rfl)
  · intro a ha
    have hn : spec_option_table c = none := by
      unfold spec_option_table
      split <;> first | rfl | omega
    simp [spec_actions, hn] at ha

/-- C24 as stated does not hold: on the example device option code 91 with a
zero test-bus selector emits a test-bus dump action, with selector 0. -/
theorem test_bus_dump_with_zero_selector :
    (dump_actions (new_events ex_world
        (sps_get_bam_debug_info ex_env ex_world 0x1000 91 0xc 0 0).2)).head?
      = some (DumpAction.print_bam_test_bus_reg 0x1000 0) := by
  decide

/-- C24, amended: on a non-zero handle that resolves, with the driver ready:
option code 13 emits its test-bus dump action only when the test-bus selector
is non-zero, and with a zero selector it reports this by `pr_info` and emits no
action; the combination codes 91 to 99 emit the test-bus dump action first,
with the caller's selector whatever its value, zero included; every other
option code emits no test-bus dump action. -/
theorem sps_get_bam_debug_info_test_bus (E : Env) (w : World) (dev : Nat) (drv : sps_drv)
    (c m tb_sel desc_sel : Nat)
    (hd : dev ≠ 0) (hs : w.sps = some drv) (hr : drv.is_ready = true)
    (hb : sps_h2bam E.K w dev ≠ 0) :
    (c = 13 → tb_sel ≠ 0 →
      dump_actions (new_events w (sps_get_bam_debug_info E w dev c m tb_sel desc_sel).2)
        = [DumpAction.print_bam_test_bus_reg (sps_h2bam E.K w dev) tb_sel]) ∧
    (c = 13 → tb_sel = 0 →
      dump_actions (new_events w (sps_get_bam_debug_info E w dev c m tb_sel desc_sel).2)
        = [] ∧
      new_events w (sps_get_bam_debug_info E w dev c m tb_sel desc_sel).2
        = [Event.mutex_lock LockId.sps, Event.mutex_unlock LockId.sps,
            Event.pr_info Message.test_bus_sel_zero]) ∧
    (91 ≤ c → c ≤ 99 →
      (dump_actions
          (new_events w (sps_get_bam_debug_info E w dev c m tb_sel desc_sel).2)).head?
        = some (DumpAction.print_bam_test_bus_reg (sps_h2bam E.K w dev) tb_sel)) ∧
    (c ≠ 13 → ¬ (91 ≤ c ∧ c ≤ 99) →
      ∀ a ∈ dump_actions
          (new_events w (sps_get_bam_debug_info E w dev c m tb_sel desc_sel).2),
        is_test_bus a = false) := by
  have key := dump_actions_debug_info E w dev drv c m tb_sel desc_sel hd hs hr hb
  have ev := (sps_get_bam_debug_info_ok E w dev drv c m tb_sel desc_sel hd hs hr hb).2
  refine ⟨?_, ?_, ?_, ?_⟩
  · intro hc ht
    rw [key, hc, (debug_info_switch_thirteen _ _ _ _ _).1 ht]
    rfl
  · intro hc ht
    rw [key, ev, hc, (debug_info_switch_thirteen _ _ _ _ _).2 ht]
    exact ⟨rfl, rfl⟩
  · intro h1 h2
    rw [key]
    exact debug_info_switch_combo_head _ _ c _ _ _ h1 h2
  · intro h13 h9 a ha
    rw [key] at ha
    by_cases hc1 : c = 1
    · rw [hc1, debug_info_switch_one] at ha
      rcases List.mem_cons.mp ha with ha | ha
      · rw [ha]; rfl
      · exact spec_actions_no_test_bus _ _ 1 _ _ _ (by decide) a ha
    by_cases hc : 1 ≤ c ∧ c ≤ 16
    · rw [debug_info_switch_table _ _ c _ _ _ (by omega) hc.2 h13] at ha
      exact spec_actions_no_test_bus _ _ c _ _ _ h13 a ha
    · rw [debug_info_switch_default _ _ c _ _ _ hc h9] at ha
      simp [dump_actions] at ha

theorem sps_get_bam_debug_info_test_bus_witness :
    dump_actions (new_events ex_world
        (sps_get_bam_debug_info ex_env ex_world 0x1000 13 0xc 0 0).2) = [] :=
  ((sps_get_bam_debug_info_test_bus ex_env ex_world 0x1000 ⟨true, [0x1000]⟩ 13 0xc 0 0
    (by decide) rfl rfl (by decide)).2.1 rfl rfl).1

/-- The dump actions of the two switches are the same, except for option 13
with a zero test-bus selector. -/
theorem debugfs_switch_eq (bam : Ptr) (n c m tb N : Nat) (hx : c ≠ 13 ∨ tb ≠ 0) :
    dump_actions (debugfs_switch bam n c m tb N)
      = dump_actions (debug_info_switch bam n c m tb N) := by
  by_cases h13 : c = 13
  · subst h13
    have ht : tb ≠ 0 := by
      rcases hx with hx | hx
      · exact absurd rfl hx
      · exact hx
    rw [(debug_info_switch_thirteen _ _ _ _ _).1 ht]
    show dump_actions (if tb ≠ 0 then _ else _) = _
    rw [if_pos ht]
    rfl
  by_cases h1 : 1 ≤ c ∧ c ≤ 16
  · obtain ⟨a, b⟩ := h1
    interval_cases c <;> first | rfl | exact absurd rfl h13
  by_cases h2 : 91 ≤ c ∧ c ≤ 99
  · obtain ⟨a, b⟩ := h2
    interval_cases c <;> rfl
  rw [debugfs_switch_default _ _ _ _ _ _ h1 h2, debug_info_switch_default _ _ _ _ _ _ h1 h2]
  rfl

/-- The events of a run of `sps_set_bam_addr` whose text was copied and whose
address is registered. -/
theorem sps_set_bam_addr_ok (K : Consts) (w : World) (d : debugfs_vars) (str : List Nat)
    (count : Nat) (drv : sps_drv) (hs : w.sps = some drv)
    (hb : phy2bam w drv (parse_decimal 0 str) ≠ 0) :
    new_events w (sps_set_bam_addr K w d 0 str count).2.2 =
      debugfs_switch (phy2bam w drv (parse_decimal 0 str))
        (w.bam_mem (phy2bam w drv (parse_decimal 0 str))).props.num_pipes
        d.reg_dump_option d.bam_pipe_sel d.testbus_sel d.desc_option := by
  unfold sps_set_bam_addr
  rw [if_neg (by decide)]
  simp only [hs]
  rw [if_neg hb]
  apply new_events_append
  dsimp only
  split_ifs <;> rfl

/-- C23 as stated does not hold: on the example device, with option code 13 and
a zero test-bus selector, the debugfs selector emits a test-bus dump action
with selector 0 and the programmatic selector emits no dump action. -/
theorem selectors_differ_on_zero_test_bus :
    dump_actions (new_events ex_world
        (sps_set_bam_addr ex_env.K ex_world (ex_debugfs 13 0) 0 ex_bam_addr_text 10).2.2)
      = [DumpAction.print_bam_test_bus_reg 0x1000 0] ∧
    dump_actions (new_events ex_world
        (sps_get_bam_debug_info ex_env ex_world 0x1000 13 0xc 0 0).2) = [] := by
  decide

/-- C23, amended: when the text written to the debugfs file is copied and names
the physical address of the registered device that the handle `dev` resolves
to, with the driver ready, `sps_set_bam_addr` driven by the globals
`reg_dump_option`, `bam_pipe_sel`, `testbus_sel`, `desc_option` and
`sps_get_bam_debug_info` called with the same four values emit the same ordered
sequence of dump actions with the same arguments, for every input except
option code 13 with a zero test-bus selector; there the debugfs selector emits
the test-bus dump with selector 0 and the programmatic selector emits no dump
action. -/
theorem selectors_agree (E : Env) (w : World) (drv : sps_drv) (dev : Nat) (d : debugfs_vars)
    (str : List Nat) (count : Nat)
    (hd : dev ≠ 0) (hs : w.sps = some drv) (hr : drv.is_ready = true)
    (hb : sps_h2bam E.K w dev ≠ 0)
    (hp : phy2bam w drv (parse_decimal 0 str) = sps_h2bam E.K w dev) :
    (d.reg_dump_option ≠ 13 ∨ d.testbus_sel ≠ 0 →
      dump_actions (new_events w (sps_set_bam_addr E.K w d 0 str count).2.2)
        = dump_actions (new_events w
            (sps_get_bam_debug_info E w dev d.reg_dump_option d.bam_pipe_sel d.testbus_sel
              d.desc_option).2)) ∧
    (d.reg_dump_option = 13 → d.testbus_sel = 0 →
      dump_actions (new_events w (sps_set_bam_addr E.K w d 0 str count).2.2)
        = [DumpAction.print_bam_test_bus_reg (sps_h2bam E.K w dev) 0] ∧
      dump_actions (new_events w
          (sps_get_bam_debug_info E w dev d.reg_dump_option d.bam_pipe_sel d.testbus_sel
            d.desc_option).2) = []) := by
  have hb2 : phy2bam w drv (parse_decimal 0 str) ≠ 0 := by rw [hp]; exact hb
  have e1 := sps_set_bam_addr_ok E.K w d str count drv hs hb2
  rw [hp] at e1
  have e2 := dump_actions_debug_info E w dev drv d.reg_dump_option d.bam_pipe_sel
    d.testbus_sel d.desc_option hd hs hr hb
  constructor
  · intro hx
    rw [e1, e2]
    exact debugfs_switch_eq _ _ _ _ _ _ hx
  · intro h13 ht
    rw [e1, e2, h13, ht, (debug_info_switch_thirteen _ _ _ _ _).2 rfl]
    exact ⟨rfl, rfl⟩

theorem selectors_agree_witness :
    dump_actions (new_events ex_world
        (sps_set_bam_addr ex_env.K ex_world (ex_debugfs 94 0) 0 ex_bam_addr_text 10).2.2)
      = dump_actions (new_events ex_world
          (sps_get_bam_debug_info ex_env ex_world 0x1000 94 0xc 0 0).2) :=
  (selectors_agree ex_env ex_world ⟨true, [0x1000]⟩ 0x1000 (ex_debugfs 94 0)
    ex_bam_addr_text 10 (by decide) rfl rfl (by decide) (by decide)).1 (Or.inl (by decide))

/-! ### Single transfers (C25) -/

set_option maxRecDepth 100000 in
/-- C26: the code at the failing input.  Deregistering the example device that
retains its memory and holds a descriptor-cache buffer at `0x9000` succeeds,
and the buffer is freed first, before the global mutex is taken for the removal
from the registry: after the loop that frees the buffers the handle still
resolves. -/
theorem sps_deregister_bam_device_frees_cache_first :
    (sps_deregister_bam_device ex_env ex_world_hold 0x1000).1 = 0 ∧
    new_events ex_world_hold (sps_deregister_bam_device ex_env ex_world_hold 0x1000).2 =
      [Event.kfree 0x9000,
        Event.mutex_lock LockId.sps, Event.mutex_unlock LockId.sps,
        Event.mutex_lock (LockId.bam 0x1000), Event.sps_bam_device_de_init 0x1000,
        Event.mutex_unlock (LockId.bam 0x1000),
        Event.ipc_log_context_destroy 0, Event.ipc_log_context_destroy 0,
        Event.ipc_log_context_destroy 0, Event.ipc_log_context_destroy 0,
        Event.ipc_log_context_destroy 0,
        Event.iounmap 0x5000, Event.kfree 0x1000] ∧
    new_events ex_world_hold (free_desc_cache 0x1000 0 ex_env.K.BAM_MAX_PIPES ex_world_hold)
      = [Event.kfree 0x9000] ∧
    sps_h2bam ex_env.K (free_desc_cache 0x1000 0 ex_env.K.BAM_MAX_PIPES ex_world_hold) 0x1000
      = 0x1000 ∧
    sps_h2bam ex_env.K (sps_deregister_bam_device ex_env ex_world_hold 0x1000).2 0x1000
      = 0 := by
  decide

/-- C27: the code at the failing input.  A device registered with a virtual
address supplied by the caller (`0x7000`) is registered without any `ioremap`,
and deregistering it calls `iounmap` on the caller's address. -/
theorem sps_deregister_bam_device_unmaps_caller_mapping :
    (sps_register_bam_device ex_env ex_world (some ex_props_mapped) (some 0)).1 = 0 ∧
    (sps_register_bam_device ex_env ex_world (some ex_props_mapped) (some 0)).2.1
      = some 0x2000 ∧
    Event.ioremap 0xf9100000 0x1000 0x5000 ∉
      new_events ex_world
        (sps_register_bam_device ex_env ex_world (some ex_props_mapped) (some 0)).2.2 ∧
    (sps_deregister_bam_device ex_env
      (sps_register_bam_device ex_env ex_world (some ex_props_mapped) (some 0)).2.2
      0x2000).1 = 0 ∧
    Event.iounmap 0x7000 ∈
      new_events
        (sps_register_bam_device ex_env ex_world (some ex_props_mapped) (some 0)).2.2
        (sps_deregister_bam_device ex_env
          (sps_register_bam_device ex_env ex_world (some ex_props_mapped) (some 0)).2.2
          0x2000).2 := by
  decide

/-! ### Pipe memory bounds (C29) -/

/-- C29: the code at the failing input.  With a pipe memory of `0x8000` bytes at
`0x10000`, the `u32` arguments `addr = 0xfffffff0` and `size = 0x20`, whose sum
wraps to `0x10`, are accepted both as an offset and as an absolute address, and
the resulting buffer does not lie inside the pipe memory. -/
theorem sps_setup_bam2bam_fifo_wraps :
    (sps_setup_bam2bam_fifo ex_env ex_world_pipemem (some ⟨0, 0, 0⟩) 0xfffffff0 0x20 1).1 = 0 ∧
    (sps_setup_bam2bam_fifo ex_env ex_world_pipemem (some ⟨0, 0, 0⟩) 0xfffffff0 0x20 1).2.1
      = some ⟨0x10000 + 0xfffffff0, 0x10000 + 0xfffffff0, 0x20⟩ ∧
    ¬ (0x10000 + 0xfffffff0 + 0x20 ≤
      ex_world_pipemem.pipemem_phys_base + ex_world_pipemem.pipemem_size) ∧
    (sps_setup_bam2bam_fifo ex_env ex_world_pipemem (some ⟨0, 0, 0⟩) 0xfffffff0 0x20 0).1 = 0 ∧
    (sps_setup_bam2bam_fifo ex_env ex_world_pipemem (some ⟨0, 0, 0⟩) 0xfffffff0 0x20 0).2.1
      = some ⟨0xfffffff0, 0xfffffff0, 0x20⟩ ∧
    ¬ (0xfffffff0 + 0x20 ≤
      ex_world_pipemem.pipemem_phys_base + ex_world_pipemem.pipemem_size) := by
  decide

/-! ### Raw pipe operations (C30) -/

/-- C30 as stated does not hold: on the example device, which has 8 pipes, the
raw pipe operations with the pipe index 8 pass the index check (against
`BAM_MAX_PIPES`) and call the engine on pipe 8. -/
theorem raw_pipe_ops_beyond_capacity :
    (ex_world.bam_mem (sps_h2bam ex_env.K ex_world 0x1000)).props.num_pipes = 8 ∧
    sps_pipe_reset ex_env ex_world 0x1000 8
      = (0, ex_world.log (Event.bam_pipe_reset 0x1000 8)) ∧
    sps_pipe_disable ex_env ex_world 0x1000 8
      = (0, ex_world.log (Event.bam_disable_pipe 0x1000 8)) ∧
    sps_pipe_pending_desc ex_env ex_world 0x1000 8 (some true)
      = (0, some false, ex_world.log (Event.sps_bam_pipe_pending_desc 0x1000 8 false)) ∧
    sps_pipe_inject_zlt ex_env ex_world 0x1000 8
      = (0, ex_world.log (Event.sps_bam_pipe_inject_zlt 0x1000 8 0)) := by
  refine ⟨by decide, rfl, rfl, rfl, rfl⟩

/-- C30, amended: the raw pipe operations check the pipe index against the fixed
maximum `BAM_MAX_PIPES`, not against the capacity of the device: for every
index at or beyond `BAM_MAX_PIPES` they return `SPS_ERROR` with the state
untouched, so the engine is not called; for every index below `BAM_MAX_PIPES`,
on a non-zero handle that resolves (and a non-null `pending`), they call the
engine on that index, whatever the device's `num_pipes`. -/
theorem raw_pipe_ops_index_check (E : Env) (w : World) (dev pipe : Nat) :
    (pipe ≥ E.K.BAM_MAX_PIPES →
      sps_pipe_reset E w dev pipe = (E.K.SPS_ERROR, w) ∧
      sps_pipe_disable E w dev pipe = (E.K.SPS_ERROR, w) ∧
      (∀ pending, sps_pipe_pending_desc E w dev pipe pending = (E.K.SPS_ERROR, pending, w)) ∧
      sps_pipe_inject_zlt E w dev pipe = (E.K.SPS_ERROR, w)) ∧
    (dev ≠ 0 → sps_h2bam E.K w dev ≠ 0 → pipe < E.K.BAM_MAX_PIPES →
      sps_pipe_reset E w dev pipe
        = (0, w.log (Event.bam_pipe_reset (sps_h2bam E.K w dev) pipe)) ∧
      sps_pipe_disable E w dev pipe
        = (0, w.log (Event.bam_disable_pipe (sps_h2bam E.K w dev) pipe)) ∧
      (∀ old, sps_pipe_pending_desc E w dev pipe (some old)
        = (0, some (E.sps_bam_pipe_pending_desc w (sps_h2bam E.K w dev) pipe),
            w.log (Event.sps_bam_pipe_pending_desc (sps_h2bam E.K w dev) pipe
              (E.sps_bam_pipe_pending_desc w (sps_h2bam E.K w dev) pipe)))) ∧
      sps_pipe_inject_zlt E w dev pipe
        = (E.sps_bam_pipe_inject_zlt w (sps_h2bam E.K w dev) pipe,
            w.log (Event.sps_bam_pipe_inject_zlt (sps_h2bam E.K w dev) pipe
              (E.sps_bam_pipe_inject_zlt w (sps_h2bam E.K w dev) pipe)))) := by
  constructor
  · intro hp
    refine ⟨?_, ?_, ?_, ?_⟩
    · unfold sps_pipe_reset
      by_cases hd : dev = 0
      · rw [if_pos hd]
      · rw [if_neg hd, if_pos hp]
    · unfold sps_pipe_disable
      by_cases hd : dev = 0
      · rw [if_pos hd]
      · rw [if_neg hd, if_pos hp]
    · intro pending
      unfold sps_pipe_pending_desc
      by_cases hd : dev = 0
      · rw [if_pos hd]
      · rw [if_neg hd, if_pos hp]
    · unfold sps_pipe_inject_zlt
      by_cases hd : dev = 0
      · rw [if_pos hd]
      · rw [if_neg hd, if_pos hp]
  · intro hd hb hp
    have hp2 : ¬ pipe ≥ E.K.BAM_MAX_PIPES := not_le.mpr hp
    refine ⟨?_, ?_, ?_, ?_⟩
    · unfold sps_pipe_reset
      rw [if_neg hd, if_neg hp2]
      dsimp only
      rw [if_neg hb]
    · unfold sps_pipe_disable
      rw [if_neg hd, if_neg hp2]
      dsimp only
      rw [if_neg hb]
    · intro old
      unfold sps_pipe_pending_desc
      rw [if_neg hd, if_neg hp2]
      dsimp only
      rw [if_neg hb]
    · unfold sps_pipe_inject_zlt
      rw [if_neg hd, if_neg hp2]
      dsimp only
      rw [if_neg hb]

theorem raw_pipe_ops_index_check_witness :
    sps_pipe_reset ex_env ex_world 0x1000 31 = (ex_env.K.SPS_ERROR, ex_world) ∧
    sps_pipe_inject_zlt ex_env ex_world 0x1000 30
      = (0, ex_world.log (Event.sps_bam_pipe_inject_zlt 0x1000 30 0)) :=
  ⟨((raw_pipe_ops_index_check ex_env ex_world 0x1000 31).1 (by decide)).1,
    ((raw_pipe_ops_index_check ex_env ex_world 0x1000 30).2 (by decide) (by decide)
      (by decide)).2.2.2⟩

end Sps
